import Mathlib

/-!
# gopy `bind/gencpy.go`: the CPython binding generator

A shallow embedding of `cpyGen` (the generator of the C source of a CPython
extension module) and proofs about the text it emits.

The generator writes into two printers, `decl` and `impl`.  The printer, the
package model (`Package`, `Struct`, `Func`, `Signature`, `Var`) and the go/types
values are declared outside `gencpy.go`; they are modelled here as records whose
fields are the results of the accessor methods `gencpy.go` calls.  A printer is
modelled by the ordered log of the calls made on it, each with the indentation
level in force at the time of the call.
-/

set_option autoImplicit false

namespace Gopy

/-! ## Data model -/

/-- Value handed to a `Printf` verb. -/
inductive Arg where
  | str (s : String)
  | int (n : Nat)
  deriving DecidableEq, Repr

/-- Host type (go/types `Type`), with the results of the two classifiers
`cgoTypeName` and `needWrapType` that `gencpy.go` applies to it. -/
structure GoType where
  name : String
  cgoTypeName : String
  needWrapType : Bool
  deriving DecidableEq, Repr

/-- Parameter, result or receiver of a signature.  `funcArg` is what
`getFuncArg()` returns; `pyfmt` and `addr` are the two results of
`getArgParse()`. -/
structure Var where
  name : String
  typ : GoType
  funcArg : String
  pyfmt : String
  addr : String
  deriving DecidableEq, Repr

/-- Modelled from the spec: `Var.getFuncArg` is declared outside `gencpy.go`;
it returns the expression that supplies the value of the variable, taken here
as a field of the record. -/
def Var.getFuncArg (v : Var) : String := v.funcArg

/-- Modelled from the spec: `Var.getArgParse` is declared outside `gencpy.go`;
it returns the format fragment of the variable and the address to receive into,
taken here as fields of the record. -/
def Var.getArgParse (v : Var) : String × String := (v.pyfmt, v.addr)

/-- One call made on a printer: a `Printf` of `gencpy.go` itself (format and
arguments, verbatim), or one of the `Var` methods that write their own text. -/
inductive Op where
  | printf (format : String) (args : List Arg)
  | genDecl (v : Var)
  | genRecvDecl (v : Var)
  | genRecvImpl (v : Var)
  | genRetDecl (v : Var)
  | genFuncPreamble (v : Var)
  deriving DecidableEq, Repr

/-- Logged call together with the indentation level it was made at. -/
structure Emit where
  level : Nat
  op : Op
  deriving DecidableEq, Repr

/-- Modelled from the spec: the `printer` type is declared outside
`gencpy.go`; the spec describes it as an append-only output buffer.  It is the
log of the calls made on it plus the current indentation level. -/
structure printer where
  out : List Emit
  level : Nat
  deriving DecidableEq, Repr

/-- Append one call to the log at the current level. -/
def printer.write (p : printer) (op : Op) : printer :=
  { p with out := p.out ++ [⟨p.level, op⟩] }

/-- Go `p.Printf(format, args...)`: the call is appended to the log. -/
def printer.Printf (p : printer) (format : String) (args : List Arg) : printer :=
  p.write (.printf format args)

/-- Go `p.Indent()`. -/
def printer.Indent (p : printer) : printer := { p with level := p.level + 1 }

/-- Go `p.Outdent()`; the level does not go below zero. -/
def printer.Outdent (p : printer) : printer := { p with level := p.level - 1 }

/-- Modelled from the spec: `Var.genDecl` is declared outside `gencpy.go`; it
writes the native declaration of the variable.  The call is logged, its text is
left abstract. -/
def Var.genDecl (v : Var) (p : printer) : printer := p.write (.genDecl v)

/-- Modelled from the spec: `Var.genRecvDecl` is declared outside `gencpy.go`;
it writes the native declaration of the receiver.  The call is logged, its text
is left abstract. -/
def Var.genRecvDecl (v : Var) (p : printer) : printer := p.write (.genRecvDecl v)

/-- Modelled from the spec: `Var.genRecvImpl` is declared outside `gencpy.go`;
it writes the binding of the receiver.  The call is logged, its text is left
abstract. -/
def Var.genRecvImpl (v : Var) (p : printer) : printer := p.write (.genRecvImpl v)

/-- Modelled from the spec: `Var.genRetDecl` is declared outside `gencpy.go`;
it writes the native declaration of the scalar result local.  The call is
logged, its text is left abstract. -/
def Var.genRetDecl (v : Var) (p : printer) : printer := p.write (.genRetDecl v)

/-- Modelled from the spec: `Var.genFuncPreamble` is declared outside
`gencpy.go`; it writes the post-parse fix-up of a parameter.  The call is
logged, its text is left abstract. -/
def Var.genFuncPreamble (v : Var) (p : printer) : printer := p.write (.genFuncPreamble v)

/-- Signature of a function or method. -/
structure Signature where
  Results : List Var
  Params : List Var
  Recv : Option Var
  deriving DecidableEq, Repr

/-- Exposed callable: a free function or a method. -/
structure Func where
  GoName : String
  ID : String
  Doc : String
  sig : Signature
  deriving DecidableEq, Repr

/-- Modelled from the spec: `Func.Return` is declared outside `gencpy.go`.
The spec says the no-argument convention is used "when the method signature has
no result", which the code tests as `m.Return() == nil`; so the result is nil
exactly when the signature has no result. -/
def Func.Return (f : Func) : Option (List GoType) :=
  match f.sig.Results with
  | [] => none
  | r :: rs => some ((r :: rs).map Var.typ)

/-- Field of a struct type (go/types `Var`). -/
structure Field where
  Name : String
  Exported : Bool
  typ : GoType
  deriving DecidableEq, Repr

/-- Underlying struct type (go/types `Struct`). -/
structure TypesStruct where
  fields : List Field
  deriving DecidableEq, Repr

/-- Go `typ.NumFields()`. -/
def TypesStruct.NumFields (t : TypesStruct) : Nat := t.fields.length

/-- Host package (go/types `Package`). -/
structure TypesPackage where
  Name : String
  Path : String
  deriving DecidableEq, Repr

/-- Host object (go/types `Object`), of which only the package is read. -/
structure TypesObject where
  Pkg : TypesPackage
  deriving DecidableEq, Repr

/-- Exposed struct. -/
structure Struct where
  GoObj : TypesObject
  GoName : String
  ID : String
  Doc : String
  typ : TypesStruct
  meths : List Func
  deriving DecidableEq, Repr

/-- Package documentation (go/doc `Package`). -/
structure DocPackage where
  Doc : String
  deriving DecidableEq, Repr

/-- Unit of generation. -/
structure Package where
  pkg : TypesPackage
  doc : DocPackage
  structs : List Struct
  funcs : List Func
  deriving DecidableEq, Repr

/-- Accumulated generation errors. -/
abbrev ErrorList := List String

/-- Generator state (`fset` is never read by `gencpy.go`). -/
structure cpyGen where
  decl : printer
  impl : printer
  pkg : Package
  err : ErrorList
  deriving DecidableEq, Repr

/-! ## Library helpers -/

/-- Go `strings.Join(elems, sep)`. -/
def stringsJoin : List String → String → String
  | [], _ => ""
  | [a], _ => a
  | a :: b :: rest, sep => a ++ sep ++ stringsJoin (b :: rest) sep

/-- Go `filepath.Base(path)` with `/` as the separator. -/
def filepathBase (path : String) : String :=
  if path = "" then "."
  else
    let stripped := path.data.reverse.dropWhile (fun c => c = '/')
    let last := (stripped.takeWhile (fun c => c ≠ '/')).reverse
    if last = [] then "/" else String.mk last

/-! ## The generator -/

/-- Go `g.decl.Printf(format, args...)`. -/
def cpyGen.declPrintf (g : cpyGen) (format : String) (args : List Arg) : cpyGen :=
  { g with decl := g.decl.Printf format args }

/-- Go `g.impl.Printf(format, args...)`. -/
def cpyGen.implPrintf (g : cpyGen) (format : String) (args : List Arg) : cpyGen :=
  { g with impl := g.impl.Printf format args }

/-- Go `g.decl.Indent()`. -/
def cpyGen.declIndent (g : cpyGen) : cpyGen := { g with decl := g.decl.Indent }

/-- Go `g.decl.Outdent()`. -/
def cpyGen.declOutdent (g : cpyGen) : cpyGen := { g with decl := g.decl.Outdent }

/-- Go `g.impl.Indent()`. -/
def cpyGen.implIndent (g : cpyGen) : cpyGen := { g with impl := g.impl.Indent }

/-- Go `g.impl.Outdent()`. -/
def cpyGen.implOutdent (g : cpyGen) : cpyGen := { g with impl := g.impl.Outdent }

/-- Call of a `Var` method on `g.impl`, as in `arg.genDecl(g.impl)`. -/
def cpyGen.onImpl (g : cpyGen) (m : printer → printer) : cpyGen :=
  { g with impl := m g.impl }

/-- Method `cpyGen.genFuncBody` (gencpy.go:121-222). -/
def cpyGen.genFuncBody (g : cpyGen) (id : String) (sig : Signature) : cpyGen :=
  let funcArgs : List String := []
  let res := sig.Results
  let args := sig.Params
  let recv := sig.Recv
  -- if sig.Recv() != nil
  let (g, funcArgs) :=
    match recv with
    | some r => (g.onImpl r.genRecvDecl, funcArgs ++ [r.getFuncArg])
    | none => (g, funcArgs)
  -- for _, arg := range args
  let (g, funcArgs) :=
    args.foldl
      (fun (st : cpyGen × List String) arg =>
        (st.1.onImpl arg.genDecl, st.2 ++ [arg.getFuncArg]))
      (g, funcArgs)
  -- if len(res) > 0 { switch len(res) ... }
  let g :=
    if res.length > 0 then
      match res with
      | [ret] => g.onImpl ret.genRetDecl
      | _ => g.implPrintf "struct %[1]s_return c_gopy_ret;\n" [.str id]
    else g
  let g := g.implPrintf "\n" []
  let g :=
    match recv with
    | some r => g.onImpl r.genRecvImpl
    | none => g
  let g :=
    if args.length > 0 then
      let g := g.implPrintf "if (!PyArg_ParseTuple(args, " []
      let (format, pyaddrs) :=
        args.foldl
          (fun (st : List String × List String) arg =>
            (st.1 ++ [arg.getArgParse.1], st.2 ++ [arg.getArgParse.2]))
          (([] : List String), ([] : List String))
      let g := g.implPrintf "%q, %s)) \x7b\n"
        [.str (stringsJoin format ""), .str (stringsJoin pyaddrs ", ")]
      let g := g.implIndent
      let g := g.implPrintf "return NULL;\n" []
      let g := g.implOutdent
      g.implPrintf "\x7d\n\n" []
    else g
  let g :=
    if args.length > 0 then
      let g := args.foldl (fun (g : cpyGen) arg => g.onImpl arg.genFuncPreamble) g
      g.implPrintf "\n" []
    else g
  let g := if res.length > 0 then g.implPrintf "c_gopy_ret = " [] else g
  let g := g.implPrintf "GoPy_%[1]s(%[2]s);\n" [.str id, .str (stringsJoin funcArgs ", ")]
  let g := g.implPrintf "\n" []
  if res.length ≤ 0 then
    g.implPrintf "Py_INCREF(Py_None);\nreturn Py_None;\n" []
  else
    let (format, funcArgs) :=
      match res with
      | [ret] => ([ret.getArgParse.1], ["c_gopy_ret"])
      | _ =>
        res.foldl
          (fun (st : List String × List String) ret =>
            (st.1 ++ [ret.getArgParse.1], st.2 ++ [ret.getFuncArg]))
          (([] : List String), ([] : List String))
    g.implPrintf "return Py_BuildValue(%q, %s);\n"
      [.str (stringsJoin format ""), .str (stringsJoin funcArgs ", ")]

/-- Method `cpyGen.genFunc` (gencpy.go:103-119). -/
def cpyGen.genFunc (g : cpyGen) (o : Func) : cpyGen :=
  let g := g.implPrintf
    "\n/* pythonization of: %[1]s.%[2]s */\nstatic PyObject*\ngopy_%[3]s(PyObject *self, PyObject *args) \x7b\n"
    [.str g.pkg.pkg.Name, .str o.GoName, .str o.ID]
  let g := g.implIndent
  let g := g.genFuncBody o.ID o.sig
  let g := g.implOutdent
  g.implPrintf "\x7d\n\n" []

/-- Method `cpyGen.genMethodBody` (gencpy.go:538-540). -/
def cpyGen.genMethodBody (g : cpyGen) (_cpy : Struct) (fct : Func) : cpyGen :=
  g.genFuncBody fct.ID fct.sig

/-- Method `cpyGen.genMethod` (gencpy.go:517-536). -/
def cpyGen.genMethod (g : cpyGen) (cpy : Struct) (fct : Func) : cpyGen :=
  let pkgname := g.pkg.pkg.Name
  let g := g.declPrintf "/* wrapper of %[1]s.%[2]s */\n"
    [.str pkgname, .str (cpy.GoName ++ "." ++ fct.GoName)]
  let g := g.declPrintf "static PyObject*\n" []
  let g := g.declPrintf "gopy_%s(PyObject *self, PyObject *args);\n" [.str fct.ID]
  let g := g.implPrintf "/* wrapper of %[1]s.%[2]s */\n"
    [.str pkgname, .str (cpy.GoName ++ "." ++ fct.GoName)]
  let g := g.implPrintf "static PyObject*\n" []
  let g := g.implPrintf "gopy_%s(PyObject *self, PyObject *args) \x7b\n" [.str fct.ID]
  let g := g.implIndent
  let g := g.genMethodBody cpy fct
  let g := g.implOutdent
  g.implPrintf "\x7d\n\n" []

/-- Method `cpyGen.genStructDealloc` (gencpy.go:293-309). -/
def cpyGen.genStructDealloc (g : cpyGen) (cpy : Struct) : cpyGen :=
  let pkgname := cpy.GoObj.Pkg.Name
  let g := g.declPrintf "/* tp_dealloc for %s.%v */\n" [.str pkgname, .str cpy.GoName]
  let g := g.declPrintf "static void\n_gopy_%[1]s_dealloc(_gopy_%[1]s *self);\n" [.str cpy.ID]
  let g := g.implPrintf "/* tp_dealloc for %s.%v */\n" [.str pkgname, .str cpy.GoName]
  let g := g.implPrintf "static void\n_gopy_%[1]s_dealloc(_gopy_%[1]s *self) \x7b\n" [.str cpy.ID]
  let g := g.implIndent
  let g := g.implPrintf "self->ob_type->tp_free((PyObject*)self);\n" []
  let g := g.implOutdent
  g.implPrintf "\x7d\n\n" []

/-- Method `cpyGen.genStructNew` (gencpy.go:311-332). -/
def cpyGen.genStructNew (g : cpyGen) (cpy : Struct) : cpyGen :=
  let pkgname := cpy.GoObj.Pkg.Name
  let g := g.declPrintf "/* tp_new for %s.%v */\n" [.str pkgname, .str cpy.GoName]
  let g := g.declPrintf
    "static PyObject*\n_gopy_%s_new(PyTypeObject *type, PyObject *args, PyObject *kwds);\n"
    [.str cpy.ID]
  let g := g.implPrintf "/* tp_new */\n" []
  let g := g.implPrintf
    "static PyObject*\n_gopy_%s_new(PyTypeObject *type, PyObject *args, PyObject *kwds) \x7b\n"
    [.str cpy.ID]
  let g := g.implIndent
  let g := g.implPrintf "_gopy_%s *self;\n" [.str cpy.ID]
  let g := g.implPrintf "self = (_gopy_%s *)type->tp_alloc(type, 0);\n" [.str cpy.ID]
  let g := g.implPrintf "self->cgopy = GoPy_%s_new();\n" [.str cpy.ID]
  let g := g.implPrintf "return (PyObject*)self;\n" []
  let g := g.implOutdent
  g.implPrintf "\x7d\n\n" []

/-- Method `cpyGen.genStructInit` (gencpy.go:334-352). -/
def cpyGen.genStructInit (g : cpyGen) (cpy : Struct) : cpyGen :=
  let pkgname := cpy.GoObj.Pkg.Name
  let g := g.declPrintf "/* tp_init for %s.%v */\n" [.str pkgname, .str cpy.GoName]
  let g := g.declPrintf
    "static int\n_gopy_%[1]s_init(_gopy_%[1]s *self, PyObject *args, PyObject *kwds);\n"
    [.str cpy.ID]
  let g := g.implPrintf "/* tp_init */\n" []
  let g := g.implPrintf
    "static int\n_gopy_%[1]s_init(_gopy_%[1]s *self, PyObject *args, PyObject *kwds) \x7b\n"
    [.str cpy.ID]
  let g := g.implIndent
  let g := g.implPrintf "return 0;\n" []
  let g := g.implOutdent
  g.implPrintf "\x7d\n\n" []

/-- First loop of `genStructMembers` (gencpy.go:359-419), `for i := 0; i <
typ.NumFields(); i++`, run from index `i` over the fields `typ.Field(i)`,
`typ.Field(i+1)`, ... that remain. -/
def cpyGen.genStructMembersAccessors (cpy : Struct) : Nat → List Field → cpyGen → cpyGen
  | _, [], g => g
  | i, f :: fs, g =>
    if !f.Exported then
      -- continue
      cpyGen.genStructMembersAccessors cpy (i + 1) fs g
    else
      let ft := f.typ
      let g := g.declPrintf "static PyObject*\n" []
      let g := g.declPrintf
        "_gopy_%[1]s_getter_%[2]d(_gopy_%[1]s *self, void *closure); /* %[3]s */\n"
        [.str cpy.ID, .int (i + 1), .str f.Name]
      let g := g.implPrintf "static PyObject*\n" []
      let g := g.implPrintf
        "_gopy_%[1]s_getter_%[2]d(_gopy_%[1]s *self, void *closure) /* %[3]s */ \x7b\n"
        [.str cpy.ID, .int (i + 1), .str f.Name]
      let g := g.implIndent
      let ftname := ft.cgoTypeName
      let g :=
        if ft.needWrapType then
          let ftname := "GoPy_" ++ cpy.GoName ++ "_field_" ++ toString (i + 1)
          g.implPrintf "%[1]s ret = GoPy_%[2]s_getter_%[3]d(self->cgopy);\n"
            [.str ftname, .str cpy.ID, .int (i + 1)]
        else
          g.implPrintf "%[1]s ret = GoPy_%[2]s_getter_%[3]d(self->cgopy);\n"
            [.str ftname, .str cpy.ID, .int (i + 1)]
      let g := g.implPrintf "Py_RETURN_NONE;\n" []
      let g := g.implOutdent
      let g := g.implPrintf "\x7d\n\n" []
      let g := g.declPrintf "static int\n" []
      let g := g.declPrintf
        "_gopy_%[1]s_setter_%[2]d(_gopy_%[1]s *self, PyObject *value, void *closure);\n"
        [.str cpy.ID, .int (i + 1)]
      let g := g.implPrintf "static int\n" []
      let g := g.implPrintf
        "_gopy_%[1]s_setter_%[2]d(_gopy_%[1]s *self, PyObject *value, void *closure) \x7b\n"
        [.str cpy.ID, .int (i + 1)]
      let g := g.implIndent
      let g := g.implPrintf "return 0;\n" []
      let g := g.implOutdent
      let g := g.implPrintf "\x7d\n\n" []
      cpyGen.genStructMembersAccessors cpy (i + 1) fs g

/-- Second loop of `genStructMembers` (gencpy.go:424-434), run from index `i`
over the fields that remain. -/
def cpyGen.genStructMembersTable (cpy : Struct) : Nat → List Field → cpyGen → cpyGen
  | _, [], g => g
  | i, f :: fs, g =>
    if !f.Exported then
      -- continue
      cpyGen.genStructMembersTable cpy (i + 1) fs g
    else
      let doc := "doc for " ++ f.Name
      let g := g.implPrintf "\x7b%q, " [.str f.Name]
      let g := g.implPrintf "(getter)_gopy_%[1]s_getter_%[2]d, " [.str cpy.ID, .int (i + 1)]
      let g := g.implPrintf "(setter)_gopy_%[1]s_setter_%[2]d, " [.str cpy.ID, .int (i + 1)]
      let g := g.implPrintf "%q, NULL\x7d,\n" [.str doc]
      cpyGen.genStructMembersTable cpy (i + 1) fs g

/-- Method `cpyGen.genStructMembers` (gencpy.go:354-481). -/
def cpyGen.genStructMembers (g : cpyGen) (cpy : Struct) : cpyGen :=
  let pkgname := cpy.GoObj.Pkg.Name
  let typ := cpy.typ
  let g := g.declPrintf "/* tp_getset for %s.%v */\n" [.str pkgname, .str cpy.GoName]
  let g := cpyGen.genStructMembersAccessors cpy 0 typ.fields g
  let g := g.implPrintf "/* tp_getset for %s.%v */\n" [.str pkgname, .str cpy.GoName]
  let g := g.implPrintf "static PyGetSetDef _gopy_%s_getsets[] = \x7b\n" [.str cpy.ID]
  let g := g.implIndent
  let g := cpyGen.genStructMembersTable cpy 0 typ.fields g
  let g := g.implPrintf "\x7bNULL\x7d /* Sentinel */\n" []
  let g := g.implOutdent
  g.implPrintf "\x7d;\n\n" []

/-- Method `cpyGen.genStructMethods` (gencpy.go:483-515). -/
def cpyGen.genStructMethods (g : cpyGen) (cpy : Struct) : cpyGen :=
  let pkgname := cpy.GoObj.Pkg.Name
  let g := g.declPrintf "/* methods for %s.%s */\n\n" [.str pkgname, .str cpy.GoName]
  let g := cpy.meths.foldl (fun (g : cpyGen) m => g.genMethod cpy m) g
  let g := g.implPrintf "static PyMethodDef _gopy_%s_methods[] = \x7b\n" [.str cpy.ID]
  let g := g.implIndent
  let g := cpy.meths.foldl
    (fun (g : cpyGen) m =>
      let margs := "METH_VARARGS"
      let margs := if m.Return = none then "METH_NOARGS" else margs
      g.implPrintf "\x7b%[1]q, (PyCFunction)gopy_%[2]s, %[3]s, %[4]q\x7d,\n"
        [.str m.GoName, .str m.ID, .str margs, .str m.Doc])
    g
  let g := g.implPrintf "\x7bNULL\x7d /* sentinel */\n" []
  let g := g.implOutdent
  g.implPrintf "\x7d;\n\n" []

/-- Method `cpyGen.genStruct` (gencpy.go:224-291). -/
def cpyGen.genStruct (g : cpyGen) (cpy : Struct) : cpyGen :=
  let pkgname := cpy.GoObj.Pkg.Name
  let g := g.declPrintf "/* --- decls for struct %s.%v --- */\n" [.str pkgname, .str cpy.GoName]
  let g := g.declPrintf "typedef void* GoPy_%s;\n\n" [.str cpy.ID]
  let g := g.declPrintf "/* type for struct %s.%v\n" [.str pkgname, .str cpy.GoName]
  let g := g.declPrintf " */\ntypedef struct \x7b\n" []
  let g := g.declIndent
  let g := g.declPrintf "PyObject_HEAD\n" []
  let g := g.declPrintf "GoPy_%[1]s cgopy; /* unsafe.Pointer to %[1]s */\n" [.str cpy.ID]
  let g := g.declOutdent
  let g := g.declPrintf "\x7d _gopy_%s;\n" [.str cpy.ID]
  let g := g.declPrintf "\n\n" []
  let g := g.implPrintf "/* --- impl for %s.%v */\n\n" [.str pkgname, .str cpy.GoName]
  let g := g.genStructNew cpy
  let g := g.genStructDealloc cpy
  let g := g.genStructInit cpy
  let g := g.genStructMembers cpy
  let g := g.genStructMethods cpy
  let g := g.implPrintf "static PyTypeObject _gopy_%sType = \x7b\n" [.str cpy.ID]
  let g := g.implIndent
  let g := g.implPrintf "PyObject_HEAD_INIT(NULL)\n" []
  let g := g.implPrintf "0,\t/*ob_size*/\n" []
  let g := g.implPrintf "\"%s.%s\",\t/*tp_name*/\n" [.str pkgname, .str cpy.GoName]
  let g := g.implPrintf "sizeof(_gopy_%s),\t/*tp_basicsize*/\n" [.str cpy.ID]
  let g := g.implPrintf "0,\t/*tp_itemsize*/\n" []
  let g := g.implPrintf "(destructor)_gopy_%s_dealloc,\t/*tp_dealloc*/\n" [.str cpy.ID]
  let g := g.implPrintf "0,\t/*tp_print*/\n" []
  let g := g.implPrintf "0,\t/*tp_getattr*/\n" []
  let g := g.implPrintf "0,\t/*tp_setattr*/\n" []
  let g := g.implPrintf "0,\t/*tp_compare*/\n" []
  let g := g.implPrintf "0,\t/*tp_repr*/\n" []
  let g := g.implPrintf "0,\t/*tp_as_number*/\n" []
  let g := g.implPrintf "0,\t/*tp_as_sequence*/\n" []
  let g := g.implPrintf "0,\t/*tp_as_mapping*/\n" []
  let g := g.implPrintf "0,\t/*tp_hash */\n" []
  let g := g.implPrintf "0,\t/*tp_call*/\n" []
  let g := g.implPrintf "0,\t/*tp_str*/\n" []
  let g := g.implPrintf "0,\t/*tp_getattro*/\n" []
  let g := g.implPrintf "0,\t/*tp_setattro*/\n" []
  let g := g.implPrintf "0,\t/*tp_as_buffer*/\n" []
  let g := g.implPrintf "Py_TPFLAGS_DEFAULT,\t/*tp_flags*/\n" []
  let g := g.implPrintf "%q,\t/* tp_doc */\n" [.str cpy.Doc]
  let g := g.implPrintf "0,\t/* tp_traverse */\n" []
  let g := g.implPrintf "0,\t/* tp_clear */\n" []
  let g := g.implPrintf "0,\t/* tp_richcompare */\n" []
  let g := g.implPrintf "0,\t/* tp_weaklistoffset */\n" []
  let g := g.implPrintf "0,\t/* tp_iter */\n" []
  let g := g.implPrintf "0,\t/* tp_iternext */\n" []
  let g := g.implPrintf "_gopy_%s_methods,             /* tp_methods */\n" [.str cpy.ID]
  let g := g.implPrintf "0,\t/* tp_members */\n" []
  let g := g.implPrintf "_gopy_%s_getsets,\t/* tp_getset */\n" [.str cpy.ID]
  let g := g.implPrintf "0,\t/* tp_base */\n" []
  let g := g.implPrintf "0,\t/* tp_dict */\n" []
  let g := g.implPrintf "0,\t/* tp_descr_get */\n" []
  let g := g.implPrintf "0,\t/* tp_descr_set */\n" []
  let g := g.implPrintf "0,\t/* tp_dictoffset */\n" []
  let g := g.implPrintf "(initproc)_gopy_%s_init,      /* tp_init */\n" [.str cpy.ID]
  let g := g.implPrintf "0,                         /* tp_alloc */\n" []
  let g := g.implPrintf "_gopy_%s_new,\t/* tp_new */\n" [.str cpy.ID]
  let g := g.implOutdent
  g.implPrintf "\x7d;\n\n" []

/-- The format `cPreamble` (gencpy.go:14-33). -/
def cPreamble : String :=
  "/*\n  C stubs for package %[1]s.\n  gopy gen -lang=python %[1]s\n\n  File is generated by gopy gen. Do not edit.\n*/\n\n#ifdef _POSIX_C_SOURCE\n#undef _POSIX_C_SOURCE\n#endif\n\n#include \"Python.h\"\n#include \"structmember.h\"\n\n// header exported from \x27go tool cgo\x27\n#include \"%[3]s.h\"\n\n"

/-- Method `cpyGen.genPreamble` (gencpy.go:542-545). -/
def cpyGen.genPreamble (g : cpyGen) : cpyGen :=
  let n := g.pkg.pkg.Name
  g.declPrintf cPreamble [.str n, .str g.pkg.pkg.Path, .str (filepathBase n)]

/-- Method `cpyGen.gen` (gencpy.go:44-101): the final state and the returned error
(`none` is Go's nil). -/
def cpyGen.gen (g : cpyGen) : cpyGen × Option ErrorList :=
  let g := g.genPreamble
  -- first, process structs
  let g := g.pkg.structs.foldl (fun (g : cpyGen) s => g.genStruct s) g
  let g := g.pkg.funcs.foldl (fun (g : cpyGen) f => g.genFunc f) g
  let g := g.implPrintf "static PyMethodDef cpy_%s_methods[] = \x7b\n" [.str g.pkg.pkg.Name]
  let g := g.implIndent
  let g := g.pkg.funcs.foldl
    (fun (g : cpyGen) f =>
      let name := f.GoName
      g.implPrintf "\x7b%[1]q, %[2]s, METH_VARARGS, %[3]q\x7d,\n"
        [.str name, .str ("gopy_" ++ f.ID), .str f.Doc])
    g
  let g := g.implPrintf "\x7bNULL, NULL, 0, NULL\x7d        /* Sentinel */\n" []
  let g := g.implOutdent
  let g := g.implPrintf "\x7d;\n\n" []
  let g := g.implPrintf "PyMODINIT_FUNC\ninit%[1]s(void)\n\x7b\n" [.str g.pkg.pkg.Name]
  let g := g.implIndent
  let g := g.implPrintf "PyObject *module = NULL;\n\n" []
  let g := g.pkg.structs.foldl
    (fun (g : cpyGen) s =>
      g.implPrintf "if (PyType_Ready(&_gopy_%sType) < 0) \x7b return; \x7d\n" [.str s.ID])
    g
  let g := g.implPrintf "module = Py_InitModule3(%[1]q, cpy_%[1]s_methods, %[2]q);\n\n"
    [.str g.pkg.pkg.Name, .str g.pkg.doc.Doc]
  let g := g.pkg.structs.foldl
    (fun (g : cpyGen) s =>
      let g := g.implPrintf "Py_INCREF(&_gopy_%sType);\n" [.str s.ID]
      g.implPrintf "PyModule_AddObject(module, %q, (PyObject*)&_gopy_%sType);\n\n"
        [.str s.GoName, .str s.ID])
    g
  let g := g.implOutdent
  let g := g.implPrintf "\x7d\n\n" []
  if g.err.length > 0 then (g, some g.err) else (g, none)

/-! ## Reading the logs -/

/-- A `Printf` call at level `l`. -/
def pf (l : Nat) (format : String) (args : List Arg) : Emit := ⟨l, .printf format args⟩

/-- Whether the call is a `Printf` with exactly this format. -/
def Emit.isPrintf (format : String) (e : Emit) : Bool :=
  match e.op with
  | .printf f _ => f == format
  | _ => false

/-- The calls appended to the definitions log between `g` and `g'`. -/
def implNew (g g' : cpyGen) : List Emit := g'.impl.out.drop g.impl.out.length

/-- The calls appended to the declarations log between `g` and `g'`. -/
def declNew (g g' : cpyGen) : List Emit := g'.decl.out.drop g.decl.out.length

/-- The calls strictly between the first `Printf` with format `header` and the
first `Printf` with format `closer` that follows it: the body of a table. -/
def tableBody (header closer : String) (log : List Emit) : List Emit :=
  ((log.dropWhile (fun e => !e.isPrintf header)).drop 1).takeWhile (fun e => !e.isPrintf closer)

/-- The generator after `d` is appended to the declarations log and `i` to the
definitions log. -/
def cpyGen.extend (g : cpyGen) (d i : List Emit) : cpyGen :=
  { g with decl := { g.decl with out := g.decl.out ++ d },
           impl := { g.impl with out := g.impl.out ++ i } }

/-! ## What each operation appends -/

/-- Locals declared by `genFuncBody`: receiver, parameters, result. -/
def bodyDecls (l : Nat) (id : String) (sig : Signature) : List Emit :=
  sig.Recv.toList.map (fun r => ⟨l, .genRecvDecl r⟩)
    ++ sig.Params.map (fun a => ⟨l, .genDecl a⟩)
    ++ (match sig.Results with
        | [] => []
        | [ret] => [⟨l, .genRetDecl ret⟩]
        | _ => [pf l "struct %[1]s_return c_gopy_ret;\n" [.str id]])

/-- The argument-parse call and its failure guard. -/
def bodyParse (l : Nat) (args : List Var) : List Emit :=
  [pf l "if (!PyArg_ParseTuple(args, " [],
   pf l "%q, %s)) \x7b\n"
     [.str (stringsJoin (args.map Var.pyfmt) ""), .str (stringsJoin (args.map Var.addr) ", ")],
   pf (l + 1) "return NULL;\n" [],
   pf l "\x7d\n\n" []]

/-- The underlying call. -/
def bodyCall (l : Nat) (id : String) (sig : Signature) : Emit :=
  pf l "GoPy_%[1]s(%[2]s);\n"
    [.str id,
     .str (stringsJoin (sig.Recv.toList.map Var.funcArg ++ sig.Params.map Var.funcArg) ", ")]

/-- The final return of a wrapper body. -/
def bodyReturn (l : Nat) (res : List Var) : Emit :=
  match res with
  | [] => pf l "Py_INCREF(Py_None);\nreturn Py_None;\n" []
  | [ret] => pf l "return Py_BuildValue(%q, %s);\n" [.str ret.pyfmt, .str "c_gopy_ret"]
  | _ => pf l "return Py_BuildValue(%q, %s);\n"
      [.str (stringsJoin (res.map Var.pyfmt) ""), .str (stringsJoin (res.map Var.funcArg) ", ")]

/-- Everything `genFuncBody` appends to the definitions log. -/
def bodyOut (l : Nat) (id : String) (sig : Signature) : List Emit :=
  bodyDecls l id sig ++ [pf l "\n" []]
    ++ sig.Recv.toList.map (fun r => ⟨l, .genRecvImpl r⟩)
    ++ (if sig.Params = [] then []
        else bodyParse l sig.Params
          ++ sig.Params.map (fun a => ⟨l, .genFuncPreamble a⟩) ++ [pf l "\n" []])
    ++ (if sig.Results = [] then [] else [pf l "c_gopy_ret = " []])
    ++ [bodyCall l id sig, pf l "\n" [], bodyReturn l sig.Results]

/-- Definitions log of `genFunc`. -/
def funcImpl (pkg : Package) (l : Nat) (o : Func) : List Emit :=
  [pf l "\n/* pythonization of: %[1]s.%[2]s */\nstatic PyObject*\ngopy_%[3]s(PyObject *self, PyObject *args) \x7b\n"
     [.str pkg.pkg.Name, .str o.GoName, .str o.ID]]
    ++ bodyOut (l + 1) o.ID o.sig ++ [pf l "\x7d\n\n" []]

/-- Declarations log of `genMethod`. -/
def methodDecl (pkg : Package) (l : Nat) (cpy : Struct) (fct : Func) : List Emit :=
  [pf l "/* wrapper of %[1]s.%[2]s */\n" [.str pkg.pkg.Name, .str (cpy.GoName ++ "." ++ fct.GoName)],
   pf l "static PyObject*\n" [],
   pf l "gopy_%s(PyObject *self, PyObject *args);\n" [.str fct.ID]]

/-- Definitions log of `genMethod`. -/
def methodImpl (pkg : Package) (l : Nat) (cpy : Struct) (fct : Func) : List Emit :=
  [pf l "/* wrapper of %[1]s.%[2]s */\n" [.str pkg.pkg.Name, .str (cpy.GoName ++ "." ++ fct.GoName)],
   pf l "static PyObject*\n" [],
   pf l "gopy_%s(PyObject *self, PyObject *args) \x7b\n" [.str fct.ID]]
    ++ bodyOut (l + 1) fct.ID fct.sig ++ [pf l "\x7d\n\n" []]

/-- Declarations log of `genStructDealloc`. -/
def deallocDecl (l : Nat) (cpy : Struct) : List Emit :=
  [pf l "/* tp_dealloc for %s.%v */\n" [.str cpy.GoObj.Pkg.Name, .str cpy.GoName],
   pf l "static void\n_gopy_%[1]s_dealloc(_gopy_%[1]s *self);\n" [.str cpy.ID]]

/-- Definitions log of `genStructDealloc`. -/
def deallocImpl (l : Nat) (cpy : Struct) : List Emit :=
  [pf l "/* tp_dealloc for %s.%v */\n" [.str cpy.GoObj.Pkg.Name, .str cpy.GoName],
   pf l "static void\n_gopy_%[1]s_dealloc(_gopy_%[1]s *self) \x7b\n" [.str cpy.ID],
   pf (l + 1) "self->ob_type->tp_free((PyObject*)self);\n" [],
   pf l "\x7d\n\n" []]

/-- Declarations log of `genStructNew`. -/
def newDecl (l : Nat) (cpy : Struct) : List Emit :=
  [pf l "/* tp_new for %s.%v */\n" [.str cpy.GoObj.Pkg.Name, .str cpy.GoName],
   pf l "static PyObject*\n_gopy_%s_new(PyTypeObject *type, PyObject *args, PyObject *kwds);\n"
     [.str cpy.ID]]

/-- Definitions log of `genStructNew`. -/
def newImpl (l : Nat) (cpy : Struct) : List Emit :=
  [pf l "/* tp_new */\n" [],
   pf l "static PyObject*\n_gopy_%s_new(PyTypeObject *type, PyObject *args, PyObject *kwds) \x7b\n"
     [.str cpy.ID],
   pf (l + 1) "_gopy_%s *self;\n" [.str cpy.ID],
   pf (l + 1) "self = (_gopy_%s *)type->tp_alloc(type, 0);\n" [.str cpy.ID],
   pf (l + 1) "self->cgopy = GoPy_%s_new();\n" [.str cpy.ID],
   pf (l + 1) "return (PyObject*)self;\n" [],
   pf l "\x7d\n\n" []]

/-- Declarations log of `genStructInit`. -/
def initDecl (l : Nat) (cpy : Struct) : List Emit :=
  [pf l "/* tp_init for %s.%v */\n" [.str cpy.GoObj.Pkg.Name, .str cpy.GoName],
   pf l "static int\n_gopy_%[1]s_init(_gopy_%[1]s *self, PyObject *args, PyObject *kwds);\n"
     [.str cpy.ID]]

/-- Definitions log of `genStructInit`. -/
def initImpl (l : Nat) (cpy : Struct) : List Emit :=
  [pf l "/* tp_init */\n" [],
   pf l "static int\n_gopy_%[1]s_init(_gopy_%[1]s *self, PyObject *args, PyObject *kwds) \x7b\n"
     [.str cpy.ID],
   pf (l + 1) "return 0;\n" [],
   pf l "\x7d\n\n" []]

/-- The fields that are exported, each with its 0-based position among all the
fields of the struct, counted from `i`. -/
def exportedFrom (i : Nat) (fs : List Field) : List (Nat × Field) :=
  (fs.enumFrom i).filter (fun p => p.2.Exported)

/-- Name of the local type of a getter: the alias for a wrapped type, the cgo
name otherwise. -/
def getterTypeName (cpy : Struct) (n : Nat) (ft : GoType) : String :=
  if ft.needWrapType then "GoPy_" ++ cpy.GoName ++ "_field_" ++ toString n else ft.cgoTypeName

/-- Accessor declarations of the field at 0-based position `p.1`. -/
def accessorDecl (l : Nat) (cpy : Struct) (p : Nat × Field) : List Emit :=
  [pf l "static PyObject*\n" [],
   pf l "_gopy_%[1]s_getter_%[2]d(_gopy_%[1]s *self, void *closure); /* %[3]s */\n"
     [.str cpy.ID, .int (p.1 + 1), .str p.2.Name],
   pf l "static int\n" [],
   pf l "_gopy_%[1]s_setter_%[2]d(_gopy_%[1]s *self, PyObject *value, void *closure);\n"
     [.str cpy.ID, .int (p.1 + 1)]]

/-- Accessor definitions of the field at 0-based position `p.1`. -/
def accessorImpl (l : Nat) (cpy : Struct) (p : Nat × Field) : List Emit :=
  [pf l "static PyObject*\n" [],
   pf l "_gopy_%[1]s_getter_%[2]d(_gopy_%[1]s *self, void *closure) /* %[3]s */ \x7b\n"
     [.str cpy.ID, .int (p.1 + 1), .str p.2.Name],
   pf (l + 1) "%[1]s ret = GoPy_%[2]s_getter_%[3]d(self->cgopy);\n"
     [.str (getterTypeName cpy (p.1 + 1) p.2.typ), .str cpy.ID, .int (p.1 + 1)],
   pf (l + 1) "Py_RETURN_NONE;\n" [],
   pf l "\x7d\n\n" [],
   pf l "static int\n" [],
   pf l "_gopy_%[1]s_setter_%[2]d(_gopy_%[1]s *self, PyObject *value, void *closure) \x7b\n"
     [.str cpy.ID, .int (p.1 + 1)],
   pf (l + 1) "return 0;\n" [],
   pf l "\x7d\n\n" []]

/-- Registration-table entry of the field at 0-based position `p.1`. -/
def getsetRow (l : Nat) (cpy : Struct) (p : Nat × Field) : List Emit :=
  [pf l "\x7b%q, " [.str p.2.Name],
   pf l "(getter)_gopy_%[1]s_getter_%[2]d, " [.str cpy.ID, .int (p.1 + 1)],
   pf l "(setter)_gopy_%[1]s_setter_%[2]d, " [.str cpy.ID, .int (p.1 + 1)],
   pf l "%q, NULL\x7d,\n" [.str ("doc for " ++ p.2.Name)]]

/-- Declarations log of `genStructMembers`. -/
def membersDecl (l : Nat) (cpy : Struct) : List Emit :=
  [pf l "/* tp_getset for %s.%v */\n" [.str cpy.GoObj.Pkg.Name, .str cpy.GoName]]
    ++ (exportedFrom 0 cpy.typ.fields).flatMap (accessorDecl l cpy)

/-- Definitions log of `genStructMembers`. -/
def membersImpl (l : Nat) (cpy : Struct) : List Emit :=
  (exportedFrom 0 cpy.typ.fields).flatMap (accessorImpl l cpy)
    ++ [pf l "/* tp_getset for %s.%v */\n" [.str cpy.GoObj.Pkg.Name, .str cpy.GoName],
        pf l "static PyGetSetDef _gopy_%s_getsets[] = \x7b\n" [.str cpy.ID]]
    ++ (exportedFrom 0 cpy.typ.fields).flatMap (getsetRow (l + 1) cpy)
    ++ [pf (l + 1) "\x7bNULL\x7d /* Sentinel */\n" [],
        pf l "\x7d;\n\n" []]

/-- Calling convention `genStructMethods` registers for a method. -/
def methodConvention (m : Func) : String :=
  if m.sig.Results = [] then "METH_NOARGS" else "METH_VARARGS"

/-- Method-table entry of a method. -/
def methodRow (l : Nat) (m : Func) : Emit :=
  pf l "\x7b%[1]q, (PyCFunction)gopy_%[2]s, %[3]s, %[4]q\x7d,\n"
    [.str m.GoName, .str m.ID, .str (methodConvention m), .str m.Doc]

/-- Declarations log of `genStructMethods`. -/
def methodsDecl (pkg : Package) (l : Nat) (cpy : Struct) : List Emit :=
  [pf l "/* methods for %s.%s */\n\n" [.str cpy.GoObj.Pkg.Name, .str cpy.GoName]]
    ++ cpy.meths.flatMap (methodDecl pkg l cpy)

/-- Definitions log of `genStructMethods`. -/
def methodsImpl (pkg : Package) (l : Nat) (cpy : Struct) : List Emit :=
  cpy.meths.flatMap (methodImpl pkg l cpy)
    ++ [pf l "static PyMethodDef _gopy_%s_methods[] = \x7b\n" [.str cpy.ID]]
    ++ cpy.meths.map (methodRow (l + 1))
    ++ [pf (l + 1) "\x7bNULL\x7d /* sentinel */\n" [],
        pf l "\x7d;\n\n" []]

/-- The slots of the type descriptor, between its opening and closing lines. -/
def descriptorSlots (l : Nat) (cpy : Struct) : List Emit :=
  [pf l "PyObject_HEAD_INIT(NULL)\n" [],
   pf l "0,\t/*ob_size*/\n" [],
   pf l "\"%s.%s\",\t/*tp_name*/\n" [.str cpy.GoObj.Pkg.Name, .str cpy.GoName],
   pf l "sizeof(_gopy_%s),\t/*tp_basicsize*/\n" [.str cpy.ID],
   pf l "0,\t/*tp_itemsize*/\n" [],
   pf l "(destructor)_gopy_%s_dealloc,\t/*tp_dealloc*/\n" [.str cpy.ID],
   pf l "0,\t/*tp_print*/\n" [],
   pf l "0,\t/*tp_getattr*/\n" [],
   pf l "0,\t/*tp_setattr*/\n" [],
   pf l "0,\t/*tp_compare*/\n" [],
   pf l "0,\t/*tp_repr*/\n" [],
   pf l "0,\t/*tp_as_number*/\n" [],
   pf l "0,\t/*tp_as_sequence*/\n" [],
   pf l "0,\t/*tp_as_mapping*/\n" [],
   pf l "0,\t/*tp_hash */\n" [],
   pf l "0,\t/*tp_call*/\n" [],
   pf l "0,\t/*tp_str*/\n" [],
   pf l "0,\t/*tp_getattro*/\n" [],
   pf l "0,\t/*tp_setattro*/\n" [],
   pf l "0,\t/*tp_as_buffer*/\n" [],
   pf l "Py_TPFLAGS_DEFAULT,\t/*tp_flags*/\n" [],
   pf l "%q,\t/* tp_doc */\n" [.str cpy.Doc],
   pf l "0,\t/* tp_traverse */\n" [],
   pf l "0,\t/* tp_clear */\n" [],
   pf l "0,\t/* tp_richcompare */\n" [],
   pf l "0,\t/* tp_weaklistoffset */\n" [],
   pf l "0,\t/* tp_iter */\n" [],
   pf l "0,\t/* tp_iternext */\n" [],
   pf l "_gopy_%s_methods,             /* tp_methods */\n" [.str cpy.ID],
   pf l "0,\t/* tp_members */\n" [],
   pf l "_gopy_%s_getsets,\t/* tp_getset */\n" [.str cpy.ID],
   pf l "0,\t/* tp_base */\n" [],
   pf l "0,\t/* tp_dict */\n" [],
   pf l "0,\t/* tp_descr_get */\n" [],
   pf l "0,\t/* tp_descr_set */\n" [],
   pf l "0,\t/* tp_dictoffset */\n" [],
   pf l "(initproc)_gopy_%s_init,      /* tp_init */\n" [.str cpy.ID],
   pf l "0,                         /* tp_alloc */\n" [],
   pf l "_gopy_%s_new,\t/* tp_new */\n" [.str cpy.ID]]

/-- Declarations `genStruct` writes itself, before the hooks. -/
def structHead (l : Nat) (cpy : Struct) : List Emit :=
  [pf l "/* --- decls for struct %s.%v --- */\n" [.str cpy.GoObj.Pkg.Name, .str cpy.GoName],
   pf l "typedef void* GoPy_%s;\n\n" [.str cpy.ID],
   pf l "/* type for struct %s.%v\n" [.str cpy.GoObj.Pkg.Name, .str cpy.GoName],
   pf l " */\ntypedef struct \x7b\n" [],
   pf (l + 1) "PyObject_HEAD\n" [],
   pf (l + 1) "GoPy_%[1]s cgopy; /* unsafe.Pointer to %[1]s */\n" [.str cpy.ID],
   pf l "\x7d _gopy_%s;\n" [.str cpy.ID],
   pf l "\n\n" []]

/-- Declarations log of `genStruct`. -/
def structDecl (pkg : Package) (l : Nat) (cpy : Struct) : List Emit :=
  structHead l cpy ++ newDecl l cpy ++ deallocDecl l cpy ++ initDecl l cpy
    ++ membersDecl l cpy ++ methodsDecl pkg l cpy

/-- Definitions log of `genStruct`. -/
def structImpl (pkg : Package) (l : Nat) (cpy : Struct) : List Emit :=
  [pf l "/* --- impl for %s.%v */\n\n" [.str cpy.GoObj.Pkg.Name, .str cpy.GoName]]
    ++ newImpl l cpy ++ deallocImpl l cpy ++ initImpl l cpy
    ++ membersImpl l cpy ++ methodsImpl pkg l cpy
    ++ [pf l "static PyTypeObject _gopy_%sType = \x7b\n" [.str cpy.ID]]
    ++ descriptorSlots (l + 1) cpy
    ++ [pf l "\x7d;\n\n" []]

/-- Entry of the module-level function table for a free function. -/
def moduleRow (l : Nat) (f : Func) : Emit :=
  pf l "\x7b%[1]q, %[2]s, METH_VARARGS, %[3]q\x7d,\n"
    [.str f.GoName, .str ("gopy_" ++ f.ID), .str f.Doc]

/-- The module-initialization routine `gen` appends last. -/
def moduleInit (l : Nat) (pkg : Package) : List Emit :=
  [pf l "PyMODINIT_FUNC\ninit%[1]s(void)\n\x7b\n" [.str pkg.pkg.Name],
   pf (l + 1) "PyObject *module = NULL;\n\n" []]
    ++ pkg.structs.map
        (fun s => pf (l + 1) "if (PyType_Ready(&_gopy_%sType) < 0) \x7b return; \x7d\n" [.str s.ID])
    ++ [pf (l + 1) "module = Py_InitModule3(%[1]q, cpy_%[1]s_methods, %[2]q);\n\n"
          [.str pkg.pkg.Name, .str pkg.doc.Doc]]
    ++ pkg.structs.flatMap
        (fun s =>
          [pf (l + 1) "Py_INCREF(&_gopy_%sType);\n" [.str s.ID],
           pf (l + 1) "PyModule_AddObject(module, %q, (PyObject*)&_gopy_%sType);\n\n"
             [.str s.GoName, .str s.ID]])
    ++ [pf l "\x7d\n\n" []]

/-- Declarations log of `gen`. -/
def genDecl (ld : Nat) (pkg : Package) : List Emit :=
  [pf ld cPreamble [.str pkg.pkg.Name, .str pkg.pkg.Path, .str (filepathBase pkg.pkg.Name)]]
    ++ pkg.structs.flatMap (structDecl pkg ld)

/-- Definitions log of `gen`. -/
def genImpl (l : Nat) (pkg : Package) : List Emit :=
  pkg.structs.flatMap (structImpl pkg l)
    ++ pkg.funcs.flatMap (funcImpl pkg l)
    ++ [pf l "static PyMethodDef cpy_%s_methods[] = \x7b\n" [.str pkg.pkg.Name]]
    ++ pkg.funcs.map (moduleRow (l + 1))
    ++ [pf (l + 1) "\x7bNULL, NULL, 0, NULL\x7d        /* Sentinel */\n" [],
        pf l "\x7d;\n\n" []]
    ++ moduleInit l pkg

/-! ## Tables and their entries -/

/-- No call of the log is a `Printf` with this format. -/
def noFmt (format : String) (log : List Emit) : Prop := ∀ e ∈ log, e.isPrintf format = false

/-- Format that opens a getter/setter table. -/
def getsetsHeader : String := "static PyGetSetDef _gopy_%s_getsets[] = \x7b\n"

/-- Format that opens the method table of a struct. -/
def methodsHeader : String := "static PyMethodDef _gopy_%s_methods[] = \x7b\n"

/-- Format that opens the type descriptor of a struct. -/
def descriptorHeader : String := "static PyTypeObject _gopy_%sType = \x7b\n"

/-- Format that opens the module-level function table. -/
def moduleHeader : String := "static PyMethodDef cpy_%s_methods[] = \x7b\n"

/-- Format that closes a table. -/
def tableCloser : String := "\x7d;\n\n"

/-- Format that opens one entry of a getter/setter table. -/
def getsetOpener : String := "\x7b%q, "

/-- First argument of a `Printf` call, when it is a string. -/
def Emit.strArg (e : Emit) : Option String :=
  match e.op with
  | .printf _ (.str s :: _) => some s
  | _ => none

/-- Names of the entries of a getter/setter table body, in order: the string
quoted by each entry opener. -/
def entryNames (body : List Emit) : List String :=
  (body.filter (fun e => e.isPrintf getsetOpener)).filterMap Emit.strArg

/-- Body of the getter/setter table that `genStructMembers` appends. -/
def getsetsTable (g : cpyGen) (cpy : Struct) : List Emit :=
  tableBody getsetsHeader tableCloser (implNew g (g.genStructMembers cpy))

/-- The formats `genFuncBody` prints itself. -/
def bodyFormats : List String :=
  ["struct %[1]s_return c_gopy_ret;\n", "\n", "if (!PyArg_ParseTuple(args, ",
   "%q, %s)) \x7b\n", "return NULL;\n", "\x7d\n\n", "c_gopy_ret = ", "GoPy_%[1]s(%[2]s);\n",
   "Py_INCREF(Py_None);\nreturn Py_None;\n", "return Py_BuildValue(%q, %s);\n"]

/-- Body of the method table in what `genStruct` appends. -/
def structMethodsTable (g : cpyGen) (cpy : Struct) : List Emit :=
  tableBody methodsHeader tableCloser (implNew g (g.genStruct cpy))

/-- Body of the getter/setter table in what `genStruct` appends. -/
def structGetsetsTable (g : cpyGen) (cpy : Struct) : List Emit :=
  tableBody getsetsHeader tableCloser (implNew g (g.genStruct cpy))

/-- Slots of the type descriptor in what `genStruct` appends. -/
def structDescriptor (g : cpyGen) (cpy : Struct) : List Emit :=
  tableBody descriptorHeader tableCloser (implNew g (g.genStruct cpy))

/-- Whether the format of a `Printf` call ends its line. -/
def Emit.endsLine (e : Emit) : Bool :=
  match e.op with
  | .printf f _ => f.data.getLast? == some '\n'
  | _ => false

/-- What `genFuncBody` appends to the definitions log. -/
def bodyNew (g : cpyGen) (id : String) (sig : Signature) : List Emit :=
  implNew g (g.genFuncBody id sig)

/-- Format that opens the argument-parse call. -/
def parseOpener : String := "if (!PyArg_ParseTuple(args, "

/-- Format that carries the parse format string and the destination list. -/
def parseArgsFormat : String := "%q, %s)) \x7b\n"

/-- Format of the underlying call. -/
def callFormat : String := "GoPy_%[1]s(%[2]s);\n"

/-- Format that assigns the value of the underlying call. -/
def assignFormat : String := "c_gopy_ret = "

/-- Format of the pack call that returns the results. -/
def packFormat : String := "return Py_BuildValue(%q, %s);\n"

/-- Format that returns the None singleton. -/
def noneFormat : String := "Py_INCREF(Py_None);\nreturn Py_None;\n"

/-- Format that declares the aggregate result local. -/
def aggregateFormat : String := "struct %[1]s_return c_gopy_ret;\n"

/-- No call of the log satisfies `p`. -/
def noneOf (p : Emit → Bool) (log : List Emit) : Prop := ∀ e ∈ log, p e = false

/-- Whether the call declares a result local: the scalar one of `genRetDecl` or
the aggregate one. -/
def Emit.isResultLocal (e : Emit) : Bool :=
  match e.op with
  | .genRetDecl _ => true
  | .printf f _ => f == aggregateFormat
  | _ => false

/-- Everything `genFuncBody` appends before the argument parsing. -/
def bodyHead (l : Nat) (id : String) (sig : Signature) : List Emit :=
  bodyDecls l id sig ++ [pf l "\n" []] ++ sig.Recv.toList.map (fun r => ⟨l, .genRecvImpl r⟩)

/-- Everything `genFuncBody` appends between the parse guard and the call. -/
def bodyMid (l : Nat) (sig : Signature) : List Emit :=
  (if sig.Params = [] then []
    else sig.Params.map (fun a => ⟨l, .genFuncPreamble a⟩) ++ [pf l "\n" []])
  ++ (if sig.Results = [] then [] else [pf l "c_gopy_ret = " []])

/-- Whether some character after a newline starts the keyword. -/
def afterNewline (kw : List Char) : List Char → Bool
  | [] => false
  | c :: cs => (c == '\n' && kw.isPrefixOf cs) || afterNewline kw cs

/-- Whether some line of the format starts with the keyword. -/
def startsLine (kw format : String) : Bool :=
  kw.data.isPrefixOf format.data || afterNewline kw.data format.data

/-- Whether the call is a `Printf` with a line that starts with `return`. -/
def Emit.isReturn (e : Emit) : Bool :=
  match e.op with
  | .printf f _ => startsLine "return" f
  | _ => false

/-- Values handed to the pack call: the scalar local for one result, the
expression of each result otherwise. -/
def packValues (res : List Var) : List String :=
  if res.length = 1 then ["c_gopy_ret"] else res.map Var.getFuncArg

/-- Body of the method table that `genStructMethods` appends. -/
def methodsTable (g : cpyGen) (cpy : Struct) : List Emit :=
  tableBody methodsHeader tableCloser (implNew g (g.genStructMethods cpy))

/-- The type `float64`. -/
def float64 : GoType := ⟨"float64", "GoFloat64", false⟩

/-- Method `Area() float64` of `Circle`. -/
def circleArea : Func :=
  { GoName := "Area", ID := "shapes_Circle_Area", Doc := "Area returns the area.",
    sig := { Results := [⟨"", float64, "c_gopy_ret", "d", "&c_gopy_ret"⟩], Params := [],
             Recv := some ⟨"c", ⟨"Circle", "GoPy_shapes_Circle", true⟩, "c_c", "O", "&c_c"⟩ } }

/-- Struct `Circle{Radius float64}` of package `shapes`. -/
def circle : Struct :=
  { GoObj := ⟨⟨"shapes", "shapes"⟩⟩, GoName := "Circle", ID := "shapes_Circle",
    Doc := "Circle is a circle.", typ := ⟨[⟨"Radius", true, float64⟩]⟩, meths := [circleArea] }

/-- Package `shapes`. -/
def shapes : Package :=
  { pkg := ⟨"shapes", "shapes"⟩, doc := ⟨"Package shapes."⟩, structs := [circle], funcs := [] }

/-- Generator for `shapes` with empty logs and no error. -/
def gShapes : cpyGen := ⟨⟨[], 0⟩, ⟨[], 0⟩, shapes, []⟩

/-- Body of the module-level function table that `gen` appends. -/
def moduleTable (g : cpyGen) : List Emit :=
  tableBody moduleHeader tableCloser (implNew g g.gen.1)

/-- Format with which `genFunc` opens the definition of a wrapper. -/
def funcHeaderFormat : String :=
  "\n/* pythonization of: %[1]s.%[2]s */\nstatic PyObject*\ngopy_%[3]s(PyObject *self, PyObject *args) \x7b\n"

/-- The type `int`. -/
def goInt : GoType := ⟨"int", "GoInt", false⟩

/-- Free function `Add(a, b int) int`. -/
def addFunc : Func :=
  { GoName := "Add", ID := "shapes_Add", Doc := "Add returns a+b.",
    sig := { Results := [⟨"", goInt, "c_gopy_ret", "i", "&c_gopy_ret"⟩],
             Params := [⟨"a", goInt, "c_a", "i", "&c_a"⟩, ⟨"b", goInt, "c_b", "i", "&c_b"⟩],
             Recv := none } }

/-- The type `func()`, a function value: it has no native name. -/
def funcValue : GoType := ⟨"func()", "", false⟩

/-- Free function `Apply(f func())`, whose parameter is a function value. -/
def applyFunc : Func :=
  { GoName := "Apply", ID := "callbacks_Apply", Doc := "Apply calls f.",
    sig := { Results := [], Params := [⟨"f", funcValue, "c_f", "", "&c_f"⟩], Recv := none } }

/-- Package `callbacks`, with the one function `Apply`. -/
def callbacks : Package :=
  { pkg := ⟨"callbacks", "callbacks"⟩, doc := ⟨"Package callbacks."⟩, structs := [],
    funcs := [applyFunc] }

/-- Generator for `callbacks` with empty logs and an empty error accumulator. -/
def gCallbacks : cpyGen := ⟨⟨[], 0⟩, ⟨[], 0⟩, callbacks, []⟩

/-- The generator `gShapes` entered with one error already accumulated. -/
def gShapesErr : cpyGen := { gShapes with err := ["earlier error"] }

/-- Every call of the log was made at level `l` or deeper. -/
def atLeast (l : Nat) (log : List Emit) : Prop := ∀ e ∈ log, l ≤ e.level

/-- An operation is balanced when, from every state, it leaves the level of
both printers as it found it, only appends to both logs, and makes every one of
its calls at the entry level or deeper. -/
def Balanced (op : cpyGen → cpyGen) : Prop :=
  ∀ g : cpyGen,
    (op g).decl.level = g.decl.level ∧ (op g).impl.level = g.impl.level
      ∧ g.decl.out <+: (op g).decl.out ∧ g.impl.out <+: (op g).impl.out
      ∧ atLeast g.decl.level (declNew g (op g)) ∧ atLeast g.impl.level (implNew g (op g))

/-- The formats `genStruct` and the operations it calls print themselves, apart
from those of `genFuncBody`. -/
def structOwnFormats : List String :=
  ["\x7b%[1]q, (PyCFunction)gopy_%[2]s, %[3]s, %[4]q\x7d,\n",
   "/* --- impl for %s.%v */\n\n", "static PyTypeObject _gopy_%sType = \x7b\n", "\x7d;\n\n",
   "/* tp_new */\n",
   "static PyObject*\n_gopy_%s_new(PyTypeObject *type, PyObject *args, PyObject *kwds) \x7b\n",
   "_gopy_%s *self;\n", "self = (_gopy_%s *)type->tp_alloc(type, 0);\n",
   "self->cgopy = GoPy_%s_new();\n", "return (PyObject*)self;\n", "/* tp_dealloc for %s.%v */\n",
   "static void\n_gopy_%[1]s_dealloc(_gopy_%[1]s *self) \x7b\n",
   "self->ob_type->tp_free((PyObject*)self);\n", "/* tp_init */\n",
   "static int\n_gopy_%[1]s_init(_gopy_%[1]s *self, PyObject *args, PyObject *kwds) \x7b\n",
   "return 0;\n", "static PyObject*\n",
   "_gopy_%[1]s_getter_%[2]d(_gopy_%[1]s *self, void *closure) /* %[3]s */ \x7b\n",
   "%[1]s ret = GoPy_%[2]s_getter_%[3]d(self->cgopy);\n", "Py_RETURN_NONE;\n", "static int\n",
   "_gopy_%[1]s_setter_%[2]d(_gopy_%[1]s *self, PyObject *value, void *closure) \x7b\n",
   "/* tp_getset for %s.%v */\n", "static PyGetSetDef _gopy_%s_getsets[] = \x7b\n",
   "\x7bNULL\x7d /* Sentinel */\n", "\x7b%q, ", "(getter)_gopy_%[1]s_getter_%[2]d, ",
   "(setter)_gopy_%[1]s_setter_%[2]d, ", "%q, NULL\x7d,\n", "/* wrapper of %[1]s.%[2]s */\n",
   "gopy_%s(PyObject *self, PyObject *args) \x7b\n",
   "static PyMethodDef _gopy_%s_methods[] = \x7b\n", "\x7bNULL\x7d /* sentinel */\n",
   "PyObject_HEAD_INIT(NULL)\n", "0,\t/*ob_size*/\n", "\"%s.%s\",\t/*tp_name*/\n",
   "sizeof(_gopy_%s),\t/*tp_basicsize*/\n", "0,\t/*tp_itemsize*/\n",
   "(destructor)_gopy_%s_dealloc,\t/*tp_dealloc*/\n", "0,\t/*tp_print*/\n",
   "0,\t/*tp_getattr*/\n", "0,\t/*tp_setattr*/\n", "0,\t/*tp_compare*/\n", "0,\t/*tp_repr*/\n",
   "0,\t/*tp_as_number*/\n", "0,\t/*tp_as_sequence*/\n", "0,\t/*tp_as_mapping*/\n",
   "0,\t/*tp_hash */\n", "0,\t/*tp_call*/\n", "0,\t/*tp_str*/\n", "0,\t/*tp_getattro*/\n",
   "0,\t/*tp_setattro*/\n", "0,\t/*tp_as_buffer*/\n", "Py_TPFLAGS_DEFAULT,\t/*tp_flags*/\n",
   "%q,\t/* tp_doc */\n", "0,\t/* tp_traverse */\n", "0,\t/* tp_clear */\n",
   "0,\t/* tp_richcompare */\n", "0,\t/* tp_weaklistoffset */\n", "0,\t/* tp_iter */\n",
   "0,\t/* tp_iternext */\n", "_gopy_%s_methods,             /* tp_methods */\n",
   "0,\t/* tp_members */\n", "_gopy_%s_getsets,\t/* tp_getset */\n", "0,\t/* tp_base */\n",
   "0,\t/* tp_dict */\n", "0,\t/* tp_descr_get */\n", "0,\t/* tp_descr_set */\n",
   "0,\t/* tp_dictoffset */\n", "(initproc)_gopy_%s_init,      /* tp_init */\n",
   "0,                         /* tp_alloc */\n", "_gopy_%s_new,\t/* tp_new */\n"]

/-- All the formats that occur in what `genStruct` appends. -/
def structFormats : List String := bodyFormats ++ structOwnFormats

/-- All the formats that occur in what `genFunc` appends. -/
def funcFormats : List String :=
  bodyFormats ++
    ["\n/* pythonization of: %[1]s.%[2]s */\nstatic PyObject*\ngopy_%[3]s(PyObject *self, PyObject *args) \x7b\n"]

/-- Format that opens the module-initialization routine. -/
def initHeader : String := "PyMODINIT_FUNC\ninit%[1]s(void)\n\x7b\n"

/-- Format that closes a function body. -/
def blockCloser : String := "\x7d\n\n"

/-- Format of the statement that prepares a type descriptor. -/
def readyFormat : String := "if (PyType_Ready(&_gopy_%sType) < 0) \x7b return; \x7d\n"

/-- Format of the statement that creates the module. -/
def createFormat : String := "module = Py_InitModule3(%[1]q, cpy_%[1]s_methods, %[2]q);\n\n"

/-- Format of the statement that takes a reference on a type descriptor. -/
def increfFormat : String := "Py_INCREF(&_gopy_%sType);\n"

/-- Format of the statement that binds a type descriptor into the module. -/
def addObjectFormat : String :=
  "PyModule_AddObject(module, %q, (PyObject*)&_gopy_%sType);\n\n"

/-- Body of the module-initialization routine that `gen` appends. -/
def initBody (g : cpyGen) : List Emit :=
  tableBody initHeader blockCloser (implNew g g.gen.1)

/-- Everything `gen` appends to the definitions log before the
module-initialization routine. -/
def genImplHead (l : Nat) (pkg : Package) : List Emit :=
  pkg.structs.flatMap (structImpl pkg l)
    ++ pkg.funcs.flatMap (funcImpl pkg l)
    ++ [pf l "static PyMethodDef cpy_%s_methods[] = \x7b\n" [.str pkg.pkg.Name]]
    ++ pkg.funcs.map (moduleRow (l + 1))
    ++ [pf (l + 1) "\x7bNULL, NULL, 0, NULL\x7d        /* Sentinel */\n" [],
        pf l "\x7d;\n\n" []]

/-- The statements of the module-initialization routine, between its opening
and closing lines. -/
def initStatements (l : Nat) (pkg : Package) : List Emit :=
  [pf l "PyObject *module = NULL;\n\n" []]
    ++ pkg.structs.map (fun s => pf l readyFormat [.str s.ID])
    ++ [pf l createFormat [.str pkg.pkg.Name, .str pkg.doc.Doc]]
    ++ pkg.structs.flatMap
        (fun s => [pf l increfFormat [.str s.ID],
                   pf l addObjectFormat [.str s.GoName, .str s.ID]])

/-- Format that opens the definition of the constructor hook. -/
def newDefFormat : String :=
  "static PyObject*\n_gopy_%s_new(PyTypeObject *type, PyObject *args, PyObject *kwds) \x7b\n"

/-- Format that opens the definition of the destructor hook. -/
def deallocDefFormat : String := "static void\n_gopy_%[1]s_dealloc(_gopy_%[1]s *self) \x7b\n"

/-- Format that opens the definition of the initializer hook. -/
def initDefFormat : String :=
  "static int\n_gopy_%[1]s_init(_gopy_%[1]s *self, PyObject *args, PyObject *kwds) \x7b\n"

/-- Format that declares the constructor hook. -/
def newDeclFormat : String :=
  "static PyObject*\n_gopy_%s_new(PyTypeObject *type, PyObject *args, PyObject *kwds);\n"

/-- Format that declares the destructor hook. -/
def deallocDeclFormat : String := "static void\n_gopy_%[1]s_dealloc(_gopy_%[1]s *self);\n"

/-- What `genStruct` appends to the definitions log before it opens the type
descriptor. -/
def beforeDescriptor (g : cpyGen) (cpy : Struct) : List Emit :=
  (implNew g (g.genStruct cpy)).takeWhile (fun e => !e.isPrintf descriptorHeader)

/-- Everything in the definitions log of `genStruct` before the descriptor. -/
def structImplHead (pkg : Package) (l : Nat) (cpy : Struct) : List Emit :=
  [pf l "/* --- impl for %s.%v */\n\n" [.str cpy.GoObj.Pkg.Name, .str cpy.GoName]]
    ++ newImpl l cpy ++ deallocImpl l cpy ++ initImpl l cpy
    ++ membersImpl l cpy ++ methodsImpl pkg l cpy

/-- The formats `genStruct` prints inside its loops over fields and methods. -/
def loopFormats : List String :=
  bodyFormats ++
    ["static PyObject*\n",
     "_gopy_%[1]s_getter_%[2]d(_gopy_%[1]s *self, void *closure) /* %[3]s */ \x7b\n",
     "%[1]s ret = GoPy_%[2]s_getter_%[3]d(self->cgopy);\n", "Py_RETURN_NONE;\n", "static int\n",
     "_gopy_%[1]s_setter_%[2]d(_gopy_%[1]s *self, PyObject *value, void *closure) \x7b\n",
     "return 0;\n", "\x7b%q, ", "(getter)_gopy_%[1]s_getter_%[2]d, ",
     "(setter)_gopy_%[1]s_setter_%[2]d, ", "%q, NULL\x7d,\n", "/* wrapper of %[1]s.%[2]s */\n",
     "gopy_%s(PyObject *self, PyObject *args) \x7b\n",
     "\x7b%[1]q, (PyCFunction)gopy_%[2]s, %[3]s, %[4]q\x7d,\n"]

/-- The calls `genStruct` makes outside its loops, before the descriptor. -/
def structFixed (l : Nat) (cpy : Struct) : List Emit :=
  [pf l "/* --- impl for %s.%v */\n\n" [.str cpy.GoObj.Pkg.Name, .str cpy.GoName]]
    ++ newImpl l cpy ++ deallocImpl l cpy ++ initImpl l cpy
    ++ [pf l "/* tp_getset for %s.%v */\n" [.str cpy.GoObj.Pkg.Name, .str cpy.GoName],
        pf l "static PyGetSetDef _gopy_%s_getsets[] = \x7b\n" [.str cpy.ID],
        pf (l + 1) "\x7bNULL\x7d /* Sentinel */\n" [],
        pf l "\x7d;\n\n" [],
        pf l "static PyMethodDef _gopy_%s_methods[] = \x7b\n" [.str cpy.ID],
        pf (l + 1) "\x7bNULL\x7d /* sentinel */\n" [],
        pf l "\x7d;\n\n" []]

/-- Format that declares a getter. -/
def getterDeclFormat : String :=
  "_gopy_%[1]s_getter_%[2]d(_gopy_%[1]s *self, void *closure); /* %[3]s */\n"

/-- Format that declares a setter. -/
def setterDeclFormat : String :=
  "_gopy_%[1]s_setter_%[2]d(_gopy_%[1]s *self, PyObject *value, void *closure);\n"

/-- Format that opens the definition of a getter. -/
def getterDefFormat : String :=
  "_gopy_%[1]s_getter_%[2]d(_gopy_%[1]s *self, void *closure) /* %[3]s */ \x7b\n"

/-- Format that opens the definition of a setter. -/
def setterDefFormat : String :=
  "_gopy_%[1]s_setter_%[2]d(_gopy_%[1]s *self, PyObject *value, void *closure) \x7b\n"

/-- Format with which a table entry references its getter. -/
def getterRefFormat : String := "(getter)_gopy_%[1]s_getter_%[2]d, "

/-- Format with which a table entry references its setter. -/
def setterRefFormat : String := "(setter)_gopy_%[1]s_setter_%[2]d, "

/-- Format of the line of a getter that declares its local. -/
def getterLocalFormat : String := "%[1]s ret = GoPy_%[2]s_getter_%[3]d(self->cgopy);\n"

/-- Whether the first list occurs as a run of consecutive characters of the
second. -/
def containsSub (sub : List Char) : List Char → Bool
  | [] => sub.isEmpty
  | c :: cs => sub.isPrefixOf (c :: cs) || containsSub sub cs

/-- Whether an argument is a string in which the text occurs. -/
def Arg.hasText (sub : String) : Arg → Bool
  | .str s => containsSub sub.data s.data
  | .int _ => false

/-- Whether the text occurs in the format of a `Printf` call or in one of its
string arguments. -/
def Emit.hasText (sub : String) (e : Emit) : Bool :=
  match e.op with
  | .printf f args => containsSub sub.data f.data || args.any (Arg.hasText sub)
  | _ => false

/-- The type `[]Point`, which needs a wrapper. -/
def pointSlice : GoType := ⟨"[]Point", "GoSlice", true⟩

/-- Struct `Polygon{Points []Point}` of package `geom`, without methods. -/
def polygon : Struct :=
  { GoObj := ⟨⟨"geom", "geom"⟩⟩, GoName := "Polygon", ID := "geom_Polygon",
    Doc := "Polygon is a polygon.", typ := ⟨[⟨"Points", true, pointSlice⟩]⟩, meths := [] }

/-- Package `geom`, with the one struct `Polygon`. -/
def geom : Package :=
  { pkg := ⟨"geom", "geom"⟩, doc := ⟨"Package geom."⟩, structs := [polygon], funcs := [] }

/-- Generator for `geom` with empty logs and no error. -/
def gGeom : cpyGen := ⟨⟨[], 0⟩, ⟨[], 0⟩, geom, []⟩

/-- Method `Scale(k float64)` of `Circle`: one parameter, no result. -/
def circleScale : Func :=
  { GoName := "Scale", ID := "shapes_Circle_Scale", Doc := "Scale scales the circle.",
    sig := { Results := [], Params := [⟨"k", float64, "c_k", "d", "&c_k"⟩],
             Recv := some ⟨"c", ⟨"Circle", "GoPy_shapes_Circle", true⟩, "c_c", "O", "&c_c"⟩ } }

/-- Struct `Circle{Radius float64}` with the one method `Scale`. -/
def circleScaled : Struct := { circle with meths := [circleScale] }

/-- Whether the call is a `Printf` of `gencpy.go`, not a call of a `Var`
method. -/
def Emit.isPrintfCall (e : Emit) : Bool :=
  match e.op with
  | .printf _ _ => true
  | _ => false

/-- Free function `Divmod(a, b int) (q, r int)`: two parameters and two
results, each with the expression `c_` followed by its name, as the locals of
the parameters are named. -/
def divmod : Func :=
  { GoName := "Divmod", ID := "shapes_Divmod", Doc := "Divmod returns a/b and a%b.",
    sig := { Results := [⟨"q", goInt, "c_q", "i", "&c_q"⟩, ⟨"r", goInt, "c_r", "i", "&c_r"⟩],
             Params := [⟨"a", goInt, "c_a", "i", "&c_a"⟩, ⟨"b", goInt, "c_b", "i", "&c_b"⟩],
             Recv := none } }

/-! ## The operations as appends to the two logs -/

theorem extend_extend (g : cpyGen) (d i d' i' : List Emit) :
    (g.extend d i).extend d' i' = g.extend (d ++ d') (i ++ i') := by
  simp [cpyGen.extend]

theorem extend_nil (g : cpyGen) : g.extend [] [] = g := by
  simp [cpyGen.extend]

@[simp] theorem extend_pkg (g : cpyGen) (d i : List Emit) : (g.extend d i).pkg = g.pkg := rfl

@[simp] theorem extend_err (g : cpyGen) (d i : List Emit) : (g.extend d i).err = g.err := rfl

@[simp] theorem extend_decl_level (g : cpyGen) (d i : List Emit) :
    (g.extend d i).decl.level = g.decl.level := rfl

@[simp] theorem extend_impl_level (g : cpyGen) (d i : List Emit) :
    (g.extend d i).impl.level = g.impl.level := rfl

@[simp] theorem extend_decl_out (g : cpyGen) (d i : List Emit) :
    (g.extend d i).decl.out = g.decl.out ++ d := rfl

@[simp] theorem extend_impl_out (g : cpyGen) (d i : List Emit) :
    (g.extend d i).impl.out = g.impl.out ++ i := rfl

@[simp] theorem implNew_extend (g : cpyGen) (d i : List Emit) : implNew g (g.extend d i) = i := by
  simp [implNew]

@[simp] theorem declNew_extend (g : cpyGen) (d i : List Emit) : declNew g (g.extend d i) = d := by
  simp [declNew]

theorem foldl_extend {α : Type} (xs : List α) (f : cpyGen → α → cpyGen)
    (d i : Package → Nat → α → List Emit)
    (hf : ∀ g x, f g x = g.extend (d g.pkg g.decl.level x) (i g.pkg g.impl.level x))
    (g : cpyGen) :
    xs.foldl f g
      = g.extend (xs.flatMap (d g.pkg g.decl.level)) (xs.flatMap (i g.pkg g.impl.level)) := by
  induction xs generalizing g with
  | nil => simp [extend_nil]
  | cons x xs ih =>
    simp only [List.foldl_cons, hf, ih, extend_extend]
    simp

theorem foldl_genDecl (args : List Var) (g : cpyGen) (fa : List String) :
    args.foldl (fun (st : cpyGen × List String) arg =>
        (st.1.onImpl arg.genDecl, st.2 ++ [arg.getFuncArg])) (g, fa)
      = (g.extend [] (args.map (fun a => ⟨g.impl.level, .genDecl a⟩)),
         fa ++ args.map Var.funcArg) := by
  induction args generalizing g fa with
  | nil => simp [extend_nil]
  | cons a as ih =>
    simp only [List.foldl_cons, ih]
    simp [cpyGen.extend, cpyGen.onImpl, Var.genDecl, printer.write, Var.getFuncArg]

theorem foldl_getArgParse (args : List Var) (f a : List String) :
    args.foldl (fun (st : List String × List String) arg =>
        (st.1 ++ [arg.getArgParse.1], st.2 ++ [arg.getArgParse.2])) (f, a)
      = (f ++ args.map Var.pyfmt, a ++ args.map Var.addr) := by
  induction args generalizing f a with
  | nil => simp
  | cons x xs ih =>
    simp only [List.foldl_cons, ih]
    simp [Var.getArgParse]

theorem foldl_pack (res : List Var) (f a : List String) :
    res.foldl (fun (st : List String × List String) ret =>
        (st.1 ++ [ret.getArgParse.1], st.2 ++ [ret.getFuncArg])) (f, a)
      = (f ++ res.map Var.pyfmt, a ++ res.map Var.funcArg) := by
  induction res generalizing f a with
  | nil => simp
  | cons x xs ih =>
    simp only [List.foldl_cons, ih]
    simp [Var.getArgParse, Var.getFuncArg]

theorem foldl_genFuncPreamble (args : List Var) (g : cpyGen) :
    args.foldl (fun (g : cpyGen) arg => g.onImpl arg.genFuncPreamble) g
      = g.extend [] (args.map (fun a => ⟨g.impl.level, .genFuncPreamble a⟩)) := by
  induction args generalizing g with
  | nil => simp [extend_nil]
  | cons a as ih =>
    simp only [List.foldl_cons, ih]
    simp [cpyGen.extend, cpyGen.onImpl, Var.genFuncPreamble, printer.write]

theorem genFuncBody_eq (g : cpyGen) (id : String) (sig : Signature) :
    g.genFuncBody id sig = g.extend [] (bodyOut g.impl.level id sig) := by
  obtain ⟨res, args, recv⟩ := sig
  unfold cpyGen.genFuncBody
  simp only [foldl_genDecl, foldl_getArgParse, foldl_pack, foldl_genFuncPreamble]
  cases recv <;> rcases args with _ | ⟨a, as⟩ <;> rcases res with _ | ⟨r, _ | ⟨r2, rs⟩⟩ <;>
    simp [cpyGen.extend, cpyGen.onImpl, cpyGen.implPrintf, cpyGen.implIndent, cpyGen.implOutdent,
      printer.Printf, printer.write, printer.Indent, printer.Outdent, pf, bodyOut, bodyDecls,
      bodyParse, bodyCall, bodyReturn, Var.genRecvDecl, Var.genRecvImpl, Var.genRetDecl,
      Var.getFuncArg, Var.getArgParse, stringsJoin]

theorem genFunc_eq (g : cpyGen) (o : Func) :
    g.genFunc o = g.extend [] (funcImpl g.pkg g.impl.level o) := by
  unfold cpyGen.genFunc
  simp only [genFuncBody_eq]
  simp [cpyGen.extend, cpyGen.implPrintf, cpyGen.implIndent, cpyGen.implOutdent,
    printer.Printf, printer.write, printer.Indent, printer.Outdent, pf, funcImpl]

theorem genMethod_eq (g : cpyGen) (cpy : Struct) (fct : Func) :
    g.genMethod cpy fct
      = g.extend (methodDecl g.pkg g.decl.level cpy fct) (methodImpl g.pkg g.impl.level cpy fct) := by
  unfold cpyGen.genMethod cpyGen.genMethodBody
  simp only [genFuncBody_eq]
  simp [cpyGen.extend, cpyGen.implPrintf, cpyGen.declPrintf, cpyGen.implIndent,
    cpyGen.implOutdent, printer.Printf, printer.write, printer.Indent, printer.Outdent, pf,
    methodDecl, methodImpl]

theorem genStructDealloc_eq (g : cpyGen) (cpy : Struct) :
    g.genStructDealloc cpy
      = g.extend (deallocDecl g.decl.level cpy) (deallocImpl g.impl.level cpy) := by
  simp [cpyGen.genStructDealloc, cpyGen.extend, cpyGen.declPrintf, cpyGen.implPrintf,
    cpyGen.implIndent, cpyGen.implOutdent, printer.Printf, printer.write, printer.Indent,
    printer.Outdent, pf, deallocDecl, deallocImpl]

theorem genStructNew_eq (g : cpyGen) (cpy : Struct) :
    g.genStructNew cpy = g.extend (newDecl g.decl.level cpy) (newImpl g.impl.level cpy) := by
  simp [cpyGen.genStructNew, cpyGen.extend, cpyGen.declPrintf, cpyGen.implPrintf,
    cpyGen.implIndent, cpyGen.implOutdent, printer.Printf, printer.write, printer.Indent,
    printer.Outdent, pf, newDecl, newImpl]

theorem genStructInit_eq (g : cpyGen) (cpy : Struct) :
    g.genStructInit cpy = g.extend (initDecl g.decl.level cpy) (initImpl g.impl.level cpy) := by
  simp [cpyGen.genStructInit, cpyGen.extend, cpyGen.declPrintf, cpyGen.implPrintf,
    cpyGen.implIndent, cpyGen.implOutdent, printer.Printf, printer.write, printer.Indent,
    printer.Outdent, pf, initDecl, initImpl]

theorem genStructMembersAccessors_eq (cpy : Struct) (fs : List Field) (i : Nat) (g : cpyGen) :
    cpyGen.genStructMembersAccessors cpy i fs g
      = g.extend ((exportedFrom i fs).flatMap (accessorDecl g.decl.level cpy))
          ((exportedFrom i fs).flatMap (accessorImpl g.impl.level cpy)) := by
  induction fs generalizing i g with
  | nil => simp [cpyGen.genStructMembersAccessors, exportedFrom, extend_nil]
  | cons f fs ih =>
    unfold cpyGen.genStructMembersAccessors
    cases hE : f.Exported
    · simp [ih, exportedFrom, List.enumFrom_cons, hE]
    · simp only [ih]
      cases hW : f.typ.needWrapType <;>
        simp [exportedFrom, List.enumFrom_cons, hE, hW, cpyGen.extend, cpyGen.declPrintf,
          cpyGen.implPrintf, cpyGen.implIndent, cpyGen.implOutdent, printer.Printf, printer.write,
          printer.Indent, printer.Outdent, pf, accessorDecl, accessorImpl, getterTypeName]

theorem genStructMembersTable_eq (cpy : Struct) (fs : List Field) (i : Nat) (g : cpyGen) :
    cpyGen.genStructMembersTable cpy i fs g
      = g.extend [] ((exportedFrom i fs).flatMap (getsetRow g.impl.level cpy)) := by
  induction fs generalizing i g with
  | nil => simp [cpyGen.genStructMembersTable, exportedFrom, extend_nil]
  | cons f fs ih =>
    unfold cpyGen.genStructMembersTable
    cases hE : f.Exported
    · simp [ih, exportedFrom, List.enumFrom_cons, hE]
    · simp only [ih]
      simp [exportedFrom, List.enumFrom_cons, hE, cpyGen.extend,
          cpyGen.implPrintf, printer.Printf, printer.write, pf, getsetRow]

theorem genStructMembers_eq (g : cpyGen) (cpy : Struct) :
    g.genStructMembers cpy
      = g.extend (membersDecl g.decl.level cpy) (membersImpl g.impl.level cpy) := by
  unfold cpyGen.genStructMembers
  simp only [genStructMembersAccessors_eq, genStructMembersTable_eq]
  simp [cpyGen.extend, cpyGen.declPrintf, cpyGen.implPrintf, cpyGen.implIndent,
    cpyGen.implOutdent, printer.Printf, printer.write, printer.Indent, printer.Outdent, pf,
    membersDecl, membersImpl]

theorem foldl_methodRow (ms : List Func) (g : cpyGen) :
    ms.foldl
      (fun (g : cpyGen) m =>
        let margs := "METH_VARARGS"
        let margs := if m.Return = none then "METH_NOARGS" else margs
        g.implPrintf "\x7b%[1]q, (PyCFunction)gopy_%[2]s, %[3]s, %[4]q\x7d,\n"
          [.str m.GoName, .str m.ID, .str margs, .str m.Doc])
      g
      = g.extend [] (ms.map (methodRow g.impl.level)) := by
  induction ms generalizing g with
  | nil => simp [extend_nil]
  | cons m ms ih =>
    simp only [List.foldl_cons, ih]
    rcases hR : m.sig.Results with _ | ⟨r, rs⟩ <;>
      simp [cpyGen.extend, cpyGen.implPrintf, printer.Printf, printer.write, pf, methodRow,
        methodConvention, Func.Return, hR]

theorem genStructMethods_eq (g : cpyGen) (cpy : Struct) :
    g.genStructMethods cpy
      = g.extend (methodsDecl g.pkg g.decl.level cpy) (methodsImpl g.pkg g.impl.level cpy) := by
  unfold cpyGen.genStructMethods
  have h := foldl_extend cpy.meths (fun (g : cpyGen) m => g.genMethod cpy m)
    (fun pkg l m => methodDecl pkg l cpy m) (fun pkg l m => methodImpl pkg l cpy m)
    (fun g x => genMethod_eq g cpy x)
  simp only [h, foldl_methodRow]
  simp [cpyGen.extend, cpyGen.declPrintf, cpyGen.implPrintf, cpyGen.implIndent,
    cpyGen.implOutdent, printer.Printf, printer.write, printer.Indent, printer.Outdent, pf,
    methodsDecl, methodsImpl]

theorem genStruct_eq (g : cpyGen) (cpy : Struct) :
    g.genStruct cpy
      = g.extend (structDecl g.pkg g.decl.level cpy) (structImpl g.pkg g.impl.level cpy) := by
  unfold cpyGen.genStruct
  simp only [genStructNew_eq, genStructDealloc_eq, genStructInit_eq, genStructMembers_eq,
    genStructMethods_eq]
  simp [cpyGen.extend, cpyGen.declPrintf, cpyGen.implPrintf, cpyGen.implIndent,
    cpyGen.implOutdent, cpyGen.declIndent, cpyGen.declOutdent, printer.Printf, printer.write,
    printer.Indent, printer.Outdent, pf, structDecl, structImpl, structHead, descriptorSlots]

theorem foldl_implPrintf {α : Type} (xs : List α) (format : String) (args : α → List Arg)
    (g : cpyGen) :
    xs.foldl (fun (g : cpyGen) x => g.implPrintf format (args x)) g
      = g.extend [] (xs.map (fun x => pf g.impl.level format (args x))) := by
  induction xs generalizing g with
  | nil => simp [extend_nil]
  | cons x xs ih =>
    simp only [List.foldl_cons, ih]
    simp [cpyGen.extend, cpyGen.implPrintf, printer.Printf, printer.write, pf]

theorem foldl_addObject (ss : List Struct) (g : cpyGen) :
    ss.foldl
      (fun (g : cpyGen) s =>
        let g := g.implPrintf "Py_INCREF(&_gopy_%sType);\n" [.str s.ID]
        g.implPrintf "PyModule_AddObject(module, %q, (PyObject*)&_gopy_%sType);\n\n"
          [.str s.GoName, .str s.ID])
      g
      = g.extend []
          (ss.flatMap (fun s =>
            [pf g.impl.level "Py_INCREF(&_gopy_%sType);\n" [.str s.ID],
             pf g.impl.level "PyModule_AddObject(module, %q, (PyObject*)&_gopy_%sType);\n\n"
               [.str s.GoName, .str s.ID]])) := by
  induction ss generalizing g with
  | nil => simp [extend_nil]
  | cons s ss ih =>
    simp only [List.foldl_cons, ih]
    simp [cpyGen.extend, cpyGen.implPrintf, printer.Printf, printer.write, pf]

theorem genPreamble_eq (g : cpyGen) :
    g.genPreamble
      = g.extend [pf g.decl.level cPreamble
          [.str g.pkg.pkg.Name, .str g.pkg.pkg.Path, .str (filepathBase g.pkg.pkg.Name)]] [] := by
  simp [cpyGen.genPreamble, cpyGen.extend, cpyGen.declPrintf, printer.Printf, printer.write, pf]

theorem gen_eq (g : cpyGen) :
    g.gen.1 = g.extend (genDecl g.decl.level g.pkg) (genImpl g.impl.level g.pkg) := by
  unfold cpyGen.gen
  have hs := foldl_extend g.pkg.structs (fun (g : cpyGen) s => g.genStruct s)
    structDecl structImpl (fun g x => genStruct_eq g x)
  have hf := foldl_extend g.pkg.funcs (fun (g : cpyGen) f => g.genFunc f)
    (fun _ _ _ => []) funcImpl (fun g x => genFunc_eq g x)
  simp only [genPreamble_eq, extend_pkg, hs, hf, foldl_implPrintf, foldl_addObject]
  split <;>
  simp [cpyGen.extend, cpyGen.declPrintf, cpyGen.implPrintf, cpyGen.implIndent,
    cpyGen.implOutdent, printer.Printf, printer.write, printer.Indent, printer.Outdent, pf,
    genDecl, genImpl, moduleInit, moduleRow]

theorem gen_err (g : cpyGen) :
    g.gen.2 = if g.err.length > 0 then some g.err else none := by
  unfold cpyGen.gen
  have hs := foldl_extend g.pkg.structs (fun (g : cpyGen) s => g.genStruct s)
    structDecl structImpl (fun g x => genStruct_eq g x)
  have hf := foldl_extend g.pkg.funcs (fun (g : cpyGen) f => g.genFunc f)
    (fun _ _ _ => []) funcImpl (fun g x => genFunc_eq g x)
  simp only [genPreamble_eq, extend_pkg, hs, hf, foldl_implPrintf, foldl_addObject]
  split <;> simp_all [cpyGen.extend, cpyGen.implPrintf, cpyGen.implIndent, cpyGen.implOutdent]

/-! ## Extracting a table from a log -/

@[simp] theorem isPrintf_pf (format : String) (l : Nat) (f : String) (a : List Arg) :
    (pf l f a).isPrintf format = (f == format) := rfl

@[simp] theorem noFmt_nil (format : String) : noFmt format [] := by simp [noFmt]

@[simp] theorem noFmt_cons (format : String) (e : Emit) (log : List Emit) :
    noFmt format (e :: log) ↔ e.isPrintf format = false ∧ noFmt format log := by
  simp [noFmt]

@[simp] theorem noFmt_append (format : String) (l₁ l₂ : List Emit) :
    noFmt format (l₁ ++ l₂) ↔ noFmt format l₁ ∧ noFmt format l₂ := by
  unfold noFmt
  exact List.forall_mem_append

@[simp] theorem noFmt_flatMap {α : Type} (format : String) (ps : List α) (f : α → List Emit) :
    noFmt format (ps.flatMap f) ↔ ∀ p ∈ ps, noFmt format (f p) := by
  simp only [noFmt, List.mem_flatMap]
  constructor
  · intro h p hp e he
    exact h e ⟨p, hp, he⟩
  · rintro h e ⟨p, hp, he⟩
    exact h p hp e he

@[simp] theorem noFmt_map {α : Type} (format : String) (ps : List α) (f : α → Emit) :
    noFmt format (ps.map f) ↔ ∀ p ∈ ps, (f p).isPrintf format = false := by
  simp [noFmt]

theorem tableBody_eq (header closer : String) (A body rest : List Emit) (h c : Emit)
    (hA : noFmt header A) (hh : h.isPrintf header = true)
    (hb : noFmt closer body) (hc : c.isPrintf closer = true) :
    tableBody header closer (A ++ h :: (body ++ c :: rest)) = body := by
  unfold tableBody
  rw [List.dropWhile_append_of_pos (by simpa [noFmt] using hA)]
  rw [List.dropWhile_cons_of_neg (by simp [hh])]
  simp only [List.drop_succ_cons, List.drop_zero]
  rw [List.takeWhile_append_of_pos (by simpa [noFmt] using hb)]
  rw [List.takeWhile_cons_of_neg (by simp [hc])]
  simp

theorem exportedFrom_fields (i : Nat) (fs : List Field) :
    (exportedFrom i fs).map Prod.snd = fs.filter (fun f => f.Exported) := by
  induction fs generalizing i with
  | nil => simp [exportedFrom]
  | cons f fs ih =>
    have := ih (i + 1)
    cases hE : f.Exported <;> simp_all [exportedFrom, List.enumFrom_cons]

theorem getsetsTable_eq (g : cpyGen) (cpy : Struct) :
    getsetsTable g cpy
      = (exportedFrom 0 cpy.typ.fields).flatMap (getsetRow (g.impl.level + 1) cpy)
        ++ [pf (g.impl.level + 1) "\x7bNULL\x7d /* Sentinel */\n" []] := by
  unfold getsetsTable
  rw [genStructMembers_eq, implNew_extend]
  unfold membersImpl
  have := tableBody_eq getsetsHeader tableCloser
    ((exportedFrom 0 cpy.typ.fields).flatMap (accessorImpl g.impl.level cpy)
      ++ [pf g.impl.level "/* tp_getset for %s.%v */\n" [.str cpy.GoObj.Pkg.Name, .str cpy.GoName]])
    ((exportedFrom 0 cpy.typ.fields).flatMap (getsetRow (g.impl.level + 1) cpy)
        ++ [pf (g.impl.level + 1) "\x7bNULL\x7d /* Sentinel */\n" []])
    []
    (pf g.impl.level "static PyGetSetDef _gopy_%s_getsets[] = \x7b\n" [.str cpy.ID])
    (pf g.impl.level "\x7d;\n\n" [])
    (by simp [accessorImpl, getsetsHeader])
    (by simp [getsetsHeader])
    (by simp [getsetRow, tableCloser])
    (by simp [tableCloser])
  simpa using this

@[simp] theorem strArg_pf (l : Nat) (f s : String) (a : List Arg) :
    (pf l f (.str s :: a)).strArg = some s := rfl

theorem entryNames_append (l₁ l₂ : List Emit) :
    entryNames (l₁ ++ l₂) = entryNames l₁ ++ entryNames l₂ := by
  simp [entryNames]

theorem entryNames_getsetRow (l : Nat) (cpy : Struct) (p : Nat × Field) :
    entryNames (getsetRow l cpy p) = [p.2.Name] := by
  simp [entryNames, getsetRow, getsetOpener, List.filter_cons]

theorem entryNames_rows (l : Nat) (cpy : Struct) (ps : List (Nat × Field)) :
    entryNames (ps.flatMap (getsetRow l cpy)) = ps.map (fun p => p.2.Name) := by
  induction ps with
  | nil => simp [entryNames]
  | cons p ps ih => simp [entryNames_append, entryNames_getsetRow, ih]

theorem countP_opener_rows (l : Nat) (cpy : Struct) (ps : List (Nat × Field)) :
    (ps.flatMap (getsetRow l cpy)).countP (fun e => e.isPrintf getsetOpener) = ps.length := by
  induction ps with
  | nil => simp
  | cons p ps ih =>
    simp only [List.flatMap_cons, List.countP_append, ih, List.length_cons]
    simp [getsetRow, getsetOpener, List.countP_cons]
    omega

/-! ## The tables of a struct -/

@[simp] theorem isPrintf_genDecl (format : String) (l : Nat) (v : Var) :
    Emit.isPrintf format ⟨l, .genDecl v⟩ = false := rfl

@[simp] theorem isPrintf_genRecvDecl (format : String) (l : Nat) (v : Var) :
    Emit.isPrintf format ⟨l, .genRecvDecl v⟩ = false := rfl

@[simp] theorem isPrintf_genRecvImpl (format : String) (l : Nat) (v : Var) :
    Emit.isPrintf format ⟨l, .genRecvImpl v⟩ = false := rfl

@[simp] theorem isPrintf_genRetDecl (format : String) (l : Nat) (v : Var) :
    Emit.isPrintf format ⟨l, .genRetDecl v⟩ = false := rfl

@[simp] theorem isPrintf_genFuncPreamble (format : String) (l : Nat) (v : Var) :
    Emit.isPrintf format ⟨l, .genFuncPreamble v⟩ = false := rfl

theorem noFmt_bodyOut (format : String) (l : Nat) (id : String) (sig : Signature)
    (h : ∀ f ∈ bodyFormats, (f == format) = false) : noFmt format (bodyOut l id sig) := by
  obtain ⟨res, args, recv⟩ := sig
  simp only [bodyFormats, List.forall_mem_cons, List.not_mem_nil, false_imp_iff, implies_true,
    and_true] at h
  obtain ⟨h1, h2, h3, h4, h5, h6, h7, h8, h9, h10⟩ := h
  cases recv <;> rcases args with _ | ⟨a, as⟩ <;> rcases res with _ | ⟨r, _ | ⟨r2, rs⟩⟩ <;>
    simp [bodyOut, bodyDecls, bodyParse, bodyCall, bodyReturn, h1, h2, h3, h4, h5, h6, h7, h8,
      h9, h10]

theorem noFmt_methodImpl (format : String) (pkg : Package) (l : Nat) (cpy : Struct) (m : Func)
    (h : ∀ f ∈ bodyFormats, (f == format) = false)
    (h1 : ("/* wrapper of %[1]s.%[2]s */\n" == format) = false)
    (h2 : ("static PyObject*\n" == format) = false)
    (h3 : ("gopy_%s(PyObject *self, PyObject *args) \x7b\n" == format) = false) :
    noFmt format (methodImpl pkg l cpy m) := by
  have h5 : ("\x7d\n\n" == format) = false := h _ (by simp [bodyFormats])
  simp [methodImpl, noFmt_bodyOut format _ _ _ h, h1, h2, h3, h5]

theorem structMethodsTable_eq (g : cpyGen) (cpy : Struct) :
    structMethodsTable g cpy
      = cpy.meths.map (methodRow (g.impl.level + 1))
        ++ [pf (g.impl.level + 1) "\x7bNULL\x7d /* sentinel */\n" []] := by
  unfold structMethodsTable
  rw [genStruct_eq, implNew_extend]
  have := tableBody_eq methodsHeader tableCloser
    ([pf g.impl.level "/* --- impl for %s.%v */\n\n" [.str cpy.GoObj.Pkg.Name, .str cpy.GoName]]
      ++ newImpl g.impl.level cpy ++ deallocImpl g.impl.level cpy ++ initImpl g.impl.level cpy
      ++ membersImpl g.impl.level cpy ++ cpy.meths.flatMap (methodImpl g.pkg g.impl.level cpy))
    (cpy.meths.map (methodRow (g.impl.level + 1))
        ++ [pf (g.impl.level + 1) "\x7bNULL\x7d /* sentinel */\n" []])
    ([pf g.impl.level "static PyTypeObject _gopy_%sType = \x7b\n" [.str cpy.ID]]
      ++ descriptorSlots (g.impl.level + 1) cpy ++ [pf g.impl.level "\x7d;\n\n" []])
    (pf g.impl.level "static PyMethodDef _gopy_%s_methods[] = \x7b\n" [.str cpy.ID])
    (pf g.impl.level "\x7d;\n\n" [])
    (by
      have hm : ∀ m, noFmt methodsHeader (methodImpl g.pkg g.impl.level cpy m) := fun m =>
        noFmt_methodImpl _ _ _ _ _ (by simp [bodyFormats, methodsHeader])
          (by simp [methodsHeader]) (by simp [methodsHeader]) (by simp [methodsHeader])
      simp [newImpl, deallocImpl, initImpl, membersImpl, accessorImpl, getsetRow, methodsHeader]
      intro m _
      simpa [methodsHeader] using hm m)
    (by simp [methodsHeader])
    (by simp [methodRow, tableCloser])
    (by simp [tableCloser])
  simpa [structImpl, methodsImpl] using this

theorem noFmt_methodsImpl (format : String) (pkg : Package) (l : Nat) (cpy : Struct)
    (h : ∀ f ∈ bodyFormats, (f == format) = false)
    (h1 : ("/* wrapper of %[1]s.%[2]s */\n" == format) = false)
    (h2 : ("static PyObject*\n" == format) = false)
    (h3 : ("gopy_%s(PyObject *self, PyObject *args) \x7b\n" == format) = false)
    (h4 : ("static PyMethodDef _gopy_%s_methods[] = \x7b\n" == format) = false)
    (h5 : ("\x7b%[1]q, (PyCFunction)gopy_%[2]s, %[3]s, %[4]q\x7d,\n" == format) = false)
    (h6 : ("\x7bNULL\x7d /* sentinel */\n" == format) = false)
    (h7 : ("\x7d;\n\n" == format) = false) :
    noFmt format (methodsImpl pkg l cpy) := by
  have hm : ∀ m, noFmt format (methodImpl pkg l cpy m) := fun m =>
    noFmt_methodImpl _ _ _ _ _ h h1 h2 h3
  simp [methodsImpl, methodRow, h4, h5, h6, h7]
  intro m _
  exact hm m

theorem structGetsetsTable_eq (g : cpyGen) (cpy : Struct) :
    structGetsetsTable g cpy
      = (exportedFrom 0 cpy.typ.fields).flatMap (getsetRow (g.impl.level + 1) cpy)
        ++ [pf (g.impl.level + 1) "\x7bNULL\x7d /* Sentinel */\n" []] := by
  unfold structGetsetsTable
  rw [genStruct_eq, implNew_extend]
  have := tableBody_eq getsetsHeader tableCloser
    ([pf g.impl.level "/* --- impl for %s.%v */\n\n" [.str cpy.GoObj.Pkg.Name, .str cpy.GoName]]
      ++ newImpl g.impl.level cpy ++ deallocImpl g.impl.level cpy ++ initImpl g.impl.level cpy
      ++ (exportedFrom 0 cpy.typ.fields).flatMap (accessorImpl g.impl.level cpy)
      ++ [pf g.impl.level "/* tp_getset for %s.%v */\n"
            [.str cpy.GoObj.Pkg.Name, .str cpy.GoName]])
    ((exportedFrom 0 cpy.typ.fields).flatMap (getsetRow (g.impl.level + 1) cpy)
        ++ [pf (g.impl.level + 1) "\x7bNULL\x7d /* Sentinel */\n" []])
    (methodsImpl g.pkg g.impl.level cpy
      ++ [pf g.impl.level "static PyTypeObject _gopy_%sType = \x7b\n" [.str cpy.ID]]
      ++ descriptorSlots (g.impl.level + 1) cpy ++ [pf g.impl.level "\x7d;\n\n" []])
    (pf g.impl.level "static PyGetSetDef _gopy_%s_getsets[] = \x7b\n" [.str cpy.ID])
    (pf g.impl.level "\x7d;\n\n" [])
    (by simp [newImpl, deallocImpl, initImpl, accessorImpl, getsetsHeader])
    (by simp [getsetsHeader])
    (by simp [getsetRow, tableCloser])
    (by simp [tableCloser])
  simpa [structImpl, membersImpl] using this

theorem structDescriptor_eq (g : cpyGen) (cpy : Struct) :
    structDescriptor g cpy = descriptorSlots (g.impl.level + 1) cpy := by
  unfold structDescriptor
  rw [genStruct_eq, implNew_extend]
  have := tableBody_eq descriptorHeader tableCloser
    ([pf g.impl.level "/* --- impl for %s.%v */\n\n" [.str cpy.GoObj.Pkg.Name, .str cpy.GoName]]
      ++ newImpl g.impl.level cpy ++ deallocImpl g.impl.level cpy ++ initImpl g.impl.level cpy
      ++ membersImpl g.impl.level cpy ++ methodsImpl g.pkg g.impl.level cpy)
    (descriptorSlots (g.impl.level + 1) cpy)
    []
    (pf g.impl.level "static PyTypeObject _gopy_%sType = \x7b\n" [.str cpy.ID])
    (pf g.impl.level "\x7d;\n\n" [])
    (by
      have hm := noFmt_methodsImpl descriptorHeader g.pkg g.impl.level cpy
        (by simp [bodyFormats, descriptorHeader]) (by simp [descriptorHeader])
        (by simp [descriptorHeader]) (by simp [descriptorHeader]) (by simp [descriptorHeader])
        (by simp [descriptorHeader]) (by simp [descriptorHeader]) (by simp [descriptorHeader])
      simp [newImpl, deallocImpl, initImpl, membersImpl, accessorImpl, getsetRow,
        descriptorHeader]
      simpa [descriptorHeader] using hm)
    (by simp [descriptorHeader])
    (by simp [descriptorSlots, tableCloser])
    (by simp [tableCloser])
  simpa [structImpl] using this

@[simp] theorem endsLine_pf (l : Nat) (f : String) (a : List Arg) :
    (pf l f a).endsLine = (f.data.getLast? == some '\n') := rfl

theorem filter_isPrintf_eq_nil (format : String) (log : List Emit) (h : noFmt format log) :
    log.filter (fun e => e.isPrintf format) = [] := by
  rw [List.filter_eq_nil_iff]
  intro e he
  simp [h e he]

theorem endsLine_getsetRow (l : Nat) (cpy : Struct) (p : Nat × Field) :
    (getsetRow l cpy p).countP Emit.endsLine = 1 := by
  simp only [getsetRow, List.countP_cons, List.countP_nil]
  have h1 : ("\x7b%q, ".data.getLast? == some '\n') = false := by decide
  have h2 : ("(getter)_gopy_%[1]s_getter_%[2]d, ".data.getLast? == some '\n') = false := by
    decide
  have h3 : ("(setter)_gopy_%[1]s_setter_%[2]d, ".data.getLast? == some '\n') = false := by
    decide
  have h4 : ("%q, NULL\x7d,\n".data.getLast? == some '\n') = true := by decide
  simp only [endsLine_pf, h1, h2, h3, h4]
  simp

theorem endsLine_rows (l : Nat) (cpy : Struct) (ps : List (Nat × Field)) :
    (ps.flatMap (getsetRow l cpy)).countP Emit.endsLine = ps.length := by
  induction ps with
  | nil => simp
  | cons p ps ih =>
    simp only [List.flatMap_cons, List.countP_append, ih, List.length_cons, endsLine_getsetRow]
    omega

theorem exportedFrom_length (i : Nat) (fs : List Field) :
    (exportedFrom i fs).length = (fs.filter (fun f => f.Exported)).length := by
  rw [← exportedFrom_fields i fs, List.length_map]

/-! ## The body of a wrapper -/

@[simp] theorem noneOf_nil (p : Emit → Bool) : noneOf p [] := by simp [noneOf]

@[simp] theorem noneOf_cons (p : Emit → Bool) (e : Emit) (log : List Emit) :
    noneOf p (e :: log) ↔ p e = false ∧ noneOf p log := by
  simp [noneOf]

@[simp] theorem noneOf_append (p : Emit → Bool) (l₁ l₂ : List Emit) :
    noneOf p (l₁ ++ l₂) ↔ noneOf p l₁ ∧ noneOf p l₂ := by
  unfold noneOf
  exact List.forall_mem_append

@[simp] theorem noneOf_map {α : Type} (p : Emit → Bool) (ps : List α) (f : α → Emit) :
    noneOf p (ps.map f) ↔ ∀ a ∈ ps, p (f a) = false := by
  simp [noneOf]

theorem noneOf_isPrintf (format : String) (log : List Emit) :
    noneOf (fun e => e.isPrintf format) log ↔ noFmt format log := Iff.rfl

theorem filter_eq_nil_of_noneOf (p : Emit → Bool) (log : List Emit) (h : noneOf p log) :
    log.filter p = [] := by
  rw [List.filter_eq_nil_iff]
  intro e he
  simp [h e he]

theorem filter_single (p : Emit → Bool) (A B : List Emit) (e : Emit)
    (hA : noneOf p A) (he : p e = true) (hB : noneOf p B) : (A ++ e :: B).filter p = [e] := by
  simp [List.filter_append, List.filter_cons, he, filter_eq_nil_of_noneOf p A hA,
    filter_eq_nil_of_noneOf p B hB]

theorem bodyNew_eq (g : cpyGen) (id : String) (sig : Signature) :
    bodyNew g id sig = bodyOut g.impl.level id sig := by
  simp [bodyNew, genFuncBody_eq]

theorem bodyOut_split (l : Nat) (id : String) (sig : Signature) :
    bodyOut l id sig
      = bodyHead l id sig ++ (if sig.Params = [] then [] else bodyParse l sig.Params)
        ++ bodyMid l sig ++ [bodyCall l id sig, pf l "\n" [], bodyReturn l sig.Results] := by
  unfold bodyOut bodyHead bodyMid
  by_cases h : sig.Params = [] <;> simp [h]

theorem noFmt_bodyHead (format : String) (l : Nat) (id : String) (sig : Signature)
    (h1 : ("struct %[1]s_return c_gopy_ret;\n" == format) = false)
    (h2 : ("\n" == format) = false) : noFmt format (bodyHead l id sig) := by
  obtain ⟨res, args, recv⟩ := sig
  cases recv <;> rcases res with _ | ⟨r, _ | ⟨r2, rs⟩⟩ <;>
    simp [bodyHead, bodyDecls, h1, h2]

theorem noFmt_bodyMid (format : String) (l : Nat) (sig : Signature)
    (h1 : ("c_gopy_ret = " == format) = false)
    (h2 : ("\n" == format) = false) : noFmt format (bodyMid l sig) := by
  unfold bodyMid
  by_cases hp : sig.Params = [] <;> by_cases hr : sig.Results = [] <;> simp [hp, hr, h1, h2]

theorem foldl_append_string (l : List String) (acc : String) :
    l.foldl (fun r s => r ++ s) acc = acc ++ l.foldl (fun r s => r ++ s) "" := by
  induction l generalizing acc with
  | nil => simp
  | cons a as ih =>
    simp only [List.foldl_cons]
    rw [ih (acc ++ a), ih ("" ++ a)]
    simp [String.append_assoc]

theorem stringsJoin_empty (l : List String) : stringsJoin l "" = String.join l := by
  induction l with
  | nil => rfl
  | cons a as ih =>
    cases as with
    | nil => simp [stringsJoin, String.join]
    | cons b bs =>
      simp only [stringsJoin, ih, String.join, List.foldl_cons]
      rw [foldl_append_string bs ("" ++ a ++ b), foldl_append_string bs ("" ++ b)]
      simp [String.append_assoc]

theorem isPrintf_bodyReturn (format : String) (l : Nat) (res : List Var)
    (h1 : ("Py_INCREF(Py_None);\nreturn Py_None;\n" == format) = false)
    (h2 : ("return Py_BuildValue(%q, %s);\n" == format) = false) :
    (bodyReturn l res).isPrintf format = false := by
  rcases res with _ | ⟨r, _ | ⟨r2, rs⟩⟩ <;> simp [bodyReturn, h1, h2]

theorem isPrintf_bodyCall (format : String) (l : Nat) (id : String) (sig : Signature) :
    (bodyCall l id sig).isPrintf format = ("GoPy_%[1]s(%[2]s);\n" == format) := rfl

@[simp] theorem isResultLocal_pf (l : Nat) (f : String) (a : List Arg) :
    (pf l f a).isResultLocal = (f == aggregateFormat) := rfl

@[simp] theorem isReturn_pf (l : Nat) (f : String) (a : List Arg) :
    (pf l f a).isReturn = startsLine "return" f := rfl

@[simp] theorem isResultLocal_genRetDecl (l : Nat) (v : Var) :
    Emit.isResultLocal ⟨l, .genRetDecl v⟩ = true := rfl

@[simp] theorem isResultLocal_genRecvDecl (l : Nat) (v : Var) :
    Emit.isResultLocal ⟨l, .genRecvDecl v⟩ = false := rfl

@[simp] theorem isResultLocal_genRecvImpl (l : Nat) (v : Var) :
    Emit.isResultLocal ⟨l, .genRecvImpl v⟩ = false := rfl

@[simp] theorem isReturn_genRetDecl (l : Nat) (v : Var) :
    Emit.isReturn ⟨l, .genRetDecl v⟩ = false := rfl

@[simp] theorem isReturn_genRecvDecl (l : Nat) (v : Var) :
    Emit.isReturn ⟨l, .genRecvDecl v⟩ = false := rfl

@[simp] theorem isReturn_genRecvImpl (l : Nat) (v : Var) :
    Emit.isReturn ⟨l, .genRecvImpl v⟩ = false := rfl

theorem startsLine_return :
    startsLine "return" "struct %[1]s_return c_gopy_ret;\n" = false
    ∧ startsLine "return" "\n" = false
    ∧ startsLine "return" "if (!PyArg_ParseTuple(args, " = false
    ∧ startsLine "return" "%q, %s)) \x7b\n" = false
    ∧ startsLine "return" "return NULL;\n" = true
    ∧ startsLine "return" "\x7d\n\n" = false
    ∧ startsLine "return" "c_gopy_ret = " = false
    ∧ startsLine "return" "GoPy_%[1]s(%[2]s);\n" = false
    ∧ startsLine "return" "Py_INCREF(Py_None);\nreturn Py_None;\n" = true
    ∧ startsLine "return" "return Py_BuildValue(%q, %s);\n" = true := by
  decide

theorem getFuncArg_eq : Var.getFuncArg = Var.funcArg := rfl

theorem filter_map_nil {α : Type} (p : Emit → Bool) (f : α → Emit) (as : List α)
    (h : ∀ a, p (f a) = false) : (as.map f).filter p = [] := by
  apply filter_eq_nil_of_noneOf
  simp [h]

theorem countP_map_zero {α : Type} (p : Emit → Bool) (f : α → Emit) (as : List α)
    (h : ∀ a, p (f a) = false) : (as.map f).countP p = 0 := by
  rw [List.countP_eq_length_filter, filter_map_nil p f as h]
  rfl

theorem getLast?_bodyOut (l : Nat) (id : String) (sig : Signature) :
    (bodyOut l id sig).getLast? = some (bodyReturn l sig.Results) := by
  have h : bodyOut l id sig
      = (bodyHead l id sig ++ (if sig.Params = [] then [] else bodyParse l sig.Params)
          ++ bodyMid l sig ++ [bodyCall l id sig, pf l "\n" []])
        ++ [bodyReturn l sig.Results] := by
    rw [bodyOut_split]
    simp
  rw [h, List.getLast?_concat]

theorem filter_pack_bodyOut (l : Nat) (id : String) (sig : Signature) (h : sig.Results ≠ []) :
    (bodyOut l id sig).filter (fun e => e.isPrintf packFormat) = [bodyReturn l sig.Results] := by
  have hsplit : bodyOut l id sig
      = (bodyHead l id sig ++ (if sig.Params = [] then [] else bodyParse l sig.Params)
          ++ bodyMid l sig ++ [bodyCall l id sig, pf l "\n" []])
        ++ bodyReturn l sig.Results :: [] := by
    rw [bodyOut_split]
    simp
  rw [hsplit]
  apply filter_single
  · rw [noneOf_isPrintf]
    have h1 := noFmt_bodyHead packFormat l id sig (by simp [packFormat]) (by simp [packFormat])
    have h2 := noFmt_bodyMid packFormat l sig (by simp [packFormat]) (by simp [packFormat])
    simp only [packFormat] at h1 h2 ⊢
    by_cases hp : sig.Params = [] <;> simp [h1, h2, hp, bodyParse, isPrintf_bodyCall]
  · obtain ⟨res, args, recv⟩ := sig
    rcases res with _ | ⟨r, _ | ⟨r2, rs⟩⟩ <;> simp_all [bodyReturn, packFormat]
  · simp

theorem filter_call_bodyOut (l : Nat) (id : String) (sig : Signature) :
    (bodyOut l id sig).filter (fun e => e.isPrintf callFormat) = [bodyCall l id sig] := by
  have hsplit : bodyOut l id sig
      = (bodyHead l id sig ++ (if sig.Params = [] then [] else bodyParse l sig.Params)
          ++ bodyMid l sig)
        ++ bodyCall l id sig :: [pf l "\n" [], bodyReturn l sig.Results] :=
    bodyOut_split l id sig
  rw [hsplit]
  apply filter_single
  · rw [noneOf_isPrintf]
    have h1 := noFmt_bodyHead callFormat l id sig (by simp [callFormat]) (by simp [callFormat])
    have h2 := noFmt_bodyMid callFormat l sig (by simp [callFormat]) (by simp [callFormat])
    simp only [callFormat] at h1 h2 ⊢
    by_cases hp : sig.Params = [] <;> simp [h1, h2, hp, bodyParse]
  · simp [isPrintf_bodyCall, callFormat]
  · have hr := isPrintf_bodyReturn callFormat l sig.Results
      (by simp [callFormat]) (by simp [callFormat])
    simp only [callFormat] at hr ⊢
    simp [hr]

theorem beforeCall_bodyOut (l : Nat) (id : String) (sig : Signature) :
    (bodyOut l id sig).takeWhile (fun e => !e.isPrintf callFormat)
      = bodyHead l id sig ++ (if sig.Params = [] then [] else bodyParse l sig.Params)
        ++ bodyMid l sig := by
  have hsplit : bodyOut l id sig
      = (bodyHead l id sig ++ (if sig.Params = [] then [] else bodyParse l sig.Params)
          ++ bodyMid l sig)
        ++ bodyCall l id sig :: [pf l "\n" [], bodyReturn l sig.Results] :=
    bodyOut_split l id sig
  have hpre : noFmt callFormat
      (bodyHead l id sig ++ (if sig.Params = [] then [] else bodyParse l sig.Params)
        ++ bodyMid l sig) := by
    have h1 := noFmt_bodyHead callFormat l id sig (by simp [callFormat]) (by simp [callFormat])
    have h2 := noFmt_bodyMid callFormat l sig (by simp [callFormat]) (by simp [callFormat])
    simp only [callFormat] at h1 h2 ⊢
    by_cases hp : sig.Params = [] <;> simp [h1, h2, hp, bodyParse]
  rw [hsplit, List.takeWhile_append_of_pos (by simpa [noFmt] using hpre),
    List.takeWhile_cons_of_neg (by simp [isPrintf_bodyCall, callFormat])]
  simp

/-! ## The method table of `genStructMethods` -/

theorem methodsTable_eq (g : cpyGen) (cpy : Struct) :
    methodsTable g cpy
      = cpy.meths.map (methodRow (g.impl.level + 1))
        ++ [pf (g.impl.level + 1) "\x7bNULL\x7d /* sentinel */\n" []] := by
  unfold methodsTable
  rw [genStructMethods_eq, implNew_extend]
  have := tableBody_eq methodsHeader tableCloser
    (cpy.meths.flatMap (methodImpl g.pkg g.impl.level cpy))
    (cpy.meths.map (methodRow (g.impl.level + 1))
        ++ [pf (g.impl.level + 1) "\x7bNULL\x7d /* sentinel */\n" []])
    []
    (pf g.impl.level "static PyMethodDef _gopy_%s_methods[] = \x7b\n" [.str cpy.ID])
    (pf g.impl.level "\x7d;\n\n" [])
    (by
      rw [noFmt_flatMap]
      intro m _
      exact noFmt_methodImpl _ _ _ _ _ (by simp [bodyFormats, methodsHeader])
        (by simp [methodsHeader]) (by simp [methodsHeader]) (by simp [methodsHeader]))
    (by simp [methodsHeader])
    (by simp [methodRow, tableCloser])
    (by simp [tableCloser])
  simpa [methodsImpl] using this

/-! ## The module table -/

theorem noFmt_membersImpl (format : String) (l : Nat) (cpy : Struct)
    (h1 : ("static PyObject*\n" == format) = false)
    (h2 : ("_gopy_%[1]s_getter_%[2]d(_gopy_%[1]s *self, void *closure) /* %[3]s */ \x7b\n"
            == format) = false)
    (h3 : ("%[1]s ret = GoPy_%[2]s_getter_%[3]d(self->cgopy);\n" == format) = false)
    (h4 : ("Py_RETURN_NONE;\n" == format) = false)
    (h5 : ("\x7d\n\n" == format) = false)
    (h6 : ("static int\n" == format) = false)
    (h7 : ("_gopy_%[1]s_setter_%[2]d(_gopy_%[1]s *self, PyObject *value, void *closure) \x7b\n"
            == format) = false)
    (h8 : ("return 0;\n" == format) = false)
    (h9 : ("/* tp_getset for %s.%v */\n" == format) = false)
    (h10 : ("static PyGetSetDef _gopy_%s_getsets[] = \x7b\n" == format) = false)
    (h11 : ("\x7b%q, " == format) = false)
    (h12 : ("(getter)_gopy_%[1]s_getter_%[2]d, " == format) = false)
    (h13 : ("(setter)_gopy_%[1]s_setter_%[2]d, " == format) = false)
    (h14 : ("%q, NULL\x7d,\n" == format) = false)
    (h15 : ("\x7bNULL\x7d /* Sentinel */\n" == format) = false)
    (h16 : ("\x7d;\n\n" == format) = false) :
    noFmt format (membersImpl l cpy) := by
  simp [membersImpl, accessorImpl, getsetRow, h1, h2, h3, h4, h5, h6, h7, h8, h9, h10, h11, h12,
    h13, h14, h15, h16]

theorem noFmt_structImpl_moduleHeader (pkg : Package) (l : Nat) (cpy : Struct) :
    noFmt moduleHeader (structImpl pkg l cpy) := by
  have hm := noFmt_methodsImpl moduleHeader pkg l cpy
    (by simp [bodyFormats, moduleHeader]) (by simp [moduleHeader])
    (by simp [moduleHeader]) (by simp [moduleHeader]) (by simp [moduleHeader])
    (by simp [moduleHeader]) (by simp [moduleHeader]) (by simp [moduleHeader])
  have hb := noFmt_membersImpl moduleHeader l cpy
    (by simp [moduleHeader]) (by simp [moduleHeader]) (by simp [moduleHeader])
    (by simp [moduleHeader]) (by simp [moduleHeader]) (by simp [moduleHeader])
    (by simp [moduleHeader]) (by simp [moduleHeader]) (by simp [moduleHeader])
    (by simp [moduleHeader]) (by simp [moduleHeader]) (by simp [moduleHeader])
    (by simp [moduleHeader]) (by simp [moduleHeader]) (by simp [moduleHeader])
    (by simp [moduleHeader])
  simp only [moduleHeader] at hm hb ⊢
  simp [structImpl, newImpl, deallocImpl, initImpl, descriptorSlots, hm, hb]

theorem noFmt_structImpl_funcHeader (pkg : Package) (l : Nat) (cpy : Struct) :
    noFmt funcHeaderFormat (structImpl pkg l cpy) := by
  have hm := noFmt_methodsImpl funcHeaderFormat pkg l cpy
    (by simp [bodyFormats, funcHeaderFormat]) (by simp [funcHeaderFormat])
    (by simp [funcHeaderFormat]) (by simp [funcHeaderFormat]) (by simp [funcHeaderFormat])
    (by simp [funcHeaderFormat]) (by simp [funcHeaderFormat]) (by simp [funcHeaderFormat])
  have hb := noFmt_membersImpl funcHeaderFormat l cpy
    (by simp [funcHeaderFormat]) (by simp [funcHeaderFormat]) (by simp [funcHeaderFormat])
    (by simp [funcHeaderFormat]) (by simp [funcHeaderFormat]) (by simp [funcHeaderFormat])
    (by simp [funcHeaderFormat]) (by simp [funcHeaderFormat]) (by simp [funcHeaderFormat])
    (by simp [funcHeaderFormat]) (by simp [funcHeaderFormat]) (by simp [funcHeaderFormat])
    (by simp [funcHeaderFormat]) (by simp [funcHeaderFormat]) (by simp [funcHeaderFormat])
    (by simp [funcHeaderFormat])
  simp only [funcHeaderFormat] at hm hb ⊢
  simp [structImpl, newImpl, deallocImpl, initImpl, descriptorSlots, hm, hb]

theorem noFmt_funcImpl_moduleHeader (pkg : Package) (l : Nat) (o : Func) :
    noFmt moduleHeader (funcImpl pkg l o) := by
  have hb := noFmt_bodyOut moduleHeader (l + 1) o.ID o.sig (by simp [bodyFormats, moduleHeader])
  simp only [moduleHeader] at hb ⊢
  simp [funcImpl, hb]

theorem moduleTable_eq (g : cpyGen) :
    moduleTable g
      = g.pkg.funcs.map (moduleRow (g.impl.level + 1))
        ++ [pf (g.impl.level + 1) "\x7bNULL, NULL, 0, NULL\x7d        /* Sentinel */\n" []] := by
  unfold moduleTable
  rw [gen_eq, implNew_extend]
  have := tableBody_eq moduleHeader tableCloser
    (g.pkg.structs.flatMap (structImpl g.pkg g.impl.level)
      ++ g.pkg.funcs.flatMap (funcImpl g.pkg g.impl.level))
    (g.pkg.funcs.map (moduleRow (g.impl.level + 1))
        ++ [pf (g.impl.level + 1) "\x7bNULL, NULL, 0, NULL\x7d        /* Sentinel */\n" []])
    (moduleInit g.impl.level g.pkg)
    (pf g.impl.level "static PyMethodDef cpy_%s_methods[] = \x7b\n" [.str g.pkg.pkg.Name])
    (pf g.impl.level "\x7d;\n\n" [])
    (by
      rw [noFmt_append, noFmt_flatMap, noFmt_flatMap]
      exact ⟨fun s _ => noFmt_structImpl_moduleHeader _ _ s,
        fun f _ => noFmt_funcImpl_moduleHeader _ _ f⟩)
    (by simp [moduleHeader])
    (by simp [moduleRow, tableCloser])
    (by simp [tableCloser])
  simpa [genImpl] using this

theorem filter_funcHeader_funcImpl (pkg : Package) (l : Nat) (fs : List Func) :
    (fs.flatMap (funcImpl pkg l)).filter (fun e => e.isPrintf funcHeaderFormat)
      = fs.map (fun f => pf l funcHeaderFormat [.str pkg.pkg.Name, .str f.GoName, .str f.ID]) := by
  induction fs with
  | nil => simp
  | cons f fs ih =>
    have hb := noFmt_bodyOut funcHeaderFormat (l + 1) f.ID f.sig
      (by simp [bodyFormats, funcHeaderFormat])
    have hb' := filter_isPrintf_eq_nil _ _ hb
    simp only [List.flatMap_cons, List.filter_append, ih, List.map_cons]
    simp only [funcHeaderFormat] at hb' ⊢
    simp [funcImpl, List.filter_append, List.filter_cons, hb']

/-! ## Indentation and growth of the logs -/

@[simp] theorem level_pf (l : Nat) (f : String) (a : List Arg) : (pf l f a).level = l := rfl

@[simp] theorem atLeast_nil (l : Nat) : atLeast l [] := by simp [atLeast]

@[simp] theorem atLeast_cons (l : Nat) (e : Emit) (log : List Emit) :
    atLeast l (e :: log) ↔ l ≤ e.level ∧ atLeast l log := by
  simp [atLeast]

@[simp] theorem atLeast_append (l : Nat) (l₁ l₂ : List Emit) :
    atLeast l (l₁ ++ l₂) ↔ atLeast l l₁ ∧ atLeast l l₂ := by
  unfold atLeast
  exact List.forall_mem_append

@[simp] theorem atLeast_flatMap {α : Type} (l : Nat) (ps : List α) (f : α → List Emit) :
    atLeast l (ps.flatMap f) ↔ ∀ p ∈ ps, atLeast l (f p) := by
  simp only [atLeast, List.mem_flatMap]
  constructor
  · intro h p hp e he
    exact h e ⟨p, hp, he⟩
  · rintro h e ⟨p, hp, he⟩
    exact h p hp e he

@[simp] theorem atLeast_map {α : Type} (l : Nat) (ps : List α) (f : α → Emit) :
    atLeast l (ps.map f) ↔ ∀ p ∈ ps, l ≤ (f p).level := by
  simp [atLeast]

theorem atLeast_mono (l l' : Nat) (log : List Emit) (h : l ≤ l') (h' : atLeast l' log) :
    atLeast l log :=
  fun e he => Nat.le_trans h (h' e he)

theorem atLeast_bodyOut (l : Nat) (id : String) (sig : Signature) :
    atLeast l (bodyOut l id sig) := by
  obtain ⟨res, args, recv⟩ := sig
  cases recv <;> by_cases ha : args = [] <;> rcases res with _ | ⟨r, _ | ⟨r2, rs⟩⟩ <;>
    simp [bodyOut, bodyDecls, bodyParse, bodyCall, bodyReturn, ha]

theorem atLeast_funcImpl (pkg : Package) (l : Nat) (o : Func) : atLeast l (funcImpl pkg l o) := by
  have h := atLeast_mono l (l + 1) _ (Nat.le_succ l) (atLeast_bodyOut (l + 1) o.ID o.sig)
  simp [funcImpl, h]

theorem atLeast_methodImpl (pkg : Package) (l : Nat) (cpy : Struct) (m : Func) :
    atLeast l (methodImpl pkg l cpy m) := by
  have h := atLeast_mono l (l + 1) _ (Nat.le_succ l) (atLeast_bodyOut (l + 1) m.ID m.sig)
  simp [methodImpl, h]

theorem atLeast_membersDecl (l : Nat) (cpy : Struct) : atLeast l (membersDecl l cpy) := by
  simp [membersDecl, accessorDecl]

theorem atLeast_membersImpl (l : Nat) (cpy : Struct) : atLeast l (membersImpl l cpy) := by
  simp [membersImpl, accessorImpl, getsetRow]

theorem atLeast_methodsDecl (pkg : Package) (l : Nat) (cpy : Struct) :
    atLeast l (methodsDecl pkg l cpy) := by
  simp [methodsDecl, methodDecl]

theorem atLeast_methodsImpl (pkg : Package) (l : Nat) (cpy : Struct) :
    atLeast l (methodsImpl pkg l cpy) := by
  simp [methodsImpl, methodRow]
  intro m _
  exact atLeast_methodImpl pkg l cpy m

theorem atLeast_structDecl (pkg : Package) (l : Nat) (cpy : Struct) :
    atLeast l (structDecl pkg l cpy) := by
  simp [structDecl, structHead, newDecl, deallocDecl, initDecl, atLeast_membersDecl,
    atLeast_methodsDecl]

theorem atLeast_structImpl (pkg : Package) (l : Nat) (cpy : Struct) :
    atLeast l (structImpl pkg l cpy) := by
  simp [structImpl, newImpl, deallocImpl, initImpl, descriptorSlots, atLeast_membersImpl,
    atLeast_methodsImpl]

theorem atLeast_genDecl (l : Nat) (pkg : Package) : atLeast l (genDecl l pkg) := by
  simp [genDecl]
  intro s _
  exact atLeast_structDecl pkg l s

theorem atLeast_genImpl (l : Nat) (pkg : Package) : atLeast l (genImpl l pkg) := by
  simp [genImpl, moduleRow, moduleInit]
  exact ⟨fun s _ => atLeast_structImpl pkg l s, fun f _ => atLeast_funcImpl pkg l f⟩

theorem balanced_of_extend (op : cpyGen → cpyGen) (d i : cpyGen → List Emit)
    (h : ∀ g, op g = g.extend (d g) (i g))
    (hd : ∀ g, atLeast g.decl.level (d g)) (hi : ∀ g, atLeast g.impl.level (i g)) :
    Balanced op := by
  intro g
  rw [h g]
  simp [hd g, hi g]

/-! ## The module-initialization routine -/

theorem noFmt_structImpl (format : String) (pkg : Package) (l : Nat) (cpy : Struct)
    (h : ∀ f ∈ structFormats, (f == format) = false) : noFmt format (structImpl pkg l cpy) := by
  have hb : ∀ f ∈ bodyFormats, (f == format) = false :=
    fun f hf => h f (List.mem_append_left _ hf)
  have ho : ∀ f ∈ structOwnFormats, (f == format) = false :=
    fun f hf => h f (List.mem_append_right _ hf)
  have hbody : ∀ (l : Nat) (m : Func), noFmt format (bodyOut l m.ID m.sig) :=
    fun l m => noFmt_bodyOut format l m.ID m.sig hb
  have hc : ("\x7d\n\n" == format) = false := hb _ (by simp [bodyFormats])
  simp only [structOwnFormats, List.forall_mem_cons, List.not_mem_nil, false_imp_iff,
    implies_true, and_true] at ho
  simp [structImpl, newImpl, deallocImpl, initImpl, membersImpl, accessorImpl, getsetRow,
    methodsImpl, methodImpl, methodRow, descriptorSlots, hbody, hc, ho]

theorem noFmt_funcImpl (format : String) (pkg : Package) (l : Nat) (o : Func)
    (h : ∀ f ∈ funcFormats, (f == format) = false) : noFmt format (funcImpl pkg l o) := by
  have hb : ∀ f ∈ bodyFormats, (f == format) = false :=
    fun f hf => h f (List.mem_append_left _ hf)
  have hc : ("\x7d\n\n" == format) = false := hb _ (by simp [bodyFormats])
  have hh := h _ (List.mem_append_right _ (List.mem_singleton_self _))
  simp [funcImpl, noFmt_bodyOut format _ _ _ hb, hc, hh]

theorem genImpl_split (l : Nat) (pkg : Package) :
    genImpl l pkg = genImplHead l pkg ++ moduleInit l pkg := by
  simp [genImpl, genImplHead]

theorem noFmt_genImplHead (format : String) (l : Nat) (pkg : Package)
    (hs : ∀ f ∈ structFormats, (f == format) = false)
    (hf : ∀ f ∈ funcFormats, (f == format) = false)
    (h1 : ("static PyMethodDef cpy_%s_methods[] = \x7b\n" == format) = false)
    (h2 : ("\x7b%[1]q, %[2]s, METH_VARARGS, %[3]q\x7d,\n" == format) = false)
    (h3 : ("\x7bNULL, NULL, 0, NULL\x7d        /* Sentinel */\n" == format) = false)
    (h4 : ("\x7d;\n\n" == format) = false) :
    noFmt format (genImplHead l pkg) := by
  simp [genImplHead, moduleRow, h1, h2, h3, h4]
  exact ⟨fun s _ => noFmt_structImpl format pkg l s hs,
    fun f _ => noFmt_funcImpl format pkg l f hf⟩

theorem moduleInit_eq (l : Nat) (pkg : Package) :
    moduleInit l pkg
      = pf l initHeader [.str pkg.pkg.Name] :: (initStatements (l + 1) pkg
          ++ pf l blockCloser [] :: []) := by
  simp [moduleInit, initStatements, initHeader, readyFormat, createFormat, increfFormat,
    addObjectFormat, blockCloser]

theorem initBody_eq (g : cpyGen) : initBody g = initStatements (g.impl.level + 1) g.pkg := by
  unfold initBody
  rw [gen_eq, implNew_extend, genImpl_split, moduleInit_eq]
  apply tableBody_eq
  · exact noFmt_genImplHead _ _ _ (by simp [structFormats, bodyFormats, structOwnFormats,
      initHeader]) (by simp [funcFormats, bodyFormats, initHeader]) (by simp [initHeader])
      (by simp [initHeader]) (by simp [initHeader]) (by simp [initHeader])
  · simp
  · simp [initStatements, readyFormat, createFormat, increfFormat, addObjectFormat, blockCloser]
  · simp

theorem initStatements_split (l : Nat) (pkg : Package) :
    initStatements l pkg
      = (pf l "PyObject *module = NULL;\n\n" []
          :: pkg.structs.map (fun s => pf l readyFormat [.str s.ID]))
        ++ pf l createFormat [.str pkg.pkg.Name, .str pkg.doc.Doc]
          :: pkg.structs.flatMap
              (fun s => [pf l increfFormat [.str s.ID],
                         pf l addObjectFormat [.str s.GoName, .str s.ID]]) := by
  simp [initStatements]

theorem noFmt_create_readies (l : Nat) (pkg : Package) :
    noFmt createFormat (pf l "PyObject *module = NULL;\n\n" []
      :: pkg.structs.map (fun s => pf l readyFormat [.str s.ID])) := by
  simp [createFormat, readyFormat]

/-! ## The order of the parts of a struct -/

theorem structImpl_split (pkg : Package) (l : Nat) (cpy : Struct) :
    structImpl pkg l cpy
      = structImplHead pkg l cpy
        ++ pf l descriptorHeader [.str cpy.ID]
          :: (descriptorSlots (l + 1) cpy ++ [pf l tableCloser []]) := by
  simp [structImpl, structImplHead, descriptorHeader, tableCloser]

theorem noFmt_structImplHead (format : String) (pkg : Package) (l : Nat) (cpy : Struct)
    (h : ∀ f ∈ structFormats, (f == format) = false) :
    noFmt format (structImplHead pkg l cpy) := by
  have hs := noFmt_structImpl format pkg l cpy h
  rw [structImpl_split, noFmt_append] at hs
  exact hs.1

theorem beforeDescriptor_eq (g : cpyGen) (cpy : Struct) :
    beforeDescriptor g cpy = structImplHead g.pkg g.impl.level cpy := by
  unfold beforeDescriptor
  rw [genStruct_eq, implNew_extend, structImpl_split]
  have hm := noFmt_methodsImpl descriptorHeader g.pkg g.impl.level cpy
    (by simp [bodyFormats, descriptorHeader]) (by simp [descriptorHeader])
    (by simp [descriptorHeader]) (by simp [descriptorHeader]) (by simp [descriptorHeader])
    (by simp [descriptorHeader]) (by simp [descriptorHeader]) (by simp [descriptorHeader])
  have hh : noFmt descriptorHeader (structImplHead g.pkg g.impl.level cpy) := by
    simp only [descriptorHeader] at hm ⊢
    simp [structImplHead, newImpl, deallocImpl, initImpl, membersImpl, accessorImpl, getsetRow,
      hm]
  rw [List.takeWhile_append_of_pos (fun a ha => by simp [hh a ha]),
    List.takeWhile_cons_of_neg (by simp)]
  simp

theorem noFmt_accessors (format : String) (l : Nat) (cpy : Struct) (ps : List (Nat × Field))
    (h : ∀ f ∈ structFormats, (f == format) = false) :
    noFmt format (ps.flatMap (accessorImpl l cpy)) := by
  have ho : ∀ f ∈ structOwnFormats, (f == format) = false :=
    fun f hf => h f (List.mem_append_right _ hf)
  have hc : ("\x7d\n\n" == format) = false :=
    h _ (List.mem_append_left _ (by simp [bodyFormats]))
  simp only [structOwnFormats, List.forall_mem_cons, List.not_mem_nil, false_imp_iff,
    implies_true, and_true] at ho
  simp [accessorImpl, hc, ho]

theorem filter_structImplHead (format : String) (pkg : Package) (l : Nat) (cpy : Struct)
    (h : ∀ f ∈ loopFormats, (f == format) = false) :
    (structImplHead pkg l cpy).filter (fun e => e.isPrintf format)
      = (structFixed l cpy).filter (fun e => e.isPrintf format) := by
  have hb : ∀ f ∈ bodyFormats, (f == format) = false :=
    fun f hf => h f (List.mem_append_left _ hf)
  have ho := fun f hf => h f (List.mem_append_right _ hf)
  have hc : ("\x7d\n\n" == format) = false := hb _ (by simp [bodyFormats])
  simp only [List.forall_mem_cons, List.not_mem_nil, false_imp_iff, implies_true,
    and_true] at ho
  have ha : noFmt format ((exportedFrom 0 cpy.typ.fields).flatMap (accessorImpl l cpy)) := by
    simp [accessorImpl, hc, ho]
  have hr : noFmt format ((exportedFrom 0 cpy.typ.fields).flatMap (getsetRow (l + 1) cpy)) := by
    simp [getsetRow, ho]
  have hm : noFmt format (cpy.meths.flatMap (methodImpl pkg l cpy)) := by
    rw [noFmt_flatMap]
    intro m _
    exact noFmt_methodImpl _ _ _ _ _ hb ho.2.2.2.2.2.2.2.2.2.2.2.1 ho.1
      ho.2.2.2.2.2.2.2.2.2.2.2.2.1
  have hw : noFmt format (cpy.meths.map (methodRow (l + 1))) := by
    simp [methodRow, ho]
  have hfix : structFixed l cpy
      = [pf l "/* --- impl for %s.%v */\n\n" [.str cpy.GoObj.Pkg.Name, .str cpy.GoName]]
        ++ newImpl l cpy ++ deallocImpl l cpy ++ initImpl l cpy
        ++ ([] ++ [pf l "/* tp_getset for %s.%v */\n"
                    [.str cpy.GoObj.Pkg.Name, .str cpy.GoName],
                  pf l "static PyGetSetDef _gopy_%s_getsets[] = \x7b\n" [.str cpy.ID]]
            ++ [] ++ [pf (l + 1) "\x7bNULL\x7d /* Sentinel */\n" [], pf l "\x7d;\n\n" []])
        ++ ([] ++ [pf l "static PyMethodDef _gopy_%s_methods[] = \x7b\n" [.str cpy.ID]]
            ++ [] ++ [pf (l + 1) "\x7bNULL\x7d /* sentinel */\n" [], pf l "\x7d;\n\n" []]) := by
    simp [structFixed]
  rw [hfix]
  simp only [structImplHead, membersImpl, methodsImpl, List.filter_append,
    filter_isPrintf_eq_nil _ _ ha, filter_isPrintf_eq_nil _ _ hr, filter_isPrintf_eq_nil _ _ hm,
    filter_isPrintf_eq_nil _ _ hw, List.filter_nil]

/-! ## Field accessors -/

theorem exportedFrom_mem (i : Nat) (fs : List Field) (p : Nat × Field) :
    p ∈ exportedFrom i fs ↔ i ≤ p.1 ∧ fs.get? (p.1 - i) = some p.2 ∧ p.2.Exported = true := by
  obtain ⟨n, f⟩ := p
  simp [exportedFrom, List.mk_mem_enumFrom_iff_le_and_getElem?_sub, and_assoc]

theorem exportedFrom_nodup (i : Nat) (fs : List Field) :
    ((exportedFrom i fs).map Prod.fst).Nodup := by
  have h : ((fs.enumFrom i).map Prod.fst).Nodup := by
    rw [List.enumFrom_map_fst]
    exact List.nodup_range' _ _
  exact h.sublist ((List.filter_sublist _).map _)

theorem filter_rows {α : Type} (format : String) (ps : List α) (row : α → List Emit)
    (pick : α → Emit)
    (h : ∀ p, (row p).filter (fun e => e.isPrintf format) = [pick p]) :
    (ps.flatMap row).filter (fun e => e.isPrintf format) = ps.map pick := by
  induction ps with
  | nil => simp
  | cons p ps ih => simp [List.filter_append, h, ih]

set_option maxRecDepth 1000000 in
theorem geom_output_field_text :
    (implNew gGeom gGeom.gen.1).filter (fun e => e.isPrintf getterLocalFormat)
        = [pf 1 getterLocalFormat [.str "GoPy_Polygon_field_1", .str "geom_Polygon", .int 1]]
      ∧ (declNew gGeom gGeom.gen.1).all Emit.isPrintfCall = true
      ∧ (implNew gGeom gGeom.gen.1).all Emit.isPrintfCall = true
      ∧ (declNew gGeom gGeom.gen.1).filter (Emit.hasText "_field_") = []
      ∧ (implNew gGeom gGeom.gen.1).filter (Emit.hasText "_field_")
        = [pf 1 getterLocalFormat
            [.str "GoPy_Polygon_field_1", .str "geom_Polygon", .int 1]] := by
  rw [gen_eq, implNew_extend, declNew_extend]
  decide

/-- Results of `genFuncBody` by count.  With no result it declares no
result local, assigns nothing, emits no pack call and ends by returning the
None singleton.  With one result it declares the one scalar local of
`genRetDecl` and emits one pack call whose only value is `c_gopy_ret`.  With
more results it declares the one aggregate local `struct <id>_return
c_gopy_ret` and emits one pack call over the results in declaration order. -/
theorem results_by_count (g : cpyGen) (id : String) (sig : Signature) :
    (sig.Results = [] →
        (bodyNew g id sig).filter Emit.isResultLocal = []
        ∧ noFmt assignFormat (bodyNew g id sig)
        ∧ noFmt packFormat (bodyNew g id sig)
        ∧ (bodyNew g id sig).getLast? = some (pf g.impl.level noneFormat []))
    ∧ (∀ ret, sig.Results = [ret] →
        (bodyNew g id sig).filter Emit.isResultLocal = [⟨g.impl.level, .genRetDecl ret⟩]
        ∧ (bodyNew g id sig).filter (fun e => e.isPrintf packFormat)
          = [pf g.impl.level packFormat [.str ret.getArgParse.1, .str "c_gopy_ret"]])
    ∧ (2 ≤ sig.Results.length →
        (bodyNew g id sig).filter Emit.isResultLocal
          = [pf g.impl.level aggregateFormat [.str id]]
        ∧ (bodyNew g id sig).filter (fun e => e.isPrintf packFormat)
          = [pf g.impl.level packFormat
              [.str (String.join (sig.Results.map (fun r => r.getArgParse.1))),
               .str (stringsJoin (sig.Results.map Var.getFuncArg) ", ")]]) := by
  obtain ⟨res, args, recv⟩ := sig
  have hd : ∀ (p : Emit → Bool), (∀ a l, p ⟨l, .genDecl a⟩ = false) →
      (args.map (fun a => (⟨g.impl.level, .genDecl a⟩ : Emit))).filter p = [] :=
    fun p h => filter_map_nil p _ args (fun a => h a _)
  have hp : ∀ (p : Emit → Bool), (∀ a l, p ⟨l, .genFuncPreamble a⟩ = false) →
      (args.map (fun a => (⟨g.impl.level, .genFuncPreamble a⟩ : Emit))).filter p = [] :=
    fun p h => filter_map_nil p _ args (fun a => h a _)
  have hd1 := hd Emit.isResultLocal (fun _ _ => rfl)
  have hp1 := hp Emit.isResultLocal (fun _ _ => rfl)
  have hd2 := hd (fun e => e.isPrintf "return Py_BuildValue(%q, %s);\n") (fun _ _ => rfl)
  have hp2 := hp (fun e => e.isPrintf "return Py_BuildValue(%q, %s);\n") (fun _ _ => rfl)
  have hd3 : noFmt assignFormat (args.map (fun a => (⟨g.impl.level, .genDecl a⟩ : Emit))) := by
    simp
  have hp3 : noFmt assignFormat
      (args.map (fun a => (⟨g.impl.level, .genFuncPreamble a⟩ : Emit))) := by
    simp
  have hd4 : noFmt packFormat (args.map (fun a => (⟨g.impl.level, .genDecl a⟩ : Emit))) := by
    simp
  have hp4 : noFmt packFormat
      (args.map (fun a => (⟨g.impl.level, .genFuncPreamble a⟩ : Emit))) := by
    simp
  simp only [bodyNew_eq]
  refine ⟨?_, ?_, ?_⟩
  · intro h
    subst h
    refine ⟨?_, ?_, ?_, ?_⟩
    · cases recv <;> by_cases ha : args = [] <;>
        simp [bodyOut, bodyDecls, bodyParse, bodyCall, bodyReturn, List.filter_append,
          List.filter_cons, hd1, hp1, ha, aggregateFormat]
    · cases recv <;> by_cases ha : args = [] <;>
        simp [bodyOut, bodyDecls, bodyParse, bodyCall, bodyReturn, ha, assignFormat]
    · cases recv <;> by_cases ha : args = [] <;>
        simp [bodyOut, bodyDecls, bodyParse, bodyCall, bodyReturn, ha, packFormat]
    · rw [getLast?_bodyOut]
      simp [bodyReturn, noneFormat]
  · intro ret h
    subst h
    constructor
    · cases recv <;> by_cases ha : args = [] <;>
        simp [bodyOut, bodyDecls, bodyParse, bodyCall, bodyReturn, List.filter_append,
          List.filter_cons, hd1, hp1, ha, aggregateFormat]
    · cases recv <;> by_cases ha : args = [] <;>
        simp [bodyOut, bodyDecls, bodyParse, bodyCall, bodyReturn, List.filter_append,
          List.filter_cons, hd2, hp2, ha, packFormat, Var.getArgParse]
  · intro h
    rcases res with _ | ⟨r, _ | ⟨r2, rs⟩⟩
    · simp at h
    · simp at h
    simp only [← stringsJoin_empty]
    constructor
    · cases recv <;> by_cases ha : args = [] <;>
        simp [bodyOut, bodyDecls, bodyParse, bodyCall, bodyReturn, List.filter_append,
          List.filter_cons, hd1, hp1, ha, aggregateFormat]
    · cases recv <;> by_cases ha : args = [] <;>
        simp [bodyOut, bodyDecls, bodyParse, bodyCall, bodyReturn, List.filter_append,
          List.filter_cons, hd2, hp2, ha, packFormat, Var.getArgParse, getFuncArg_eq]

/-! ## The claims -/

/-- C1: the entries of the getter/setter table `_gopy_<ID>_getsets` that
`genStructMembers` emits, read in order, are named by exactly the exported
fields of the struct in declaration order, one entry per exported field and
none for an unexported field, and the table ends with the sentinel. -/
theorem getsets_entries_are_exported_fields (g : cpyGen) (cpy : Struct) :
    entryNames (getsetsTable g cpy)
        = (cpy.typ.fields.filter (fun f => f.Exported)).map Field.Name
      ∧ (getsetsTable g cpy).countP (fun e => e.isPrintf getsetOpener)
        = (cpy.typ.fields.filter (fun f => f.Exported)).length
      ∧ (getsetsTable g cpy).getLast?
        = some (pf (g.impl.level + 1) "\x7bNULL\x7d /* Sentinel */\n" [])
      ∧ (getsetsTable g cpy).dropLast
        = (exportedFrom 0 cpy.typ.fields).flatMap (getsetRow (g.impl.level + 1) cpy) := by
  rw [getsetsTable_eq, entryNames_append, entryNames_rows, List.countP_append,
    countP_opener_rows, ← exportedFrom_fields 0]
  simp [entryNames, getsetOpener, List.filter_cons]

/-- C2: for a struct with N methods and M exported fields, `genStruct` emits a
method table `_gopy_<ID>_methods` of N+1 entries, the N methods in order then
the sentinel, and a getter/setter table `_gopy_<ID>_getsets` of M+1 entries,
the M field entries then the sentinel; each table is emitted once, under the
identifier of the struct, and the type descriptor names the two tables with
that identifier in its `tp_methods` and `tp_getset` slots. -/
theorem genStruct_tables_and_descriptor (g : cpyGen) (cpy : Struct) :
    (structMethodsTable g cpy
        = cpy.meths.map (methodRow (g.impl.level + 1))
          ++ [pf (g.impl.level + 1) "\x7bNULL\x7d /* sentinel */\n" []]
      ∧ (structMethodsTable g cpy).length = cpy.meths.length + 1)
    ∧ (structGetsetsTable g cpy
        = (exportedFrom 0 cpy.typ.fields).flatMap (getsetRow (g.impl.level + 1) cpy)
          ++ [pf (g.impl.level + 1) "\x7bNULL\x7d /* Sentinel */\n" []]
      ∧ (structGetsetsTable g cpy).countP Emit.endsLine
          = (cpy.typ.fields.filter (fun f => f.Exported)).length + 1)
    ∧ ((implNew g (g.genStruct cpy)).filter (fun e => e.isPrintf methodsHeader)
          = [pf g.impl.level methodsHeader [.str cpy.ID]]
      ∧ (implNew g (g.genStruct cpy)).filter (fun e => e.isPrintf getsetsHeader)
          = [pf g.impl.level getsetsHeader [.str cpy.ID]]
      ∧ (structDescriptor g cpy).get? 28
          = some (pf (g.impl.level + 1) "_gopy_%s_methods,             /* tp_methods */\n"
              [.str cpy.ID])
      ∧ (structDescriptor g cpy).get? 30
          = some (pf (g.impl.level + 1) "_gopy_%s_getsets,\t/* tp_getset */\n" [.str cpy.ID])) := by
  refine ⟨⟨structMethodsTable_eq g cpy, ?_⟩, ⟨structGetsetsTable_eq g cpy, ?_⟩, ?_, ?_, ?_, ?_⟩
  · simp [structMethodsTable_eq]
  · rw [structGetsetsTable_eq, List.countP_append, endsLine_rows, exportedFrom_length]
    have : ("\x7bNULL\x7d /* Sentinel */\n".data.getLast? == some '\n') = true := by decide
    simp [this]
  · rw [genStruct_eq, implNew_extend]
    have hm : noFmt methodsHeader (cpy.meths.flatMap (methodImpl g.pkg g.impl.level cpy)) := by
      rw [noFmt_flatMap]
      intro m _
      exact noFmt_methodImpl _ _ _ _ _ (by simp [bodyFormats, methodsHeader])
        (by simp [methodsHeader]) (by simp [methodsHeader]) (by simp [methodsHeader])
    have ha : noFmt methodsHeader
        ((exportedFrom 0 cpy.typ.fields).flatMap (accessorImpl g.impl.level cpy)) := by
      simp [accessorImpl, methodsHeader]
    have hr : noFmt methodsHeader
        ((exportedFrom 0 cpy.typ.fields).flatMap (getsetRow (g.impl.level + 1) cpy)) := by
      simp [getsetRow, methodsHeader]
    have hrow : noFmt methodsHeader (cpy.meths.map (methodRow (g.impl.level + 1))) := by
      simp [methodRow, methodsHeader]
    simp [structImpl, newImpl, deallocImpl, initImpl, membersImpl, methodsImpl, descriptorSlots,
      List.filter_append, List.filter_cons, filter_isPrintf_eq_nil _ _ hm,
      filter_isPrintf_eq_nil _ _ ha, filter_isPrintf_eq_nil _ _ hr,
      filter_isPrintf_eq_nil _ _ hrow]
    simp [methodsHeader]
  · rw [genStruct_eq, implNew_extend]
    have hm : noFmt getsetsHeader (methodsImpl g.pkg g.impl.level cpy) :=
      noFmt_methodsImpl _ _ _ _ (by simp [bodyFormats, getsetsHeader])
        (by simp [getsetsHeader]) (by simp [getsetsHeader]) (by simp [getsetsHeader])
        (by simp [getsetsHeader]) (by simp [getsetsHeader]) (by simp [getsetsHeader])
        (by simp [getsetsHeader])
    have ha : noFmt getsetsHeader
        ((exportedFrom 0 cpy.typ.fields).flatMap (accessorImpl g.impl.level cpy)) := by
      simp [accessorImpl, getsetsHeader]
    have hr : noFmt getsetsHeader
        ((exportedFrom 0 cpy.typ.fields).flatMap (getsetRow (g.impl.level + 1) cpy)) := by
      simp [getsetRow, getsetsHeader]
    simp [structImpl, newImpl, deallocImpl, initImpl, membersImpl, descriptorSlots,
      List.filter_append, List.filter_cons, filter_isPrintf_eq_nil _ _ hm,
      filter_isPrintf_eq_nil _ _ ha, filter_isPrintf_eq_nil _ _ hr]
    simp [getsetsHeader]
  · simp [structDescriptor_eq, descriptorSlots]
  · simp [structDescriptor_eq, descriptorSlots]

/-- C3: every entry of the method table that `genStructMethods` emits is keyed
by the host name of its method and carries `METH_NOARGS` when the signature of
the method has no result and `METH_VARARGS` otherwise; the entries follow the
methods in order. -/
theorem method_entries_follow_result_count (g : cpyGen) (cpy : Struct) :
    (methodsTable g cpy).dropLast
      = cpy.meths.map (fun m =>
          pf (g.impl.level + 1) "\x7b%[1]q, (PyCFunction)gopy_%[2]s, %[3]s, %[4]q\x7d,\n"
            [.str m.GoName, .str m.ID,
             .str (if m.sig.Results = [] then "METH_NOARGS" else "METH_VARARGS"),
             .str m.Doc]) := by
  rw [methodsTable_eq]
  simp [methodRow, methodConvention]

/-- C4 (the code at the `Circle`/`Area` scenario): the method table of `Circle`
registers `Area`, which takes no parameter and returns one result, with
`METH_VARARGS`, not with the no-argument convention. -/
theorem circle_area_registered_varargs :
    structMethodsTable gShapes circle
      = [pf 1 "\x7b%[1]q, (PyCFunction)gopy_%[2]s, %[3]s, %[4]q\x7d,\n"
           [.str "Area", .str "shapes_Circle_Area", .str "METH_VARARGS",
            .str "Area returns the area."],
         pf 1 "\x7bNULL\x7d /* sentinel */\n" []] := by
  rw [structMethodsTable_eq]
  simp [gShapes, circle, circleArea, methodRow, methodConvention]

/-- C5: `genFuncBody` emits no argument-parse call when the parameter list is
empty.  When it is not empty it emits exactly one parse call: its format string
is the concatenation of the parse-format fragments of the parameters, one per
parameter in declaration order, its destination list is their addresses in the
same order, it is followed by the guard that returns NULL, and the whole
precedes the underlying call. -/
theorem parse_call_iff_params (g : cpyGen) (id : String) (sig : Signature) :
    (sig.Params = [] →
        noFmt parseOpener (bodyNew g id sig) ∧ noFmt parseArgsFormat (bodyNew g id sig))
    ∧ (sig.Params ≠ [] → ∃ pre post : List Emit,
        bodyNew g id sig
          = pre ++ [pf g.impl.level parseOpener [],
                    pf g.impl.level parseArgsFormat
                      [.str (String.join (sig.Params.map (fun a => a.getArgParse.1))),
                       .str (stringsJoin (sig.Params.map (fun a => a.getArgParse.2)) ", ")],
                    pf (g.impl.level + 1) "return NULL;\n" [],
                    pf g.impl.level "\x7d\n\n" []] ++ post
        ∧ noFmt parseOpener pre ∧ noFmt parseOpener post
        ∧ noFmt callFormat pre
        ∧ (post.filter (fun e => e.isPrintf callFormat)).length = 1)
    ∧ (sig.Params.map (fun a => a.getArgParse.1)).length = sig.Params.length := by
  refine ⟨?_, ?_, by simp⟩
  · intro h
    rw [bodyNew_eq, bodyOut_split]
    have hr1 := isPrintf_bodyReturn parseOpener g.impl.level sig.Results
      (by simp [parseOpener]) (by simp [parseOpener])
    have hr2 := isPrintf_bodyReturn parseArgsFormat g.impl.level sig.Results
      (by simp [parseArgsFormat]) (by simp [parseArgsFormat])
    constructor
    · simp [h, noFmt_bodyHead parseOpener _ _ _ (by simp [parseOpener]) (by simp [parseOpener]),
        noFmt_bodyMid parseOpener _ _ (by simp [parseOpener]) (by simp [parseOpener]),
        isPrintf_bodyCall, hr1]
      simp [parseOpener]
    · simp [h,
        noFmt_bodyHead parseArgsFormat _ _ _ (by simp [parseArgsFormat])
          (by simp [parseArgsFormat]),
        noFmt_bodyMid parseArgsFormat _ _ (by simp [parseArgsFormat])
          (by simp [parseArgsFormat]),
        isPrintf_bodyCall, hr2]
      simp [parseArgsFormat]
  · intro h
    refine ⟨bodyHead g.impl.level id sig,
      bodyMid g.impl.level sig
        ++ [bodyCall g.impl.level id sig, pf g.impl.level "\n" [],
            bodyReturn g.impl.level sig.Results], ?_, ?_, ?_, ?_, ?_⟩
    · rw [bodyNew_eq, bodyOut_split]
      simp [h, bodyParse, parseOpener, parseArgsFormat, stringsJoin_empty, Var.getArgParse]
    · exact noFmt_bodyHead _ _ _ _ (by simp [parseOpener]) (by simp [parseOpener])
    · have hr1 := isPrintf_bodyReturn parseOpener g.impl.level sig.Results
        (by simp [parseOpener]) (by simp [parseOpener])
      simp [noFmt_bodyMid parseOpener _ _ (by simp [parseOpener]) (by simp [parseOpener]),
        isPrintf_bodyCall, hr1]
      simp [parseOpener]
    · exact noFmt_bodyHead _ _ _ _ (by simp [callFormat]) (by simp [callFormat])
    · have hr := isPrintf_bodyReturn callFormat g.impl.level sig.Results
        (by simp [callFormat]) (by simp [callFormat])
      rw [filter_single (fun e => e.isPrintf callFormat) (bodyMid g.impl.level sig)
        [pf g.impl.level "\n" [], bodyReturn g.impl.level sig.Results]
        (bodyCall g.impl.level id sig)
        ((noneOf_isPrintf _ _).2
          (noFmt_bodyMid _ _ _ (by simp [callFormat]) (by simp [callFormat])))
        (by simp [isPrintf_bodyCall, callFormat])
        (by simp [noneOf]; simpa [callFormat] using hr)]
      rfl

/-- Witness of C5 at `Add(a, b int) int`, which has parameters. -/
theorem parse_call_iff_params_witness :
    addFunc.sig.Params ≠ []
      ∧ ∃ pre post : List Emit,
        bodyNew gShapes addFunc.ID addFunc.sig
          = pre ++ [pf gShapes.impl.level parseOpener [],
                    pf gShapes.impl.level parseArgsFormat
                      [.str (String.join (addFunc.sig.Params.map (fun a => a.getArgParse.1))),
                       .str (stringsJoin (addFunc.sig.Params.map (fun a => a.getArgParse.2))
                         ", ")],
                    pf (gShapes.impl.level + 1) "return NULL;\n" [],
                    pf gShapes.impl.level "\x7d\n\n" []] ++ post
        ∧ noFmt parseOpener pre ∧ noFmt parseOpener post
        ∧ noFmt callFormat pre
        ∧ (post.filter (fun e => e.isPrintf callFormat)).length = 1 :=
  ⟨by simp [addFunc],
    (parse_call_iff_params gShapes addFunc.ID addFunc.sig).2.1 (by simp [addFunc])⟩

/-- C6 (the code at a function with two results): the body of
`Divmod(a, b int) (q, r int)` declares a local for each parameter and the one
aggregate local `struct shapes_Divmod_return c_gopy_ret`, no local for `q` or
`r`; it assigns the value of the call to `c_gopy_ret`; and its pack call is
given `c_q, c_r`, the expressions of the two results, in which `c_gopy_ret`
does not occur: the values packed are not read from the aggregate. -/
theorem divmod_pack_ignores_aggregate :
    bodyNew gShapes divmod.ID divmod.sig
        = [⟨0, .genDecl ⟨"a", goInt, "c_a", "i", "&c_a"⟩⟩,
           ⟨0, .genDecl ⟨"b", goInt, "c_b", "i", "&c_b"⟩⟩,
           pf 0 "struct %[1]s_return c_gopy_ret;\n" [.str "shapes_Divmod"],
           pf 0 "\n" [],
           pf 0 "if (!PyArg_ParseTuple(args, " [],
           pf 0 "%q, %s)) \x7b\n" [.str "ii", .str "&c_a, &c_b"],
           pf 1 "return NULL;\n" [],
           pf 0 "\x7d\n\n" [],
           ⟨0, .genFuncPreamble ⟨"a", goInt, "c_a", "i", "&c_a"⟩⟩,
           ⟨0, .genFuncPreamble ⟨"b", goInt, "c_b", "i", "&c_b"⟩⟩,
           pf 0 "\n" [],
           pf 0 "c_gopy_ret = " [],
           pf 0 "GoPy_%[1]s(%[2]s);\n" [.str "shapes_Divmod", .str "c_a, c_b"],
           pf 0 "\n" [],
           pf 0 "return Py_BuildValue(%q, %s);\n" [.str "ii", .str "c_q, c_r"]]
      ∧ containsSub "c_gopy_ret".data "c_q, c_r".data = false := by
  decide

/-- C7: for a signature with at least one result, `genFuncBody` emits one pack
call; its format string is the concatenation of one fragment per result in
declaration order, and its value list has one value per result, so the numbers
of fragments, of values and of results are equal. -/
theorem pack_call_lockstep (g : cpyGen) (id : String) (sig : Signature)
    (h : sig.Results ≠ []) :
    (bodyNew g id sig).filter (fun e => e.isPrintf packFormat)
        = [pf g.impl.level packFormat
            [.str (String.join (sig.Results.map (fun r => r.getArgParse.1))),
             .str (stringsJoin (packValues sig.Results) ", ")]]
      ∧ (sig.Results.map (fun r => r.getArgParse.1)).length = sig.Results.length
      ∧ (packValues sig.Results).length = sig.Results.length := by
  rw [bodyNew_eq, filter_pack_bodyOut _ _ _ h]
  obtain ⟨res, args, recv⟩ := sig
  rcases res with _ | ⟨r, _ | ⟨r2, rs⟩⟩
  · simp at h
  · simp [bodyReturn, packValues, packFormat, Var.getArgParse, String.join, stringsJoin]
  · simp [bodyReturn, packValues, packFormat, Var.getArgParse, ← stringsJoin_empty,
      getFuncArg_eq]

/-- Witness of C7 at `Add(a, b int) int`, which has a result. -/
theorem pack_call_lockstep_witness :
    addFunc.sig.Results ≠ []
      ∧ (bodyNew gShapes addFunc.ID addFunc.sig).filter (fun e => e.isPrintf packFormat)
          = [pf gShapes.impl.level packFormat
              [.str (String.join (addFunc.sig.Results.map (fun r => r.getArgParse.1))),
               .str (stringsJoin (packValues addFunc.sig.Results) ", ")]]
      ∧ (addFunc.sig.Results.map (fun r => r.getArgParse.1)).length
          = addFunc.sig.Results.length
      ∧ (packValues addFunc.sig.Results).length = addFunc.sig.Results.length :=
  ⟨by simp [addFunc], pack_call_lockstep gShapes addFunc.ID addFunc.sig (by simp [addFunc])⟩

/-- C8: `genFuncBody` emits exactly one underlying call `GoPy_<id>(...)`; its
argument list is the argument of the receiver, when there is one, followed by
the argument of every parameter in declaration order, so it has as many
arguments as parameters plus one for a receiver; the value of the call is
assigned to `c_gopy_ret`, by the call that directly precedes it, exactly when
the signature has a result. -/
theorem one_underlying_call (g : cpyGen) (id : String) (sig : Signature) :
    (bodyNew g id sig).filter (fun e => e.isPrintf callFormat)
        = [pf g.impl.level callFormat
            [.str id,
             .str (stringsJoin
               (sig.Recv.toList.map Var.getFuncArg ++ sig.Params.map Var.getFuncArg) ", ")]]
      ∧ (sig.Recv.toList.map Var.getFuncArg ++ sig.Params.map Var.getFuncArg).length
          = sig.Params.length + (if sig.Recv.isSome then 1 else 0)
      ∧ (bodyNew g id sig).countP (fun e => e.isPrintf assignFormat)
          = (if sig.Results = [] then 0 else 1)
      ∧ (((bodyNew g id sig).takeWhile (fun e => !e.isPrintf callFormat)).getLast?
            = some (pf g.impl.level assignFormat [])
          ↔ sig.Results ≠ []) := by
  rw [bodyNew_eq, filter_call_bodyOut, beforeCall_bodyOut]
  refine ⟨by simp [bodyCall, callFormat, getFuncArg_eq], ?_, ?_, ?_⟩
  · cases sig.Recv <;> simp
  · obtain ⟨res, args, recv⟩ := sig
    have hd := countP_map_zero (fun e => e.isPrintf "c_gopy_ret = ")
      (fun a => (⟨g.impl.level, .genDecl a⟩ : Emit)) args (fun _ => rfl)
    have hp := countP_map_zero (fun e => e.isPrintf "c_gopy_ret = ")
      (fun a => (⟨g.impl.level, .genFuncPreamble a⟩ : Emit)) args (fun _ => rfl)
    cases recv <;> by_cases ha : args = [] <;> rcases res with _ | ⟨r, _ | ⟨r2, rs⟩⟩ <;>
      simp [bodyOut, bodyDecls, bodyParse, bodyCall, bodyReturn, List.countP_cons, hd, hp, ha,
        assignFormat]
  · obtain ⟨res, args, recv⟩ := sig
    by_cases hr : res = []
    · subst hr
      by_cases ha : args = []
      · cases recv <;>
          simp [bodyHead, bodyDecls, bodyMid, bodyParse, ha, assignFormat, List.getLast?_append,
            List.getLast?_cons_cons, pf]
      · have hlast : bodyHead g.impl.level id ⟨[], args, recv⟩
              ++ (if (⟨[], args, recv⟩ : Signature).Params = [] then []
                  else bodyParse g.impl.level (⟨[], args, recv⟩ : Signature).Params)
              ++ bodyMid g.impl.level ⟨[], args, recv⟩
            = (bodyHead g.impl.level id ⟨[], args, recv⟩ ++ bodyParse g.impl.level args
                ++ args.map (fun a => (⟨g.impl.level, .genFuncPreamble a⟩ : Emit)))
              ++ [pf g.impl.level "\n" []] := by
          simp [bodyMid, ha]
        rw [hlast, List.getLast?_concat]
        simp [assignFormat, pf]
    · simp [bodyMid, hr, assignFormat, List.getLast?_append]

/-- C9: the body `genFuncBody` emits has exactly one final return: one
`return Py_None` when there is no result, one `return Py_BuildValue(...)`
otherwise, never both, and it is the last call of the body.  The only other
`return` is the `return NULL` of the parse guard, present exactly when there
are parameters, and it precedes the underlying call. -/
theorem one_return_path (g : cpyGen) (id : String) (sig : Signature) :
    (bodyNew g id sig).countP (fun e => e.isPrintf noneFormat)
        = (if sig.Results = [] then 1 else 0)
      ∧ (bodyNew g id sig).countP (fun e => e.isPrintf packFormat)
        = (if sig.Results = [] then 0 else 1)
      ∧ (∃ e, (bodyNew g id sig).getLast? = some e
          ∧ (e.isPrintf noneFormat || e.isPrintf packFormat) = true)
      ∧ (bodyNew g id sig).filter Emit.isReturn
        = (if sig.Params = [] then [] else [pf (g.impl.level + 1) "return NULL;\n" []])
          ++ (bodyNew g id sig).getLast?.toList
      ∧ ((bodyNew g id sig).takeWhile (fun e => !e.isPrintf callFormat)).filter Emit.isReturn
        = (if sig.Params = [] then [] else [pf (g.impl.level + 1) "return NULL;\n" []]) := by
  obtain ⟨h1, h2, h3, h4, h5, h6, h7, h8, h9, h10⟩ := startsLine_return
  simp only [bodyNew_eq, getLast?_bodyOut, beforeCall_bodyOut]
  obtain ⟨res, args, recv⟩ := sig
  have cd := fun p h => countP_map_zero p
    (fun a => (⟨g.impl.level, .genDecl a⟩ : Emit)) args h
  have cp := fun p h => countP_map_zero p
    (fun a => (⟨g.impl.level, .genFuncPreamble a⟩ : Emit)) args h
  have fd := fun p h => filter_map_nil p
    (fun a => (⟨g.impl.level, .genDecl a⟩ : Emit)) args h
  have fp := fun p h => filter_map_nil p
    (fun a => (⟨g.impl.level, .genFuncPreamble a⟩ : Emit)) args h
  have cd1 := cd (fun e => e.isPrintf "Py_INCREF(Py_None);\nreturn Py_None;\n") (fun _ => rfl)
  have cp1 := cp (fun e => e.isPrintf "Py_INCREF(Py_None);\nreturn Py_None;\n") (fun _ => rfl)
  have cd2 := cd (fun e => e.isPrintf "return Py_BuildValue(%q, %s);\n") (fun _ => rfl)
  have cp2 := cp (fun e => e.isPrintf "return Py_BuildValue(%q, %s);\n") (fun _ => rfl)
  have fd3 := fd Emit.isReturn (fun _ => rfl)
  have fp3 := fp Emit.isReturn (fun _ => rfl)
  refine ⟨?_, ?_, ?_, ?_, ?_⟩
  · cases recv <;> by_cases ha : args = [] <;> rcases res with _ | ⟨r, _ | ⟨r2, rs⟩⟩ <;>
      simp [bodyOut, bodyDecls, bodyParse, bodyCall, bodyReturn, List.countP_cons, cd1, cp1, ha,
        noneFormat]
  · cases recv <;> by_cases ha : args = [] <;> rcases res with _ | ⟨r, _ | ⟨r2, rs⟩⟩ <;>
      simp [bodyOut, bodyDecls, bodyParse, bodyCall, bodyReturn, List.countP_cons, cd2, cp2, ha,
        packFormat]
  · rcases res with _ | ⟨r, _ | ⟨r2, rs⟩⟩ <;> simp [bodyReturn, noneFormat, packFormat]
  · cases recv <;> by_cases ha : args = [] <;> rcases res with _ | ⟨r, _ | ⟨r2, rs⟩⟩ <;>
      simp [bodyOut, bodyDecls, bodyParse, bodyCall, bodyReturn, List.filter_append,
        List.filter_cons, fd3, fp3, ha, h1, h2, h3, h4, h5, h6, h7, h8, h9, h10]
  · cases recv <;> by_cases ha : args = [] <;> rcases res with _ | ⟨r, _ | ⟨r2, rs⟩⟩ <;>
      simp [bodyHead, bodyMid, bodyDecls, bodyParse, List.filter_append,
        List.filter_cons, fd3, fp3, ha, h1, h2, h3, h4, h5, h6, h7, h8, h9, h10]

/-- C10: the module-level table `cpy_<pkg>_methods` that `gen` emits has one
entry per free function, in the order of the package, carrying the host name
of the function, the wrapper symbol `gopy_<ID>`, `METH_VARARGS` and the doc
string, followed by one sentinel, so k functions give k+1 entries; `genFunc`
defines a wrapper `gopy_<ID>` for the same functions in the same order, and the
table is emitted once. -/
theorem module_table_lists_functions (g : cpyGen) :
    moduleTable g
        = g.pkg.funcs.map (fun f =>
            pf (g.impl.level + 1) "\x7b%[1]q, %[2]s, METH_VARARGS, %[3]q\x7d,\n"
              [.str f.GoName, .str ("gopy_" ++ f.ID), .str f.Doc])
          ++ [pf (g.impl.level + 1) "\x7bNULL, NULL, 0, NULL\x7d        /* Sentinel */\n" []]
      ∧ (moduleTable g).length = g.pkg.funcs.length + 1
      ∧ (implNew g g.gen.1).filter (fun e => e.isPrintf funcHeaderFormat)
        = g.pkg.funcs.map (fun f =>
            pf g.impl.level funcHeaderFormat [.str g.pkg.pkg.Name, .str f.GoName, .str f.ID])
      ∧ (implNew g g.gen.1).filter (fun e => e.isPrintf moduleHeader)
        = [pf g.impl.level moduleHeader [.str g.pkg.pkg.Name]] := by
  refine ⟨?_, ?_, ?_, ?_⟩
  · rw [moduleTable_eq]
    rfl
  · simp [moduleTable_eq]
  · rw [gen_eq, implNew_extend]
    have hs : (g.pkg.structs.flatMap (structImpl g.pkg g.impl.level)).filter
        (fun e => e.isPrintf funcHeaderFormat) = [] :=
      filter_isPrintf_eq_nil _ _
        ((noFmt_flatMap _ _ _).2 (fun s _ => noFmt_structImpl_funcHeader _ _ s))
    have hr : (g.pkg.funcs.map (moduleRow (g.impl.level + 1))).filter
        (fun e => e.isPrintf funcHeaderFormat) = [] :=
      filter_isPrintf_eq_nil _ _ (by simp [moduleRow, funcHeaderFormat])
    have hi : (moduleInit g.impl.level g.pkg).filter
        (fun e => e.isPrintf funcHeaderFormat) = [] :=
      filter_isPrintf_eq_nil _ _ (by simp [moduleInit, funcHeaderFormat])
    simp only [genImpl, List.filter_append, hs, hr, hi, filter_funcHeader_funcImpl]
    simp [List.filter_cons, funcHeaderFormat]
  · rw [gen_eq, implNew_extend]
    have hs : (g.pkg.structs.flatMap (structImpl g.pkg g.impl.level)).filter
        (fun e => e.isPrintf moduleHeader) = [] :=
      filter_isPrintf_eq_nil _ _
        ((noFmt_flatMap _ _ _).2 (fun s _ => noFmt_structImpl_moduleHeader _ _ s))
    have hf : (g.pkg.funcs.flatMap (funcImpl g.pkg g.impl.level)).filter
        (fun e => e.isPrintf moduleHeader) = [] :=
      filter_isPrintf_eq_nil _ _
        ((noFmt_flatMap _ _ _).2 (fun f _ => noFmt_funcImpl_moduleHeader _ _ f))
    have hr : (g.pkg.funcs.map (moduleRow (g.impl.level + 1))).filter
        (fun e => e.isPrintf moduleHeader) = [] :=
      filter_isPrintf_eq_nil _ _ (by simp [moduleRow, moduleHeader])
    have hi : (moduleInit g.impl.level g.pkg).filter
        (fun e => e.isPrintf moduleHeader) = [] :=
      filter_isPrintf_eq_nil _ _ (by simp [moduleInit, moduleHeader])
    simp only [genImpl, List.filter_append, hs, hf, hr, hi]
    simp [List.filter_cons, moduleHeader]

/-- C11: the module-initialization routine that `gen` emits holds, in this
order: one `PyType_Ready` statement per struct in struct order, then the one
module-creation statement, `Py_InitModule3` with the package name, the table
`cpy_<pkg>_methods` and the package doc string, then for each struct in struct
order a `Py_INCREF` of its descriptor directly followed by the
`PyModule_AddObject` that binds it under the host name of the struct.  No
binding precedes the module creation, no type preparation follows it, and the
whole output has one module creation. -/
theorem init_routine_order (g : cpyGen) :
    initBody g
        = [pf (g.impl.level + 1) "PyObject *module = NULL;\n\n" []]
          ++ g.pkg.structs.map (fun s => pf (g.impl.level + 1) readyFormat [.str s.ID])
          ++ [pf (g.impl.level + 1) createFormat [.str g.pkg.pkg.Name, .str g.pkg.doc.Doc]]
          ++ g.pkg.structs.flatMap
              (fun s => [pf (g.impl.level + 1) increfFormat [.str s.ID],
                         pf (g.impl.level + 1) addObjectFormat [.str s.GoName, .str s.ID]])
      ∧ ((initBody g).takeWhile (fun e => !e.isPrintf createFormat)).filter
          (fun e => e.isPrintf increfFormat || e.isPrintf addObjectFormat) = []
      ∧ ((initBody g).dropWhile (fun e => !e.isPrintf createFormat)).filter
          (fun e => e.isPrintf readyFormat) = []
      ∧ (implNew g g.gen.1).filter (fun e => e.isPrintf createFormat)
          = [pf (g.impl.level + 1) createFormat [.str g.pkg.pkg.Name, .str g.pkg.doc.Doc]] := by
  refine ⟨?_, ?_, ?_, ?_⟩
  · rw [initBody_eq]
    rfl
  · rw [initBody_eq, initStatements_split,
      List.takeWhile_append_of_pos
        (fun a ha => by simp [noFmt_create_readies (g.impl.level + 1) g.pkg a ha]),
      List.takeWhile_cons_of_neg (by simp)]
    apply filter_eq_nil_of_noneOf
    simp [readyFormat, increfFormat, addObjectFormat]
  · rw [initBody_eq, initStatements_split,
      List.dropWhile_append_of_pos
        (fun a ha => by simp [noFmt_create_readies (g.impl.level + 1) g.pkg a ha]),
      List.dropWhile_cons_of_neg (by simp)]
    apply filter_isPrintf_eq_nil
    simp [readyFormat, increfFormat, addObjectFormat, createFormat]
  · rw [gen_eq, implNew_extend, genImpl_split, moduleInit_eq, initStatements_split]
    have hh := noFmt_genImplHead createFormat g.impl.level g.pkg
      (by simp [structFormats, bodyFormats, structOwnFormats, createFormat])
      (by simp [funcFormats, bodyFormats, createFormat]) (by simp [createFormat])
      (by simp [createFormat]) (by simp [createFormat]) (by simp [createFormat])
    have h := filter_single (fun e => e.isPrintf createFormat)
      (genImplHead g.impl.level g.pkg ++ pf g.impl.level initHeader [.str g.pkg.pkg.Name]
        :: pf (g.impl.level + 1) "PyObject *module = NULL;\n\n" []
        :: g.pkg.structs.map (fun s => pf (g.impl.level + 1) readyFormat [.str s.ID]))
      (g.pkg.structs.flatMap
          (fun s => [pf (g.impl.level + 1) increfFormat [.str s.ID],
                     pf (g.impl.level + 1) addObjectFormat [.str s.GoName, .str s.ID]])
        ++ [pf g.impl.level blockCloser []])
      (pf (g.impl.level + 1) createFormat [.str g.pkg.pkg.Name, .str g.pkg.doc.Doc])
      (by
        rw [noneOf_isPrintf, noFmt_append]
        refine ⟨hh, ?_⟩
        simp [createFormat, readyFormat, initHeader])
      (by simp)
      (by
        rw [noneOf_isPrintf]
        simp [createFormat, increfFormat, addObjectFormat, blockCloser])
    simpa using h

/-- C12 (counterexample): for `Circle`, `genStruct` defines the constructor
hook at position 2 of the definitions log and the destructor hook at position
9, and declares the constructor at position 9 of the declarations log and the
destructor at position 11: the constructor comes first in both. -/
theorem constructor_precedes_destructor :
    (implNew gShapes (gShapes.genStruct circle)).get? 2
        = some (pf 0 newDefFormat [.str "shapes_Circle"])
      ∧ (implNew gShapes (gShapes.genStruct circle)).get? 9
        = some (pf 0 deallocDefFormat [.str "shapes_Circle"])
      ∧ (implNew gShapes (gShapes.genStruct circle)).filter
          (fun e => e.isPrintf newDefFormat || e.isPrintf deallocDefFormat)
        = [pf 0 newDefFormat [.str "shapes_Circle"],
           pf 0 deallocDefFormat [.str "shapes_Circle"]]
      ∧ (declNew gShapes (gShapes.genStruct circle)).get? 9
        = some (pf 0 newDeclFormat [.str "shapes_Circle"])
      ∧ (declNew gShapes (gShapes.genStruct circle)).get? 11
        = some (pf 0 deallocDeclFormat [.str "shapes_Circle"]) := by
  rw [genStruct_eq, implNew_extend, declNew_extend]
  refine ⟨?_, ?_, ?_, ?_, ?_⟩
  · simp [structImpl, newImpl, gShapes, circle, newDefFormat]
  · simp [structImpl, newImpl, deallocImpl, gShapes, circle, deallocDefFormat]
  · simp [structImpl, newImpl, deallocImpl, initImpl, membersImpl, methodsImpl, methodImpl,
      accessorImpl, getsetRow, methodRow, descriptorSlots, bodyOut, bodyDecls, bodyCall,
      bodyReturn, exportedFrom, gShapes, circle, circleArea, newDefFormat, deallocDefFormat,
      List.filter_cons, List.enumFrom_cons]
  · simp [structDecl, structHead, newDecl, gShapes, circle, newDeclFormat]
  · simp [structDecl, structHead, newDecl, deallocDecl, gShapes, circle, deallocDeclFormat]

/-- C12 (amended): `genStruct` emits its parts in a fixed order: the opaque
handle typedef and the object storage type, then the constructor hook, the
destructor hook, the initializer hook, the field accessors followed by their
registration table, the method wrappers followed by the method table, and
last the type descriptor; the hooks and the two tables that the descriptor
references are each defined once in the definitions log before the descriptor
is opened. -/
theorem genStruct_parts_in_order (g : cpyGen) (cpy : Struct) :
    declNew g (g.genStruct cpy)
        = structHead g.decl.level cpy
          ++ declNew g (g.genStructNew cpy) ++ declNew g (g.genStructDealloc cpy)
          ++ declNew g (g.genStructInit cpy) ++ declNew g (g.genStructMembers cpy)
          ++ declNew g (g.genStructMethods cpy)
      ∧ beforeDescriptor g cpy
        = [pf g.impl.level "/* --- impl for %s.%v */\n\n"
            [.str cpy.GoObj.Pkg.Name, .str cpy.GoName]]
          ++ implNew g (g.genStructNew cpy) ++ implNew g (g.genStructDealloc cpy)
          ++ implNew g (g.genStructInit cpy) ++ implNew g (g.genStructMembers cpy)
          ++ implNew g (g.genStructMethods cpy)
      ∧ implNew g (g.genStruct cpy)
        = beforeDescriptor g cpy ++ [pf g.impl.level descriptorHeader [.str cpy.ID]]
          ++ structDescriptor g cpy ++ [pf g.impl.level tableCloser []]
      ∧ implNew g (g.genStructMembers cpy)
        = (exportedFrom 0 cpy.typ.fields).flatMap (accessorImpl g.impl.level cpy)
          ++ [pf g.impl.level "/* tp_getset for %s.%v */\n"
                [.str cpy.GoObj.Pkg.Name, .str cpy.GoName],
              pf g.impl.level getsetsHeader [.str cpy.ID]]
          ++ getsetsTable g cpy ++ [pf g.impl.level tableCloser []]
      ∧ implNew g (g.genStructMethods cpy)
        = cpy.meths.flatMap (methodImpl g.pkg g.impl.level cpy)
          ++ [pf g.impl.level methodsHeader [.str cpy.ID]]
          ++ methodsTable g cpy ++ [pf g.impl.level tableCloser []]
      ∧ (beforeDescriptor g cpy).filter (fun e => e.isPrintf newDefFormat)
        = [pf g.impl.level newDefFormat [.str cpy.ID]]
      ∧ (beforeDescriptor g cpy).filter (fun e => e.isPrintf deallocDefFormat)
        = [pf g.impl.level deallocDefFormat [.str cpy.ID]]
      ∧ (beforeDescriptor g cpy).filter (fun e => e.isPrintf initDefFormat)
        = [pf g.impl.level initDefFormat [.str cpy.ID]]
      ∧ (beforeDescriptor g cpy).filter (fun e => e.isPrintf getsetsHeader)
        = [pf g.impl.level getsetsHeader [.str cpy.ID]]
      ∧ (beforeDescriptor g cpy).filter (fun e => e.isPrintf methodsHeader)
        = [pf g.impl.level methodsHeader [.str cpy.ID]] := by
  rw [beforeDescriptor_eq, structDescriptor_eq, getsetsTable_eq, methodsTable_eq]
  simp only [genStruct_eq, genStructNew_eq, genStructDealloc_eq, genStructInit_eq,
    genStructMembers_eq, genStructMethods_eq, implNew_extend, declNew_extend]
  refine ⟨?_, ?_, ?_, ?_, ?_, ?_, ?_, ?_, ?_, ?_⟩
  · simp [structDecl]
  · simp [structImplHead]
  · rw [structImpl_split]
    simp
  · simp [membersImpl, getsetsHeader, tableCloser]
  · simp [methodsImpl, methodsHeader, tableCloser]
  · rw [filter_structImplHead _ _ _ _ (by simp [loopFormats, bodyFormats, newDefFormat])]
    simp [structFixed, newImpl, deallocImpl, initImpl, List.filter_cons, newDefFormat]
  · rw [filter_structImplHead _ _ _ _ (by simp [loopFormats, bodyFormats, deallocDefFormat])]
    simp [structFixed, newImpl, deallocImpl, initImpl, List.filter_cons, deallocDefFormat]
  · rw [filter_structImplHead _ _ _ _ (by simp [loopFormats, bodyFormats, initDefFormat])]
    simp [structFixed, newImpl, deallocImpl, initImpl, List.filter_cons, initDefFormat]
  · rw [filter_structImplHead _ _ _ _ (by simp [loopFormats, bodyFormats, getsetsHeader])]
    simp [structFixed, newImpl, deallocImpl, initImpl, List.filter_cons, getsetsHeader]
  · rw [filter_structImplHead _ _ _ _ (by simp [loopFormats, bodyFormats, methodsHeader])]
    simp [structFixed, newImpl, deallocImpl, initImpl, List.filter_cons, methodsHeader]

/-- C13 (counterexample): package `callbacks` has a free function whose
parameter is a function value, and `gen`, entered with an empty error
accumulator, returns nil and leaves the accumulator empty. -/
theorem gen_nil_with_function_value :
    gCallbacks.err = []
      ∧ (∃ f ∈ gCallbacks.pkg.funcs, ∃ a ∈ f.sig.Params, a.typ = funcValue)
      ∧ gCallbacks.gen.2 = none
      ∧ gCallbacks.gen.1.err = [] := by
  refine ⟨rfl, ⟨applyFunc, ?_, ⟨"f", funcValue, "c_f", "", "&c_f"⟩, ?_, rfl⟩, ?_, ?_⟩
  · simp [gCallbacks, callbacks]
  · simp [applyFunc]
  · rw [gen_err]
    simp [gCallbacks]
  · rw [gen_eq]
    simp [gCallbacks]

/-- C13 (amended): entered with an empty error accumulator, `gen` runs to
completion, writing both logs in full, and returns nil with the accumulator
still empty, whatever the types of the parameters, results and fields are. -/
theorem gen_returns_nil_from_empty (g : cpyGen) (h : g.err = []) :
    g.gen.2 = none
      ∧ g.gen.1.err = []
      ∧ declNew g g.gen.1 = genDecl g.decl.level g.pkg
      ∧ implNew g g.gen.1 = genImpl g.impl.level g.pkg := by
  rw [gen_err, gen_eq]
  simp [h]

/-- Witness of C13 (amended) at the package `callbacks`. -/
theorem gen_returns_nil_from_empty_witness :
    gCallbacks.err = []
      ∧ gCallbacks.gen.2 = none
      ∧ gCallbacks.gen.1.err = []
      ∧ declNew gCallbacks gCallbacks.gen.1 = genDecl gCallbacks.decl.level gCallbacks.pkg
      ∧ implNew gCallbacks gCallbacks.gen.1 = genImpl gCallbacks.impl.level gCallbacks.pkg :=
  ⟨rfl, gen_returns_nil_from_empty gCallbacks rfl⟩

/-- C15: `genStructMembers` uses the 1-based index `i+1` consistently for the
exported field at 0-based position `i` of the full field list: it declares
`_gopy_<ID>_getter_<i+1>` and `_gopy_<ID>_setter_<i+1>` in the declarations log,
defines the same two in the definitions log, and the entry of the field in the
table references the same two.  The positions used are those of the exported
fields, each once, so every accessor named in the table is declared once and
defined once, and no accessor exists for an unexported field. -/
theorem accessor_indices_consistent (g : cpyGen) (cpy : Struct) :
    ((declNew g (g.genStructMembers cpy)).filter (fun e => e.isPrintf getterDeclFormat)
        = (exportedFrom 0 cpy.typ.fields).map (fun p =>
            pf g.decl.level getterDeclFormat [.str cpy.ID, .int (p.1 + 1), .str p.2.Name])
      ∧ (declNew g (g.genStructMembers cpy)).filter (fun e => e.isPrintf setterDeclFormat)
        = (exportedFrom 0 cpy.typ.fields).map (fun p =>
            pf g.decl.level setterDeclFormat [.str cpy.ID, .int (p.1 + 1)])
      ∧ (implNew g (g.genStructMembers cpy)).filter (fun e => e.isPrintf getterDefFormat)
        = (exportedFrom 0 cpy.typ.fields).map (fun p =>
            pf g.impl.level getterDefFormat [.str cpy.ID, .int (p.1 + 1), .str p.2.Name])
      ∧ (implNew g (g.genStructMembers cpy)).filter (fun e => e.isPrintf setterDefFormat)
        = (exportedFrom 0 cpy.typ.fields).map (fun p =>
            pf g.impl.level setterDefFormat [.str cpy.ID, .int (p.1 + 1)])
      ∧ (implNew g (g.genStructMembers cpy)).filter (fun e => e.isPrintf getterRefFormat)
        = (exportedFrom 0 cpy.typ.fields).map (fun p =>
            pf (g.impl.level + 1) getterRefFormat [.str cpy.ID, .int (p.1 + 1)])
      ∧ (implNew g (g.genStructMembers cpy)).filter (fun e => e.isPrintf setterRefFormat)
        = (exportedFrom 0 cpy.typ.fields).map (fun p =>
            pf (g.impl.level + 1) setterRefFormat [.str cpy.ID, .int (p.1 + 1)]))
      ∧ (∀ p : Nat × Field, p ∈ exportedFrom 0 cpy.typ.fields ↔
          cpy.typ.fields.get? p.1 = some p.2 ∧ p.2.Exported = true)
      ∧ ((exportedFrom 0 cpy.typ.fields).map Prod.fst).Nodup := by
  refine ⟨?_, ?_, exportedFrom_nodup 0 _⟩
  · rw [genStructMembers_eq, implNew_extend, declNew_extend]
    have hr : ∀ (format : String) (l : Nat),
        (("\x7b%q, " == format) = false) → (("(getter)_gopy_%[1]s_getter_%[2]d, " == format) = false)
        → (("(setter)_gopy_%[1]s_setter_%[2]d, " == format) = false)
        → (("%q, NULL\x7d,\n" == format) = false)
        → ((exportedFrom 0 cpy.typ.fields).flatMap (getsetRow l cpy)).filter
            (fun e => e.isPrintf format) = [] := by
      intro format l h1 h2 h3 h4
      apply filter_isPrintf_eq_nil
      simp [getsetRow, h1, h2, h3, h4]
    have ha : ∀ (format : String) (l : Nat),
        (("static PyObject*\n" == format) = false)
        → (("_gopy_%[1]s_getter_%[2]d(_gopy_%[1]s *self, void *closure) /* %[3]s */ \x7b\n"
              == format) = false)
        → (("%[1]s ret = GoPy_%[2]s_getter_%[3]d(self->cgopy);\n" == format) = false)
        → (("Py_RETURN_NONE;\n" == format) = false)
        → (("\x7d\n\n" == format) = false)
        → (("static int\n" == format) = false)
        → (("_gopy_%[1]s_setter_%[2]d(_gopy_%[1]s *self, PyObject *value, void *closure) \x7b\n"
              == format) = false)
        → (("return 0;\n" == format) = false)
        → ((exportedFrom 0 cpy.typ.fields).flatMap (accessorImpl l cpy)).filter
            (fun e => e.isPrintf format) = [] := by
      intro format l h1 h2 h3 h4 h5 h6 h7 h8
      apply filter_isPrintf_eq_nil
      simp [accessorImpl, h1, h2, h3, h4, h5, h6, h7, h8]
    refine ⟨?_, ?_, ?_, ?_, ?_, ?_⟩
    · simp only [membersDecl, List.filter_append]
      rw [filter_rows getterDeclFormat _ _ (fun p =>
        pf g.decl.level getterDeclFormat [.str cpy.ID, .int (p.1 + 1), .str p.2.Name])
        (fun p => by simp [accessorDecl, getterDeclFormat, List.filter_cons])]
      simp [getterDeclFormat, List.filter_cons]
    · simp only [membersDecl, List.filter_append]
      rw [filter_rows setterDeclFormat _ _ (fun p =>
        pf g.decl.level setterDeclFormat [.str cpy.ID, .int (p.1 + 1)])
        (fun p => by simp [accessorDecl, setterDeclFormat, List.filter_cons])]
      simp [setterDeclFormat, List.filter_cons]
    · simp only [membersImpl, List.filter_append]
      rw [filter_rows getterDefFormat _ _ (fun p =>
        pf g.impl.level getterDefFormat [.str cpy.ID, .int (p.1 + 1), .str p.2.Name])
        (fun p => by simp [accessorImpl, getterDefFormat, List.filter_cons]),
        hr _ _ (by simp [getterDefFormat]) (by simp [getterDefFormat])
          (by simp [getterDefFormat]) (by simp [getterDefFormat])]
      simp [getterDefFormat, List.filter_cons]
    · simp only [membersImpl, List.filter_append]
      rw [filter_rows setterDefFormat _ _ (fun p =>
        pf g.impl.level setterDefFormat [.str cpy.ID, .int (p.1 + 1)])
        (fun p => by simp [accessorImpl, setterDefFormat, List.filter_cons]),
        hr _ _ (by simp [setterDefFormat]) (by simp [setterDefFormat])
          (by simp [setterDefFormat]) (by simp [setterDefFormat])]
      simp [setterDefFormat, List.filter_cons]
    · simp only [membersImpl, List.filter_append]
      rw [filter_rows getterRefFormat _ (getsetRow (g.impl.level + 1) cpy) (fun p =>
        pf (g.impl.level + 1) getterRefFormat [.str cpy.ID, .int (p.1 + 1)])
        (fun p => by simp [getsetRow, getterRefFormat, List.filter_cons]),
        ha _ _ (by simp [getterRefFormat]) (by simp [getterRefFormat])
          (by simp [getterRefFormat]) (by simp [getterRefFormat]) (by simp [getterRefFormat])
          (by simp [getterRefFormat]) (by simp [getterRefFormat]) (by simp [getterRefFormat])]
      simp [getterRefFormat, List.filter_cons]
    · simp only [membersImpl, List.filter_append]
      rw [filter_rows setterRefFormat _ (getsetRow (g.impl.level + 1) cpy) (fun p =>
        pf (g.impl.level + 1) setterRefFormat [.str cpy.ID, .int (p.1 + 1)])
        (fun p => by simp [getsetRow, setterRefFormat, List.filter_cons]),
        ha _ _ (by simp [setterRefFormat]) (by simp [setterRefFormat])
          (by simp [setterRefFormat]) (by simp [setterRefFormat]) (by simp [setterRefFormat])
          (by simp [setterRefFormat]) (by simp [setterRefFormat]) (by simp [setterRefFormat])]
      simp [setterRefFormat, List.filter_cons]
  · intro p
    rw [exportedFrom_mem]
    simp

/-- C16 (amended): for every exported field, the getter that
`genStructMembers` emits declares its local with the alias
`GoPy_<Struct>_field_<index>`, the index being the 1-based position of the
field, when the type of the field needs a wrapper, and with the native name of
the type otherwise. -/
theorem getter_local_type (g : cpyGen) (cpy : Struct) :
    (implNew g (g.genStructMembers cpy)).filter (fun e => e.isPrintf getterLocalFormat)
      = (exportedFrom 0 cpy.typ.fields).map (fun p =>
          pf (g.impl.level + 1) getterLocalFormat
            [.str (if p.2.typ.needWrapType
                    then "GoPy_" ++ cpy.GoName ++ "_field_" ++ toString (p.1 + 1)
                    else p.2.typ.cgoTypeName),
             .str cpy.ID, .int (p.1 + 1)]) := by
  rw [genStructMembers_eq, implNew_extend]
  have hr : ((exportedFrom 0 cpy.typ.fields).flatMap (getsetRow (g.impl.level + 1) cpy)).filter
      (fun e => e.isPrintf getterLocalFormat) = [] := by
    apply filter_isPrintf_eq_nil
    simp [getsetRow, getterLocalFormat]
  simp only [membersImpl, List.filter_append, hr]
  rw [filter_rows getterLocalFormat _ _ (fun p =>
    pf (g.impl.level + 1) getterLocalFormat
      [.str (if p.2.typ.needWrapType
              then "GoPy_" ++ cpy.GoName ++ "_field_" ++ toString (p.1 + 1)
              else p.2.typ.cgoTypeName),
       .str cpy.ID, .int (p.1 + 1)])
    (fun p => by simp [accessorImpl, getterLocalFormat, getterTypeName, List.filter_cons])]
  simp [getterLocalFormat, List.filter_cons]

/-- C16 (counterexample): for `Polygon{Points []Point}`, whose field needs a
wrapper, the getter declares its local with the type `GoPy_Polygon_field_1`,
not `Polygon_field_1`.  Every call in the two logs of `gen` for this package is
a `Printf` of `gencpy.go`, and the text `_field_` occurs in none of them but
that line of the getter, neither in a format nor in an argument: the two
streams use the alias and hold no declaration of it. -/
theorem alias_used_without_declaration :
    (implNew gGeom gGeom.gen.1).filter (fun e => e.isPrintf getterLocalFormat)
        = [pf 1 getterLocalFormat [.str "GoPy_Polygon_field_1", .str "geom_Polygon", .int 1]]
      ∧ (declNew gGeom gGeom.gen.1).all Emit.isPrintfCall = true
      ∧ (implNew gGeom gGeom.gen.1).all Emit.isPrintfCall = true
      ∧ (declNew gGeom gGeom.gen.1).filter (Emit.hasText "_field_") = []
      ∧ (implNew gGeom gGeom.gen.1).filter (Emit.hasText "_field_")
        = [pf 1 getterLocalFormat
            [.str "GoPy_Polygon_field_1", .str "geom_Polygon", .int 1]] :=
  geom_output_field_text

/-- C17 (the code at a method with a parameter and no result): the method table
registers `Scale(k float64)` with `METH_NOARGS`, and the wrapper of `Scale`
contains the argument-parse call. -/
theorem noargs_method_parses_arguments :
    (methodsTable gShapes circleScaled).dropLast
        = [pf 1 "\x7b%[1]q, (PyCFunction)gopy_%[2]s, %[3]s, %[4]q\x7d,\n"
            [.str "Scale", .str "shapes_Circle_Scale", .str "METH_NOARGS",
             .str "Scale scales the circle."]]
      ∧ (bodyNew gShapes circleScale.ID circleScale.sig).filter
          (fun e => e.isPrintf parseOpener)
        = [pf 0 parseOpener []] := by
  constructor
  · rw [methodsTable_eq]
    simp [gShapes, circleScaled, circleScale, methodRow, methodConvention]
  · rw [bodyNew_eq]
    simp [bodyOut, bodyDecls, bodyParse, bodyCall, bodyReturn, gShapes, circleScale,
      parseOpener, List.filter_cons]

/-- C18: `gen` records no error itself: the accumulator after `gen` is the
accumulator before it; `gen` returns nil exactly when the accumulator was empty
on entry and returns that accumulator otherwise; and in both cases the two
logs receive the full output, the same as from an empty accumulator. -/
theorem gen_records_no_error (g : cpyGen) :
    g.gen.1.err = g.err
      ∧ (g.gen.2 = none ↔ g.err = [])
      ∧ (g.err ≠ [] → g.gen.2 = some g.err)
      ∧ g.gen.1.decl = ({ g with err := [] } : cpyGen).gen.1.decl
      ∧ g.gen.1.impl = ({ g with err := [] } : cpyGen).gen.1.impl
      ∧ declNew g g.gen.1 = genDecl g.decl.level g.pkg
      ∧ implNew g g.gen.1 = genImpl g.impl.level g.pkg := by
  rw [gen_err, gen_eq, gen_eq]
  refine ⟨by simp, ?_, ?_, by simp [cpyGen.extend], by simp [cpyGen.extend], by simp, by simp⟩
  · cases h : g.err <;> simp
  · intro h
    cases h' : g.err with
    | nil => exact absurd h' h
    | cons a as => simp

/-- Witness of C18 at a generator entered with one accumulated error. -/
theorem gen_records_no_error_witness :
    gShapesErr.err ≠ [] ∧ gShapesErr.gen.2 = some gShapesErr.err :=
  ⟨by simp [gShapesErr], (gen_records_no_error gShapesErr).2.2.1 (by simp [gShapesErr])⟩

/-- C19: every generation operation is balanced: it leaves the indentation
level of both printers as it found it, on every input, it never writes above
its entry level, and it only appends to the two logs, what was there before
remaining a leading part of what is there after. -/
theorem operations_balanced :
    Balanced (fun g => g.gen.1)
      ∧ (∀ cpy, Balanced (fun g => g.genStruct cpy))
      ∧ (∀ cpy, Balanced (fun g => g.genStructNew cpy))
      ∧ (∀ cpy, Balanced (fun g => g.genStructDealloc cpy))
      ∧ (∀ cpy, Balanced (fun g => g.genStructInit cpy))
      ∧ (∀ cpy, Balanced (fun g => g.genStructMembers cpy))
      ∧ (∀ cpy, Balanced (fun g => g.genStructMethods cpy))
      ∧ (∀ cpy fct, Balanced (fun g => g.genMethod cpy fct))
      ∧ (∀ o, Balanced (fun g => g.genFunc o))
      ∧ (∀ id sig, Balanced (fun g => g.genFuncBody id sig))
      ∧ Balanced cpyGen.genPreamble := by
  refine ⟨?_, ?_, ?_, ?_, ?_, ?_, ?_, ?_, ?_, ?_, ?_⟩
  · exact balanced_of_extend _ _ _ gen_eq (fun g => atLeast_genDecl _ _)
      (fun g => atLeast_genImpl _ _)
  · intro cpy
    exact balanced_of_extend _ _ _ (fun g => genStruct_eq g cpy)
      (fun g => atLeast_structDecl _ _ _) (fun g => atLeast_structImpl _ _ _)
  · intro cpy
    exact balanced_of_extend _ _ _ (fun g => genStructNew_eq g cpy)
      (fun g => by simp [newDecl]) (fun g => by simp [newImpl])
  · intro cpy
    exact balanced_of_extend _ _ _ (fun g => genStructDealloc_eq g cpy)
      (fun g => by simp [deallocDecl]) (fun g => by simp [deallocImpl])
  · intro cpy
    exact balanced_of_extend _ _ _ (fun g => genStructInit_eq g cpy)
      (fun g => by simp [initDecl]) (fun g => by simp [initImpl])
  · intro cpy
    exact balanced_of_extend _ _ _ (fun g => genStructMembers_eq g cpy)
      (fun g => atLeast_membersDecl _ _) (fun g => atLeast_membersImpl _ _)
  · intro cpy
    exact balanced_of_extend _ _ _ (fun g => genStructMethods_eq g cpy)
      (fun g => atLeast_methodsDecl _ _ _) (fun g => atLeast_methodsImpl _ _ _)
  · intro cpy fct
    exact balanced_of_extend _ _ _ (fun g => genMethod_eq g cpy fct)
      (fun g => by simp [methodDecl]) (fun g => atLeast_methodImpl _ _ _ _)
  · intro o
    exact balanced_of_extend _ (fun _ => []) _ (fun g => genFunc_eq g o)
      (fun g => by simp) (fun g => atLeast_funcImpl _ _ _)
  · intro id sig
    exact balanced_of_extend _ (fun _ => []) _ (fun g => genFuncBody_eq g id sig)
      (fun g => by simp) (fun g => atLeast_bodyOut _ _ _)
  · exact balanced_of_extend _ _ (fun _ => []) genPreamble_eq
      (fun g => by simp) (fun g => by simp)

end Gopy
